import Mathlib

/-!
3D board-to-mesh generation (`c3d_render_createscene_ogl_legacy.cpp`)

A shallow embedding of the scene-creation code of the legacy OpenGL 3D viewer.

* C++ `float` values are elements of an arbitrary linearly ordered field `α`
  (exact arithmetic: rounding, infinities and NaN are outside the model).  The
  definitions are generic and run over `ℚ`; theorems that need trigonometry
  instantiate them at `ℝ`.
* The C library functions `sqrtf`, `cos`, `sin` and the constant
  `glm::pi<float>()` are supplied through a `FloatMath` record.
* A mesh sub-buffer is the list of `AddTriangle` / `AddQuad` calls it received,
  in call order.
* A function that may loop forever or divide by zero returns `Option`
  (`none` = the call does not return) and takes a fuel argument when it
  contains the loop itself.
* A nullable pointer result is an `Option` as well (`none` = `nullptr`).
-/

namespace C3D_RENDER_OGL_LEGACY

/-! ## Data model -/

/-- The `float` library functions used by the scene code. -/
structure FloatMath (α : Type) where
  /-- The function `sqrtf`. -/
  sqrtf : α → α
  /-- The function `cos`. -/
  cos : α → α
  /-- The function `sin`. -/
  sin : α → α
  /-- The constant `glm::pi<float>()`. -/
  pi : α

/-- A 2D point `SFVEC2F` (`glm::vec2`). -/
structure SFVEC2F (α : Type) where
  x : α
  y : α
deriving DecidableEq, Repr

/-- A 3D point `SFVEC3F` (`glm::vec3`). -/
structure SFVEC3F (α : Type) where
  x : α
  y : α
  z : α
deriving DecidableEq, Repr

/-- One face handed to a triangle container: the arguments of one `AddTriangle`
or one `AddQuad` call, in argument order. -/
inductive Face (α : Type) where
  | triangle (v1 v2 v3 : SFVEC3F α)
  | quad (v1 v2 v3 v4 : SFVEC3F α)
deriving DecidableEq, Repr

/-- Modelled from the spec: the triangle container `CLAYER_TRIANGLE_CONTAINER`
(its class is not among the sources) is a growth-only buffer; it is the list of
the faces appended so far. -/
abbrev CLAYER_TRIANGLE_CONTAINER (α : Type) := List (Face α)

/-- The call `AddTriangle( v1, v2, v3 )` appends one triangle. -/
def CLAYER_TRIANGLE_CONTAINER.AddTriangle {α : Type} (buf : CLAYER_TRIANGLE_CONTAINER α)
    (v1 v2 v3 : SFVEC3F α) : CLAYER_TRIANGLE_CONTAINER α :=
  buf ++ [Face.triangle v1 v2 v3]

/-- The call `AddQuad( v1, v2, v3, v4 )` appends one quad. -/
def CLAYER_TRIANGLE_CONTAINER.AddQuad {α : Type} (buf : CLAYER_TRIANGLE_CONTAINER α)
    (v1 v2 v3 v4 : SFVEC3F α) : CLAYER_TRIANGLE_CONTAINER α :=
  buf ++ [Face.quad v1 v2 v3 v4]

/-- Modelled from the spec: a polygon set `SHAPE_POLY_SET` (its class is not
among the sources) is a list of outlines; an outline is its list of contours
(the boundary first, then the holes) and a contour an ordered ring of integer
points. -/
structure SHAPE_POLY_SET where
  outlines : List (List (List (Int × Int)))
deriving DecidableEq, Repr

/-- The number of outlines, `OutlineCount()`. -/
def SHAPE_POLY_SET.OutlineCount (p : SHAPE_POLY_SET) : Nat := p.outlines.length

/-- The arguments of one `AddToMiddleContourns` call (side walls): either the
polygon-set overload `( poly, zBot, zTop, biuTo3Dunits, invertFaces )` or the
contour overload `( contour, zBot, zTop, invertFaces )`. -/
inductive MiddleContourCall (α : Type) where
  | ofPoly (aPolySet : SHAPE_POLY_SET) (zBot zTop : α) (aBiuTo3Du : α) (aInvertFaceDirection : Bool)
  | ofContour (aContourPoints : List (SFVEC2F α)) (zBot zTop : α) (aInvertFaceDirection : Bool)
deriving DecidableEq, Repr

/-- Modelled from the spec: the mesh buffer `CLAYER_TRIANGLES` (its class is not
among the sources): top-facing faces, bottom-facing faces, the segment-end
faces split top/bottom, and the side-wall requests received so far. -/
structure CLAYER_TRIANGLES (α : Type) where
  m_layer_top_segment_ends : CLAYER_TRIANGLE_CONTAINER α
  m_layer_top_triangles : CLAYER_TRIANGLE_CONTAINER α
  m_layer_bot_triangles : CLAYER_TRIANGLE_CONTAINER α
  m_layer_bot_segment_ends : CLAYER_TRIANGLE_CONTAINER α
  m_layer_middle_contourns_quads : List (MiddleContourCall α)
deriving DecidableEq, Repr

/-- A freshly constructed mesh buffer, `new CLAYER_TRIANGLES( n )`; the
argument is a capacity hint only. -/
def CLAYER_TRIANGLES.new {α : Type} (_aNrReservedTriangles : Nat) : CLAYER_TRIANGLES α :=
  ⟨[], [], [], [], []⟩

/-- The polygon-set overload of `AddToMiddleContourns`. -/
def CLAYER_TRIANGLES.AddToMiddleContourns {α : Type} (m : CLAYER_TRIANGLES α)
    (aPolySet : SHAPE_POLY_SET) (zBot zTop aBiuTo3Du : α) (aInvertFaceDirection : Bool) :
    CLAYER_TRIANGLES α :=
  { m with m_layer_middle_contourns_quads :=
      m.m_layer_middle_contourns_quads ++
        [MiddleContourCall.ofPoly aPolySet zBot zTop aBiuTo3Du aInvertFaceDirection] }

/-- The contour overload of `AddToMiddleContourns`. -/
def CLAYER_TRIANGLES.AddToMiddleContournsContour {α : Type} (m : CLAYER_TRIANGLES α)
    (aContourPoints : List (SFVEC2F α)) (zBot zTop : α) (aInvertFaceDirection : Bool) :
    CLAYER_TRIANGLES α :=
  { m with m_layer_middle_contourns_quads :=
      m.m_layer_middle_contourns_quads ++
        [MiddleContourCall.ofContour aContourPoints zBot zTop aInvertFaceDirection] }

/-- Modelled from the spec: the renderable layer object
`CLAYERS_OGL_DISP_LISTS` (its class is not among the sources): a snapshot of a
mesh buffer, the circle texture handle and the Z bounds, stored in constructor
argument order `( triangles, texture, zBot, zTop )`. -/
structure CLAYERS_OGL_DISP_LISTS (α : Type) where
  triangles : CLAYER_TRIANGLES α
  aTextureIndexForSegEnds : Nat
  aZBot : α
  aZTop : α
deriving DecidableEq, Repr

/-- A board layer identifier `PCB_LAYER_ID`. -/
abbrev PCB_LAYER_ID := Int

/-- Modelled from the spec: the board adapter (class `BOARD_ADAPTER` is not
among the sources), as the queries the scene code makes of it. -/
structure BOARD_ADAPTER (α : Type) where
  GetLayerTopZpos3DU : PCB_LAYER_ID → α
  GetLayerBottomZpos3DU : PCB_LAYER_ID → α
  BiuTo3Dunits : α
  Is3DLayerEnabled : PCB_LAYER_ID → Bool
  GetNrSegmentsCircle : α → Nat

/-- The filled circle primitive `CFILLEDCIRCLE2D`, as its getters. -/
structure CFILLEDCIRCLE2D (α : Type) where
  GetCenter : SFVEC2F α
  GetRadius : α
deriving DecidableEq, Repr

/-- The 4-point polygon primitive `CPOLYGON4PTS2D`, as its getters. -/
structure CPOLYGON4PTS2D (α : Type) where
  GetV0 : SFVEC2F α
  GetV1 : SFVEC2F α
  GetV2 : SFVEC2F α
  GetV3 : SFVEC2F α
deriving DecidableEq, Repr

/-- The ring primitive `CRING2D`, as its getters. -/
structure CRING2D (α : Type) where
  GetCenter : SFVEC2F α
  GetInnerRadius : α
  GetOuterRadius : α
deriving DecidableEq, Repr

/-- The triangle primitive `CTRIANGLE2D`, as its getters. -/
structure CTRIANGLE2D (α : Type) where
  GetP1 : SFVEC2F α
  GetP2 : SFVEC2F α
  GetP3 : SFVEC2F α
deriving DecidableEq, Repr

/-- The rounded segment primitive `CROUNDSEGMENT2D`, as its getters. -/
structure CROUNDSEGMENT2D (α : Type) where
  GetLeftStar : SFVEC2F α
  GetLeftEnd : SFVEC2F α
  GetLeftDir : SFVEC2F α
  GetRightStar : SFVEC2F α
  GetRightEnd : SFVEC2F α
  GetRightDir : SFVEC2F α
  GetRadius : α
  GetRadiusSquared : α
  GetStart : SFVEC2F α
  GetEnd : SFVEC2F α
deriving DecidableEq, Repr

/-- A 2D primitive `COBJECT2D`, tagged by `GetObjectType()`.  The last
constructor stands for every object type the dispatchers do not handle. -/
inductive COBJECT2D (α : Type) where
  | FILLED_CIRCLE (o : CFILLEDCIRCLE2D α)
  | POLYGON4PT (o : CPOLYGON4PTS2D α)
  | RING (o : CRING2D α)
  | TRIANGLE (o : CTRIANGLE2D α)
  | ROUNDSEG (o : CROUNDSEGMENT2D α)
  | OTHER
deriving DecidableEq, Repr

/-- The primitive list `LIST_OBJECT2D` of a container. -/
abbrev LIST_OBJECT2D (α : Type) := List (COBJECT2D α)

/-- The renderer: its board adapter, the circle texture handle and the
compile-time constant `SIZE_OF_CIRCLE_TEXTURE` (defined in a header that is not
among the sources). -/
structure Renderer (α : Type) where
  m_boardAdapter : BOARD_ADAPTER α
  m_ogl_circle_texture : Nat
  SIZE_OF_CIRCLE_TEXTURE : α
  math : FloatMath α

set_option linter.unusedSectionVars false

variable {α : Type} [LinearOrderedField α]

/-! ## The Z-extent resolver -/

/-- The function `get_layer_z_pos`: the pair `(aOutZtop, aOutZbot)` it writes. -/
def get_layer_z_pos (m_boardAdapter : BOARD_ADAPTER α) (aLayerID : PCB_LAYER_ID) : α × α :=
  let aOutZbot := m_boardAdapter.GetLayerBottomZpos3DU aLayerID
  let aOutZtop := m_boardAdapter.GetLayerTopZpos3DU aLayerID
  if aOutZtop < aOutZbot then
    let tmpFloat := aOutZbot
    let aOutZbot := aOutZtop
    let aOutZtop := tmpFloat
    (aOutZtop, aOutZbot)
  else
    (aOutZtop, aOutZbot)

/-! ## Primitive-to-mesh converters -/

/-- The function `add_triangle_top_bot`. -/
def add_triangle_top_bot (aDst : CLAYER_TRIANGLES α) (v0 v1 v2 : SFVEC2F α) (top bot : α) :
    CLAYER_TRIANGLES α :=
  let aDst := { aDst with
    m_layer_bot_triangles := aDst.m_layer_bot_triangles.AddTriangle
      ⟨v0.x, v0.y, bot⟩ ⟨v1.x, v1.y, bot⟩ ⟨v2.x, v2.y, bot⟩ }
  { aDst with
    m_layer_top_triangles := aDst.m_layer_top_triangles.AddTriangle
      ⟨v2.x, v2.y, top⟩ ⟨v1.x, v1.y, top⟩ ⟨v0.x, v0.y, top⟩ }

/-- The overload `add_object_to_triangle_layer( const CFILLEDCIRCLE2D*, ... )`. -/
def add_object_to_triangle_layer_CFILLEDCIRCLE2D (R : Renderer α) (aFilledCircle : CFILLEDCIRCLE2D α)
    (aDstLayer : CLAYER_TRIANGLES α) (aZtop aZbot : α) : CLAYER_TRIANGLES α :=
  let center := aFilledCircle.GetCenter
  let radius := aFilledCircle.GetRadius * 2
  let texture_factor := (8 / R.SIZE_OF_CIRCLE_TEXTURE) + 1
  let f := (R.math.sqrtf 2 / 2) * radius * texture_factor
  let aDstLayer := { aDstLayer with
    m_layer_top_segment_ends := aDstLayer.m_layer_top_segment_ends.AddTriangle
      ⟨center.x + f, center.y, aZtop⟩ ⟨center.x - f, center.y, aZtop⟩
      ⟨center.x, center.y - f, aZtop⟩ }
  let aDstLayer := { aDstLayer with
    m_layer_top_segment_ends := aDstLayer.m_layer_top_segment_ends.AddTriangle
      ⟨center.x - f, center.y, aZtop⟩ ⟨center.x + f, center.y, aZtop⟩
      ⟨center.x, center.y + f, aZtop⟩ }
  let aDstLayer := { aDstLayer with
    m_layer_bot_segment_ends := aDstLayer.m_layer_bot_segment_ends.AddTriangle
      ⟨center.x - f, center.y, aZbot⟩ ⟨center.x + f, center.y, aZbot⟩
      ⟨center.x, center.y - f, aZbot⟩ }
  { aDstLayer with
    m_layer_bot_segment_ends := aDstLayer.m_layer_bot_segment_ends.AddTriangle
      ⟨center.x + f, center.y, aZbot⟩ ⟨center.x - f, center.y, aZbot⟩
      ⟨center.x, center.y + f, aZbot⟩ }

/-- The overload `add_object_to_triangle_layer( const CPOLYGON4PTS2D*, ... )`. -/
def add_object_to_triangle_layer_CPOLYGON4PTS2D (aPoly : CPOLYGON4PTS2D α)
    (aDstLayer : CLAYER_TRIANGLES α) (aZtop aZbot : α) : CLAYER_TRIANGLES α :=
  let v0 := aPoly.GetV0
  let v1 := aPoly.GetV1
  let v2 := aPoly.GetV2
  let v3 := aPoly.GetV3
  let aDstLayer := add_triangle_top_bot aDstLayer v0 v2 v1 aZtop aZbot
  add_triangle_top_bot aDstLayer v2 v0 v3 aZtop aZbot

/-- The overload `add_object_to_triangle_layer( const CTRIANGLE2D*, ... )`. -/
def add_object_to_triangle_layer_CTRIANGLE2D (aTri : CTRIANGLE2D α)
    (aDstLayer : CLAYER_TRIANGLES α) (aZtop aZbot : α) : CLAYER_TRIANGLES α :=
  let v1 := aTri.GetP1
  let v2 := aTri.GetP2
  let v3 := aTri.GetP3
  add_triangle_top_bot aDstLayer v1 v2 v3 aZtop aZbot

/-! ## The ring contour generator -/

/-- The `for( int ii = 0; ii < 3600; ii += delta )` loop of
`generate_ring_contour`, from the state `(ii, aInnerContourResult,
aOuterContourResult)`; one unit of fuel per evaluation of the loop test.
The counter `ii` is never negative, so it is a natural number. -/
def generate_ring_contour_loop (M : FloatMath α) (aCenter : SFVEC2F α)
    (aInnerRadius aOuterRadius : α) (aInvertOrder : Bool) (delta : Nat) :
    Nat → Nat → List (SFVEC2F α) → List (SFVEC2F α) →
      Option (List (SFVEC2F α) × List (SFVEC2F α))
  | 0, _, _, _ => none
  | fuel + 1, ii, aInnerContourResult, aOuterContourResult =>
    if ii < 3600 then
      let angle : α := ((if aInvertOrder then 3600 - ii else ii : Nat) : α) * 2 * M.pi / 3600
      let rotatedDir : SFVEC2F α := ⟨M.cos angle, M.sin angle⟩
      generate_ring_contour_loop M aCenter aInnerRadius aOuterRadius aInvertOrder delta fuel
        (ii + delta)
        (aInnerContourResult ++
          [⟨aCenter.x + rotatedDir.x * aInnerRadius, aCenter.y + rotatedDir.y * aInnerRadius⟩])
        (aOuterContourResult ++
          [⟨aCenter.x + rotatedDir.x * aOuterRadius, aCenter.y + rotatedDir.y * aOuterRadius⟩])
    else
      some (aInnerContourResult, aOuterContourResult)

/-- The function `generate_ring_contour`: the pair `(aInnerContourResult,
aOuterContourResult)` it leaves, or `none` when the call does not return
(division by zero for a zero segment count, or an endless loop).  The
`reserve` calls are capacity hints and the final `wxASSERT` compares the two
sizes, which the loop keeps equal. -/
def generate_ring_contour (M : FloatMath α) (fuel : Nat) (aCenter : SFVEC2F α)
    (aInnerRadius aOuterRadius : α) (aNr_sides_per_circle : Nat) (aInvertOrder : Bool) :
    Option (List (SFVEC2F α) × List (SFVEC2F α)) :=
  if aNr_sides_per_circle = 0 then
    none
  else
    let delta := 3600 / aNr_sides_per_circle
    match generate_ring_contour_loop M aCenter aInnerRadius aOuterRadius aInvertOrder delta
        fuel 0 [] [] with
    | none => none
    | some (aInnerContourResult, aOuterContourResult) =>
      match aInnerContourResult[0]?, aOuterContourResult[0]? with
      | some i0, some o0 => some (aInnerContourResult ++ [i0], aOuterContourResult ++ [o0])
      | _, _ => none

/-- The values of `ii` for which the loop body of `generate_ring_contour` runs
(a proof device: the same recursion as the loop, keeping only the counter). -/
def ring_loop_counters (delta : Nat) : Nat → Nat → Option (List Nat)
  | 0, _ => none
  | fuel + 1, ii =>
    if ii < 3600 then (ring_loop_counters delta fuel (ii + delta)).map (fun l => ii :: l)
    else some []

/-- The contour point computed by one pass of the loop body of
`generate_ring_contour` for counter value `ii` and radius `r`. -/
def ring_point (M : FloatMath α) (aCenter : SFVEC2F α) (aInvertOrder : Bool) (r : α)
    (ii : Nat) : SFVEC2F α :=
  ⟨aCenter.x + M.cos (((if aInvertOrder then 3600 - ii else ii : Nat) : α) * 2 * M.pi / 3600) * r,
   aCenter.y + M.sin (((if aInvertOrder then 3600 - ii else ii : Nat) : α) * 2 * M.pi / 3600) * r⟩

/-- One pass of the quad loop shared by the ring converter and
`generate_cylinder`: the top and the bottom quad between contour points `i`
and `i + 1`.  Both contours have the same size, so the indices are in range. -/
def add_ring_quads (innerContour outerContour : List (SFVEC2F α)) (aZtop aZbot : α)
    (aDstLayer : CLAYER_TRIANGLES α) (i : Nat) : CLAYER_TRIANGLES α :=
  let vi0 := innerContour.getD (i + 0) ⟨0, 0⟩
  let vi1 := innerContour.getD (i + 1) ⟨0, 0⟩
  let vo0 := outerContour.getD (i + 0) ⟨0, 0⟩
  let vo1 := outerContour.getD (i + 1) ⟨0, 0⟩
  let aDstLayer := { aDstLayer with
    m_layer_top_triangles := aDstLayer.m_layer_top_triangles.AddQuad
      ⟨vi1.x, vi1.y, aZtop⟩ ⟨vi0.x, vi0.y, aZtop⟩ ⟨vo0.x, vo0.y, aZtop⟩ ⟨vo1.x, vo1.y, aZtop⟩ }
  { aDstLayer with
    m_layer_bot_triangles := aDstLayer.m_layer_bot_triangles.AddQuad
      ⟨vi1.x, vi1.y, aZbot⟩ ⟨vo1.x, vo1.y, aZbot⟩ ⟨vo0.x, vo0.y, aZbot⟩ ⟨vi0.x, vi0.y, aZbot⟩ }

/-- The overload `add_object_to_triangle_layer( const CRING2D*, ... )`; `none`
when `generate_ring_contour` does not return. -/
def add_object_to_triangle_layer_CRING2D (R : Renderer α) (fuel : Nat) (aRing : CRING2D α)
    (aDstLayer : CLAYER_TRIANGLES α) (aZtop aZbot : α) : Option (CLAYER_TRIANGLES α) :=
  let center := aRing.GetCenter
  let inner := aRing.GetInnerRadius
  let outer := aRing.GetOuterRadius
  match generate_ring_contour R.math fuel center inner outer
      (R.m_boardAdapter.GetNrSegmentsCircle (outer * 2)) false with
  | none => none
  | some (innerContour, outerContour) =>
    some ((List.range (innerContour.length - 1)).foldl
      (add_ring_quads innerContour outerContour aZtop aZbot) aDstLayer)

/-- The overload `add_object_to_triangle_layer( const CROUNDSEGMENT2D*, ... )`. -/
def add_object_to_triangle_layer_CROUNDSEGMENT2D (R : Renderer α) (aSeg : CROUNDSEGMENT2D α)
    (aDstLayer : CLAYER_TRIANGLES α) (aZtop aZbot : α) : CLAYER_TRIANGLES α :=
  let leftStart := aSeg.GetLeftStar
  let leftEnd := aSeg.GetLeftEnd
  let leftDir := aSeg.GetLeftDir
  let rightStart := aSeg.GetRightStar
  let rightEnd := aSeg.GetRightEnd
  let rightDir := aSeg.GetRightDir
  let radius := aSeg.GetRadius
  let start := aSeg.GetStart
  let end_ := aSeg.GetEnd
  let texture_factor := (12 / R.SIZE_OF_CIRCLE_TEXTURE) + 1
  let texture_factorF := (6 / R.SIZE_OF_CIRCLE_TEXTURE) + 1
  let radius_of_the_square := R.math.sqrtf (aSeg.GetRadiusSquared * 2)
  let radius_triangle_factor := (radius_of_the_square - radius) / radius
  let factorS : SFVEC2F α := ⟨-rightDir.y * radius * radius_triangle_factor,
                               rightDir.x * radius * radius_triangle_factor⟩
  let factorE : SFVEC2F α := ⟨-leftDir.y * radius * radius_triangle_factor,
                               leftDir.x * radius * radius_triangle_factor⟩
  let aDstLayer := { aDstLayer with
    m_layer_top_segment_ends := aDstLayer.m_layer_top_segment_ends.AddTriangle
      ⟨rightEnd.x + texture_factor * factorS.x, rightEnd.y + texture_factor * factorS.y, aZtop⟩
      ⟨leftStart.x + texture_factor * factorE.x, leftStart.y + texture_factor * factorE.y, aZtop⟩
      ⟨start.x - texture_factorF * leftDir.x * radius * R.math.sqrtf 2,
       start.y - texture_factorF * leftDir.y * radius * R.math.sqrtf 2, aZtop⟩ }
  let aDstLayer := { aDstLayer with
    m_layer_top_segment_ends := aDstLayer.m_layer_top_segment_ends.AddTriangle
      ⟨leftEnd.x + texture_factor * factorE.x, leftEnd.y + texture_factor * factorE.y, aZtop⟩
      ⟨rightStart.x + texture_factor * factorS.x, rightStart.y + texture_factor * factorS.y, aZtop⟩
      ⟨end_.x - texture_factorF * rightDir.x * radius * R.math.sqrtf 2,
       end_.y - texture_factorF * rightDir.y * radius * R.math.sqrtf 2, aZtop⟩ }
  let aDstLayer := { aDstLayer with
    m_layer_bot_segment_ends := aDstLayer.m_layer_bot_segment_ends.AddTriangle
      ⟨leftStart.x + texture_factor * factorE.x, leftStart.y + texture_factor * factorE.y, aZbot⟩
      ⟨rightEnd.x + texture_factor * factorS.x, rightEnd.y + texture_factor * factorS.y, aZbot⟩
      ⟨start.x - texture_factorF * leftDir.x * radius * R.math.sqrtf 2,
       start.y - texture_factorF * leftDir.y * radius * R.math.sqrtf 2, aZbot⟩ }
  let aDstLayer := { aDstLayer with
    m_layer_bot_segment_ends := aDstLayer.m_layer_bot_segment_ends.AddTriangle
      ⟨rightStart.x + texture_factor * factorS.x, rightStart.y + texture_factor * factorS.y, aZbot⟩
      ⟨leftEnd.x + texture_factor * factorE.x, leftEnd.y + texture_factor * factorE.y, aZbot⟩
      ⟨end_.x - texture_factorF * rightDir.x * radius * R.math.sqrtf 2,
       end_.y - texture_factorF * rightDir.y * radius * R.math.sqrtf 2, aZbot⟩ }
  let aDstLayer := { aDstLayer with
    m_layer_top_triangles := aDstLayer.m_layer_top_triangles.AddQuad
      ⟨rightEnd.x, rightEnd.y, aZtop⟩ ⟨rightStart.x, rightStart.y, aZtop⟩
      ⟨leftEnd.x, leftEnd.y, aZtop⟩ ⟨leftStart.x, leftStart.y, aZtop⟩ }
  { aDstLayer with
    m_layer_bot_triangles := aDstLayer.m_layer_bot_triangles.AddQuad
      ⟨rightEnd.x, rightEnd.y, aZbot⟩ ⟨leftStart.x, leftStart.y, aZbot⟩
      ⟨leftEnd.x, leftEnd.y, aZbot⟩ ⟨rightStart.x, rightStart.y, aZbot⟩ }

/-! ## The layer mesh assemblers -/

/-- Modelled from the spec: the 2D spatial container `CBVHCONTAINER2D` (its
class is not among the sources), as the ordered primitive list it yields. -/
structure CBVHCONTAINER2D (α : Type) where
  GetList : LIST_OBJECT2D α
deriving DecidableEq, Repr

/-- A returned value together with the number of `wxASSERT` / `wxFAIL_MSG`
checks that failed on the way; a failed check reports and execution goes on
with the next statement. -/
structure Traced (β : Type) where
  ret : β
  failedAsserts : Nat
deriving DecidableEq, Repr

/-- The primitive loop of `generate_holes_display_list`: the `wxASSERT` on the
object type, then the `switch`. -/
def generate_holes_display_list_loop (R : Renderer α) (aZtop aZbot : α) :
    List (COBJECT2D α) → CLAYER_TRIANGLES α × Nat → CLAYER_TRIANGLES α × Nat
  | [], st => st
  | object2d_A :: rest, (layerTriangles, failed) =>
    let failed :=
      match object2d_A with
      | .FILLED_CIRCLE _ => failed
      | .ROUNDSEG _ => failed
      | _ => failed + 1
    match object2d_A with
    | .FILLED_CIRCLE o =>
      generate_holes_display_list_loop R aZtop aZbot rest
        (add_object_to_triangle_layer_CFILLEDCIRCLE2D R o layerTriangles aZtop aZbot, failed)
    | .ROUNDSEG o =>
      generate_holes_display_list_loop R aZtop aZbot rest
        (add_object_to_triangle_layer_CROUNDSEGMENT2D R o layerTriangles aZtop aZbot, failed)
    | _ =>
      generate_holes_display_list_loop R aZtop aZbot rest (layerTriangles, failed + 1)

/-- The function `generate_holes_display_list`. -/
def generate_holes_display_list (R : Renderer α) (aListHolesObject2d : LIST_OBJECT2D α)
    (aPoly : SHAPE_POLY_SET) (aZtop aZbot : α) (aInvertFaces : Bool) :
    Traced (Option (CLAYERS_OGL_DISP_LISTS α)) :=
  if aListHolesObject2d.length > 0 then
    let layerTriangles : CLAYER_TRIANGLES α := CLAYER_TRIANGLES.new (aListHolesObject2d.length * 2)
    let st := generate_holes_display_list_loop R aZtop aZbot aListHolesObject2d (layerTriangles, 0)
    let layerTriangles :=
      if aPoly.OutlineCount > 0 then
        st.1.AddToMiddleContourns aPoly aZbot aZtop R.m_boardAdapter.BiuTo3Dunits aInvertFaces
      else
        st.1
    ⟨some ⟨layerTriangles, R.m_ogl_circle_texture, aZbot, aZtop⟩, st.2⟩
  else
    ⟨none, 0⟩

/-- The `switch` of `generateLayerListFromContainer` for one primitive: the
overload of `add_object_to_triangle_layer` chosen by the object type, the
`default` branch failing a check and leaving the mesh as it is; `none` when
the chosen overload does not return. -/
def add_object_to_triangle_layer (R : Renderer α) (fuel : Nat) (object2d_A : COBJECT2D α)
    (st : CLAYER_TRIANGLES α × Nat) (layer_z_top layer_z_bot : α) :
    Option (CLAYER_TRIANGLES α × Nat) :=
  match object2d_A with
  | .FILLED_CIRCLE o =>
    some (add_object_to_triangle_layer_CFILLEDCIRCLE2D R o st.1 layer_z_top layer_z_bot, st.2)
  | .POLYGON4PT o =>
    some (add_object_to_triangle_layer_CPOLYGON4PTS2D o st.1 layer_z_top layer_z_bot, st.2)
  | .RING o =>
    (add_object_to_triangle_layer_CRING2D R fuel o st.1 layer_z_top layer_z_bot).map
      (fun layerTriangles => (layerTriangles, st.2))
  | .TRIANGLE o =>
    some (add_object_to_triangle_layer_CTRIANGLE2D o st.1 layer_z_top layer_z_bot, st.2)
  | .ROUNDSEG o =>
    some (add_object_to_triangle_layer_CROUNDSEGMENT2D R o st.1 layer_z_top layer_z_bot, st.2)
  | .OTHER => some (st.1, st.2 + 1)

/-- The primitive loop of `generateLayerListFromContainer`. -/
def generateLayerListFromContainer_loop (R : Renderer α) (fuel : Nat)
    (layer_z_top layer_z_bot : α) :
    List (COBJECT2D α) → CLAYER_TRIANGLES α × Nat → Option (CLAYER_TRIANGLES α × Nat)
  | [], st => some st
  | object2d_A :: rest, st =>
    match add_object_to_triangle_layer R fuel object2d_A st layer_z_top layer_z_bot with
    | none => none
    | some st => generateLayerListFromContainer_loop R fuel layer_z_top layer_z_bot rest st

/-- The function `generateLayerListFromContainer` (the layer mesh assembler);
`none` when the call does not return.  The bookkeeping list `m_triangles` of
buffers to delete later is not part of the model. -/
def generateLayerListFromContainer (R : Renderer α) (fuel : Nat)
    (aContainer : Option (CBVHCONTAINER2D α)) (aPolyList : Option SHAPE_POLY_SET)
    (aLayerId : PCB_LAYER_ID) : Option (Traced (Option (CLAYERS_OGL_DISP_LISTS α))) :=
  match aContainer with
  | none => some ⟨none, 0⟩
  | some aContainer =>
    let listObject2d := aContainer.GetList
    if listObject2d.length = 0 then
      some ⟨none, 0⟩
    else
      let z := get_layer_z_pos R.m_boardAdapter aLayerId
      let layer_z_top := z.1
      let layer_z_bot := z.2
      let nrTrianglesEstimation := listObject2d.length * 8
      let layerTriangles : CLAYER_TRIANGLES α := CLAYER_TRIANGLES.new nrTrianglesEstimation
      match generateLayerListFromContainer_loop R fuel layer_z_top layer_z_bot listObject2d
          (layerTriangles, 0) with
      | none => none
      | some st =>
        let layerTriangles :=
          match aPolyList with
          | some poly =>
            if poly.OutlineCount > 0 then
              st.1.AddToMiddleContourns poly layer_z_bot layer_z_top
                R.m_boardAdapter.BiuTo3Dunits false
            else
              st.1
          | none => st.1
        some ⟨some ⟨layerTriangles, R.m_ogl_circle_texture, layer_z_bot, layer_z_top⟩, st.2⟩

/-! ## The orchestrator: board, vias, layers and 3D models -/

/-- The feature toggles queried through `GetFlag` in the scene code. -/
inductive DISPLAY3D_FLG where
  | FL_MODULE_ATTRIBUTES_NORMAL
  | FL_MODULE_ATTRIBUTES_NORMAL_INSERT
  | FL_MODULE_ATTRIBUTES_VIRTUAL
  | FL_CLIP_SILK_ON_VIA_ANNULUS
  | FL_RENDER_PLATED_PADS_AS_PLATED
deriving DecidableEq, Repr

/-- A footprint model reference `MODULE_3D_SETTINGS`, as the two fields read. -/
structure MODULE_3D_SETTINGS where
  m_Show : Bool
  m_Filename : String
deriving DecidableEq, Repr

/-- A footprint `MODULE`, as its list of model references `Models()`. -/
structure MODULE where
  Models : List MODULE_3D_SETTINGS
deriving DecidableEq, Repr

/-- A via `VIA`, as the getters read: the drill value and the start point in
board units (32-bit `int` values, from `INT_MIN` to `INT_MAX`), and the layer
pair `(top_layer, bottom_layer)` that `LayerPair` writes. -/
structure VIA where
  GetDrillValue : Int
  GetStart : Int × Int
  LayerPair : PCB_LAYER_ID × PCB_LAYER_ID
deriving DecidableEq, Repr

/-- A track item of the board: a via (`Type() == PCB_VIA_T`) or anything else. -/
inductive TRACK where
  | PCB_VIA_T (via : VIA)
  | OTHER
deriving DecidableEq, Repr

/-- The board `BOARD`, as the two collections iterated. -/
structure BOARD where
  Tracks : List TRACK
  Modules : List MODULE
deriving DecidableEq, Repr

/-- A parsed model `S3DMODEL` handed out by the model-cache collaborator. -/
structure S3DMODEL where
  id : Nat
deriving DecidableEq, Repr

/-- The material mode `MATERIAL_MODE`. -/
abbrev MATERIAL_MODE := Nat

/-- The renderable model `C_OGL_3DMODEL`, as its constructor arguments. -/
structure C_OGL_3DMODEL where
  a3DModel : S3DMODEL
  aMaterialMode : MATERIAL_MODE
deriving DecidableEq, Repr

/-- A `std::map`, as its lookup: `none` when the key has no entry. -/
abbrev std_map (K V : Type) := K → Option V

/-- The assignment `m[ k ] = v`. -/
def std_map.assign {K V : Type} [DecidableEq K] (m : std_map K V) (k : K) (v : V) : std_map K V :=
  fun k' => if k' = k then some v else m k'

/-- Modelled from the spec: the accessors of the board adapter that hand out
the board and its per-layer containers and polygon sets, the feature flags,
the external triangulation helper and the model-cache collaborator (none of
their classes is among the sources).  `GetMapLayers` lists the entries of the
layer map in iteration order; `GetPolyMap` is the lookup of the polygon map;
`Convert_shape_line_polygon_to_triangles` gives the triangles it adds to the
container it is handed. -/
structure SCENE_ACCESSORS (α : Type) where
  GetBoard : BOARD
  GetBoardPoly : SHAPE_POLY_SET
  GetFlag : DISPLAY3D_FLG → Bool
  GetCopperThickness3DU : α
  GetNrSegmentsCircle_int : Int → Nat
  GetStats_Nr_Vias : Nat
  GetMapLayers : List (PCB_LAYER_ID × Option (CBVHCONTAINER2D α))
  GetPolyMap : PCB_LAYER_ID → Option SHAPE_POLY_SET
  GetModel : String → Option S3DMODEL
  MaterialModeGet : MATERIAL_MODE
  Convert_shape_line_polygon_to_triangles : SHAPE_POLY_SET → α → List (CTRIANGLE2D α)

/-- The triangle loop of `createBoard`. -/
def createBoard_loop (layer_z_top layer_z_bot : α) :
    List (CTRIANGLE2D α) → CLAYER_TRIANGLES α → CLAYER_TRIANGLES α
  | [], layerTriangles => layerTriangles
  | tri :: rest, layerTriangles =>
    let v1 := tri.GetP1
    let v2 := tri.GetP2
    let v3 := tri.GetP3
    createBoard_loop layer_z_top layer_z_bot rest
      (add_triangle_top_bot layerTriangles v1 v2 v3 layer_z_top layer_z_bot)

/-- The function `createBoard`.  The failed-check counter records the
`wxASSERT( boardPoly.OutlineCount() > 0 )`. -/
def createBoard (R : Renderer α) (S : SCENE_ACCESSORS α) (aBoardPoly : SHAPE_POLY_SET) :
    Traced (Option (CLAYERS_OGL_DISP_LISTS α)) :=
  let listBoardObject2d :=
    S.Convert_shape_line_polygon_to_triangles aBoardPoly R.m_boardAdapter.BiuTo3Dunits
  if listBoardObject2d.length > 0 then
    let layer_z_top : α := 1
    let layer_z_bot : α := 0
    let layerTriangles : CLAYER_TRIANGLES α := CLAYER_TRIANGLES.new listBoardObject2d.length
    let layerTriangles := createBoard_loop layer_z_top layer_z_bot listBoardObject2d layerTriangles
    let boardPoly := S.GetBoardPoly
    if boardPoly.OutlineCount > 0 then
      let layerTriangles := layerTriangles.AddToMiddleContourns boardPoly layer_z_bot layer_z_top
        R.m_boardAdapter.BiuTo3Dunits false
      ⟨some ⟨layerTriangles, R.m_ogl_circle_texture, layer_z_top, layer_z_top⟩, 0⟩
    else
      ⟨none, 1⟩
  else
    ⟨none, 0⟩

/-- The square outline `reload` starts the anti-board from: the four corners
`( -INT_MAX/2, -INT_MAX/2 )`, `( INT_MAX/2, -INT_MAX/2 )`, `( INT_MAX/2,
INT_MAX/2 )`, `( -INT_MAX/2, INT_MAX/2 )` with `INT_MAX = 2147483647` and the
division of C++, which truncates. -/
def reload_anti_board_outline : SHAPE_POLY_SET :=
  ⟨[[[(-1073741823, -1073741823), (1073741823, -1073741823), (1073741823, 1073741823),
      (-1073741823, 1073741823)]]]⟩

/-- What the "Create Board" block of `reload` leaves: the board object (null
when `createBoard` returned null), the anti-board object with the transparency
flag that `SetItIsTransparent` was handed, and the failed checks. -/
structure ReloadBoard (α : Type) where
  m_ogl_disp_list_board : Option (CLAYERS_OGL_DISP_LISTS α)
  m_ogl_disp_list_anti_board : CLAYERS_OGL_DISP_LISTS α
  anti_board_transparent : Bool
  failedAsserts : Nat

/-- The "Create Board" block of `reload`.  The polygon subtraction
`BooleanSubtract` belongs to the polygon library, which is not among the
sources, so it is an argument.  The result is `none` when the statement
`m_ogl_disp_list_anti_board->SetItIsTransparent( true )` is reached with a null
pointer: the call goes through the pointer without a test. -/
def reload_board (R : Renderer α) (S : SCENE_ACCESSORS α)
    (BooleanSubtract : SHAPE_POLY_SET → SHAPE_POLY_SET → SHAPE_POLY_SET) :
    Option (ReloadBoard α) :=
  let m_ogl_disp_list_board := createBoard R S S.GetBoardPoly
  let anti_board := reload_anti_board_outline
  let anti_board := BooleanSubtract anti_board S.GetBoardPoly
  let m_ogl_disp_list_anti_board := createBoard R S anti_board
  match m_ogl_disp_list_anti_board.ret with
  | none => none
  | some obj =>
    some ⟨m_ogl_disp_list_board.ret, obj, true,
      m_ogl_disp_list_board.failedAsserts + m_ogl_disp_list_anti_board.failedAsserts⟩

/-- The layer loop of `reload` (the `for` over `GetMapLayers()`), from the
state `(m_ogl_disp_lists_layers, failed checks)`; `none` when a call of
`generateLayerListFromContainer` does not return. -/
def reload_layers_loop (R : Renderer α) (S : SCENE_ACCESSORS α) (fuel : Nat) :
    List (PCB_LAYER_ID × Option (CBVHCONTAINER2D α)) →
      std_map PCB_LAYER_ID (Option (CLAYERS_OGL_DISP_LISTS α)) × Nat →
      Option (std_map PCB_LAYER_ID (Option (CLAYERS_OGL_DISP_LISTS α)) × Nat)
  | [], st => some st
  | ii :: rest, st =>
    let layer_id := ii.1
    if !R.m_boardAdapter.Is3DLayerEnabled layer_id then
      reload_layers_loop R S fuel rest st
    else
      let container2d := ii.2
      let aPolyList := S.GetPolyMap layer_id
      match generateLayerListFromContainer R fuel container2d aPolyList layer_id with
      | none => none
      | some t =>
        match t.ret with
        | some oglList =>
          reload_layers_loop R S fuel rest
            (st.1.assign layer_id (some oglList), st.2 + t.failedAsserts)
        | none => reload_layers_loop R S fuel rest (st.1, st.2 + t.failedAsserts)

/-- The function `generate_cylinder`; `none` when `generate_ring_contour` does
not return. -/
def generate_cylinder (M : FloatMath α) (fuel : Nat) (aCenter : SFVEC2F α)
    (aInnerRadius aOuterRadius aZtop aZbot : α) (aNr_sides_per_circle : Nat)
    (aDstLayer : CLAYER_TRIANGLES α) : Option (CLAYER_TRIANGLES α) :=
  match generate_ring_contour M fuel aCenter aInnerRadius aOuterRadius aNr_sides_per_circle
      false with
  | none => none
  | some (innerContour, outerContour) =>
    let aDstLayer := (List.range (innerContour.length - 1)).foldl
      (add_ring_quads innerContour outerContour aZtop aZbot) aDstLayer
    let aDstLayer := aDstLayer.AddToMiddleContournsContour outerContour aZbot aZtop true
    some (aDstLayer.AddToMiddleContournsContour innerContour aZbot aZtop false)

/-- The state `load_3D_models` works on: the model map `m_3dmodel_map` and the
file names passed to the collaborator's `GetModel`, in call order. -/
structure ModelCache where
  m_3dmodel_map : std_map String C_OGL_3DMODEL
  GetModel_calls : List String

/-- The body of the inner loop of `load_3D_models` for one model reference.
The status reports are not part of the model. -/
def load_3D_models_model (materialMode : MATERIAL_MODE) (GetModel : String → Option S3DMODEL)
    (st : ModelCache) (model : MODULE_3D_SETTINGS) : ModelCache :=
  if model.m_Show && !(model.m_Filename == "") then
    if (st.m_3dmodel_map model.m_Filename).isNone then
      let modelPtr := GetModel model.m_Filename
      let st : ModelCache := { st with GetModel_calls := st.GetModel_calls ++ [model.m_Filename] }
      match modelPtr with
      | some modelPtr =>
        let ogl_model : C_OGL_3DMODEL := ⟨modelPtr, materialMode⟩
        { st with m_3dmodel_map := st.m_3dmodel_map.assign model.m_Filename ogl_model }
      | none => st
    else
      st
  else
    st

/-- The function `load_3D_models`. -/
def load_3D_models (S : SCENE_ACCESSORS α) (st : ModelCache) : ModelCache :=
  if (!S.GetFlag .FL_MODULE_ATTRIBUTES_NORMAL) &&
     (!S.GetFlag .FL_MODULE_ATTRIBUTES_NORMAL_INSERT) &&
     (!S.GetFlag .FL_MODULE_ATTRIBUTES_VIRTUAL) then
    st
  else
    S.GetBoard.Modules.foldl
      (fun st module =>
        module.Models.foldl (load_3D_models_model S.MaterialModeGet S.GetModel) st)
      st

/-! ## Vocabulary of the properties -/

/-- The XY positions of the vertices of a face, in the order they were given. -/
def Face.xy : Face α → List (SFVEC2F α)
  | .triangle v1 v2 v3 => [⟨v1.x, v1.y⟩, ⟨v2.x, v2.y⟩, ⟨v3.x, v3.y⟩]
  | .quad v1 v2 v3 v4 => [⟨v1.x, v1.y⟩, ⟨v2.x, v2.y⟩, ⟨v3.x, v3.y⟩, ⟨v4.x, v4.y⟩]

/-- The Z coordinates of the vertices of a face. -/
def Face.zs : Face α → List α
  | .triangle v1 v2 v3 => [v1.z, v2.z, v3.z]
  | .quad v1 v2 v3 v4 => [v1.z, v2.z, v3.z, v4.z]

/-- The face `b` has the XY vertices of `t`, listed in the reverse cyclic
order. -/
def Face.isReverseOf (b t : Face α) : Prop := List.IsRotated b.xy t.xy.reverse

/-- Twice the signed XY area of the triangle `(a, b, c)`: positive when the
points turn counter-clockwise. -/
def signedArea2 (a b c : SFVEC2F α) : α :=
  (b.x - a.x) * (c.y - a.y) - (c.x - a.x) * (b.y - a.y)

/-- Twice the signed XY area of a face (the Z component of its normal): the
triangle itself, or the two triangles `(v1, v2, v3)` and `(v1, v3, v4)` of a
quad.  Positive when the face winds counter-clockwise, so that its normal
points to +Z. -/
def Face.normalZ : Face α → α
  | .triangle v1 v2 v3 => signedArea2 ⟨v1.x, v1.y⟩ ⟨v2.x, v2.y⟩ ⟨v3.x, v3.y⟩
  | .quad v1 v2 v3 v4 =>
    signedArea2 ⟨v1.x, v1.y⟩ ⟨v2.x, v2.y⟩ ⟨v3.x, v3.y⟩ +
      signedArea2 ⟨v1.x, v1.y⟩ ⟨v3.x, v3.y⟩ ⟨v4.x, v4.y⟩

/-- Whether a face is a quad. -/
def Face.isQuad : Face α → Bool
  | .quad _ _ _ _ => true
  | .triangle _ _ _ => false

/-- Whether a face is a triangle. -/
def Face.isTriangle : Face α → Bool
  | .triangle _ _ _ => true
  | .quad _ _ _ _ => false

/-- The top quad emitted by pass `i` of the quad loop (a proof device). -/
def ring_top_quad (innerContour outerContour : List (SFVEC2F α)) (aZtop : α) (i : Nat) : Face α :=
  Face.quad
    ⟨(innerContour.getD (i + 1) ⟨0, 0⟩).x, (innerContour.getD (i + 1) ⟨0, 0⟩).y, aZtop⟩
    ⟨(innerContour.getD (i + 0) ⟨0, 0⟩).x, (innerContour.getD (i + 0) ⟨0, 0⟩).y, aZtop⟩
    ⟨(outerContour.getD (i + 0) ⟨0, 0⟩).x, (outerContour.getD (i + 0) ⟨0, 0⟩).y, aZtop⟩
    ⟨(outerContour.getD (i + 1) ⟨0, 0⟩).x, (outerContour.getD (i + 1) ⟨0, 0⟩).y, aZtop⟩

/-- The bottom quad emitted by pass `i` of the quad loop (a proof device). -/
def ring_bot_quad (innerContour outerContour : List (SFVEC2F α)) (aZbot : α) (i : Nat) : Face α :=
  Face.quad
    ⟨(innerContour.getD (i + 1) ⟨0, 0⟩).x, (innerContour.getD (i + 1) ⟨0, 0⟩).y, aZbot⟩
    ⟨(outerContour.getD (i + 1) ⟨0, 0⟩).x, (outerContour.getD (i + 1) ⟨0, 0⟩).y, aZbot⟩
    ⟨(outerContour.getD (i + 0) ⟨0, 0⟩).x, (outerContour.getD (i + 0) ⟨0, 0⟩).y, aZbot⟩
    ⟨(innerContour.getD (i + 0) ⟨0, 0⟩).x, (innerContour.getD (i + 0) ⟨0, 0⟩).y, aZbot⟩

/-- The point `p` is on the same side of the three edges of the triangle
`(a, b, c)`, whichever way the triangle winds. -/
def sameSide (a b c p : SFVEC2F α) : Prop :=
  (0 ≤ signedArea2 a b p ∧ 0 ≤ signedArea2 b c p ∧ 0 ≤ signedArea2 c a p) ∨
  (signedArea2 a b p ≤ 0 ∧ signedArea2 b c p ≤ 0 ∧ signedArea2 c a p ≤ 0)

/-- The point `p` lies in the bounding box of the three points `a`, `b`, `c`. -/
def inBoundingBox (a b c p : SFVEC2F α) : Prop :=
  min a.x (min b.x c.x) ≤ p.x ∧ p.x ≤ max a.x (max b.x c.x) ∧
  min a.y (min b.y c.y) ≤ p.y ∧ p.y ≤ max a.y (max b.y c.y)

/-- The point `p` lies in the closed triangle `(a, b, c)`, the convex hull of
the three points: it is on the same side of the three edges and inside their
bounding box.  The box decides only for a triangle without area (three points
on a line, or one point), where the edge test alone holds on the whole line
or on the whole plane. -/
def inTriangle (a b c p : SFVEC2F α) : Prop :=
  sameSide a b c p ∧ inBoundingBox a b c p

/-- The XY point `p` lies in a triangle face (never in a quad face). -/
def Face.containsXY : Face α → SFVEC2F α → Prop
  | .triangle v1 v2 v3, p => inTriangle ⟨v1.x, v1.y⟩ ⟨v2.x, v2.y⟩ ⟨v3.x, v3.y⟩ p
  | .quad _ _ _ _, _ => False

/-- The model references of a board that are shown and name a file, in
iteration order (modules, then the models of each). -/
def visible_model_references (board : BOARD) : List MODULE_3D_SETTINGS :=
  (board.Modules.map (fun module => module.Models)).flatten.filter
    (fun model => model.m_Show && !(model.m_Filename == ""))

/-- Whether a primitive is a filled circle or a rounded segment. -/
def COBJECT2D.isHoleKind : COBJECT2D α → Bool
  | .FILLED_CIRCLE _ => true
  | .ROUNDSEG _ => true
  | _ => false

/-- The body of the inner loop of `load_3D_models` for a reference that is
shown and names the file `aFilename` (a proof device). -/
def load_3D_models_visible (materialMode : MATERIAL_MODE) (GetModel : String → Option S3DMODEL)
    (st : ModelCache) (aFilename : String) : ModelCache :=
  if (st.m_3dmodel_map aFilename).isNone then
    match GetModel aFilename with
    | some modelPtr =>
      ⟨st.m_3dmodel_map.assign aFilename ⟨modelPtr, materialMode⟩,
        st.GetModel_calls ++ [aFilename]⟩
    | none => ⟨st.m_3dmodel_map, st.GetModel_calls ++ [aFilename]⟩
  else
    st

/-- The file names requested in one pass of `load_3D_models`: those of the
shown, named model references, in iteration order. -/
def requested_filenames (board : BOARD) : List String :=
  (visible_model_references board).map (fun model => model.m_Filename)

/-- Whether at least one of the three footprint attribute flags is set, so
that `load_3D_models` does not return at once. -/
def models_enabled (S : SCENE_ACCESSORS α) : Bool :=
  S.GetFlag .FL_MODULE_ATTRIBUTES_NORMAL || S.GetFlag .FL_MODULE_ATTRIBUTES_NORMAL_INSERT ||
    S.GetFlag .FL_MODULE_ATTRIBUTES_VIRTUAL

/-- The signed XY area of a face: half of `normalZ`. -/
def Face.signedArea (f : Face α) : α := f.normalZ / 2

/-- The shoelace signed area of the closed polygon through the listed points:
half the sum of `x_i * y_(i+1) - x_(i+1) * y_i` over consecutive points, the
last one followed by the first. -/
def shoelace_area (l : List (SFVEC2F α)) : α :=
  ((l.zip (l.rotate 1)).map (fun e => e.1.x * e.2.y - e.2.x * e.1.y)).sum / 2

/-- The quotient `a / b` rounded up. -/
def ceil_div (a b : Nat) : Nat := (a + b - 1) / b

/-- The angle between the contour points `i` and `i + 1` of
`generate_ring_contour`, in tenths of a degree: the step `3600 / N` of the loop
counter, and for the closing pair (the last computed point and the repeated
first point) what is left of the full turn. -/
def ring_step_tenths (aNr_sides_per_circle i : Nat) : Nat :=
  let delta := 3600 / aNr_sides_per_circle
  if i + 1 < ceil_div 3600 delta then delta else 3600 - delta * (ceil_div 3600 delta - 1)

/-- The side-wall requests a renderable object holds. -/
def CLAYERS_OGL_DISP_LISTS.side_walls (obj : CLAYERS_OGL_DISP_LISTS α) :
    List (MiddleContourCall α) :=
  obj.triangles.m_layer_middle_contourns_quads

/-- Every vertex of every face of the list has the Z coordinate `z`. -/
def all_at_Z (l : List (Face α)) (z : α) : Prop := ∀ f ∈ l, ∀ v ∈ f.zs, v = z

/-! ## Theorems -/

/-- C1: the pair written by `get_layer_z_pos` has top at least bottom, top is
the larger and bottom the smaller of the two values the adapter reports, and
as a set the pair is the reported pair. -/
theorem get_layer_z_pos_sorted (m_boardAdapter : BOARD_ADAPTER α) (aLayerID : PCB_LAYER_ID) :
    (get_layer_z_pos m_boardAdapter aLayerID).2 ≤ (get_layer_z_pos m_boardAdapter aLayerID).1 ∧
    (get_layer_z_pos m_boardAdapter aLayerID).1 =
      max (m_boardAdapter.GetLayerTopZpos3DU aLayerID)
        (m_boardAdapter.GetLayerBottomZpos3DU aLayerID) ∧
    (get_layer_z_pos m_boardAdapter aLayerID).2 =
      min (m_boardAdapter.GetLayerTopZpos3DU aLayerID)
        (m_boardAdapter.GetLayerBottomZpos3DU aLayerID) ∧
    ({(get_layer_z_pos m_boardAdapter aLayerID).1,
      (get_layer_z_pos m_boardAdapter aLayerID).2} : Set α) =
      {m_boardAdapter.GetLayerTopZpos3DU aLayerID,
       m_boardAdapter.GetLayerBottomZpos3DU aLayerID} := by
  unfold get_layer_z_pos
  by_cases h : m_boardAdapter.GetLayerTopZpos3DU aLayerID <
      m_boardAdapter.GetLayerBottomZpos3DU aLayerID
  · simp only [h, if_true]
    refine ⟨le_of_lt h, (max_eq_right (le_of_lt h)).symm, (min_eq_left (le_of_lt h)).symm, ?_⟩
    exact Set.pair_comm _ _
  · simp only [h, if_false]
    have h2 := not_lt.mp h
    exact ⟨h2, (max_eq_left h2).symm, (min_eq_right h2).symm, trivial⟩

/-! ### The ring contour loop -/

theorem getLast?_cons_concat {β : Type} (a b : β) (l : List β) :
    (a :: (l ++ [b])).getLast? = some b := by
  rw [← List.cons_append]
  exact List.getLast?_concat _

theorem generate_ring_contour_loop_eq (M : FloatMath α) (aCenter : SFVEC2F α)
    (aInnerRadius aOuterRadius : α) (aInvertOrder : Bool) (delta : Nat) (fuel : Nat) :
    ∀ (ii : Nat) (inner outer : List (SFVEC2F α)),
      generate_ring_contour_loop M aCenter aInnerRadius aOuterRadius aInvertOrder delta
          fuel ii inner outer =
        (ring_loop_counters delta fuel ii).map (fun ks =>
          (inner ++ ks.map (ring_point M aCenter aInvertOrder aInnerRadius),
           outer ++ ks.map (ring_point M aCenter aInvertOrder aOuterRadius))) := by
  induction fuel with
  | zero => intro ii inner outer; rfl
  | succ fuel ih =>
    intro ii inner outer
    unfold generate_ring_contour_loop ring_loop_counters
    by_cases h : ii < 3600
    · simp only [h, if_true]
      rw [ih]
      cases ring_loop_counters delta fuel (ii + delta) with
      | none => rfl
      | some ks => simp [ring_point, List.append_assoc]
    · simp [h]

theorem ring_loop_counters_head (delta : Nat) :
    ∀ (fuel ii : Nat) (ks : List Nat), ring_loop_counters delta fuel ii = some ks →
      ii < 3600 → ∃ t, ks = ii :: t := by
  intro fuel ii ks h hlt
  cases fuel with
  | zero => simp [ring_loop_counters] at h
  | succ fuel =>
    unfold ring_loop_counters at h
    simp only [hlt, if_true] at h
    cases hr : ring_loop_counters delta fuel (ii + delta) with
    | none => simp [hr] at h
    | some l =>
      simp only [hr, Option.map_some', Option.some.injEq] at h
      exact ⟨l, h.symm⟩

theorem ring_loop_counters_isSome (delta : Nat) (hd : 0 < delta) :
    ∀ (fuel ii : Nat), 3600 - ii < fuel → ∃ ks, ring_loop_counters delta fuel ii = some ks := by
  intro fuel
  induction fuel with
  | zero =>
    intro ii h
    omega
  | succ fuel ih =>
    intro ii h
    unfold ring_loop_counters
    by_cases hlt : ii < 3600
    · obtain ⟨ks, hks⟩ := ih (ii + delta) (by omega)
      exact ⟨ii :: ks, by simp [hlt, hks]⟩
    · exact ⟨[], by simp [hlt]⟩

theorem generate_ring_contour_eq (M : FloatMath α) (fuel : Nat) (aCenter : SFVEC2F α)
    (aInnerRadius aOuterRadius : α) (aNr_sides_per_circle : Nat) (aInvertOrder : Bool) :
    generate_ring_contour M fuel aCenter aInnerRadius aOuterRadius aNr_sides_per_circle
        aInvertOrder =
      if aNr_sides_per_circle = 0 then none
      else (ring_loop_counters (3600 / aNr_sides_per_circle) fuel 0).map (fun ks =>
        ((ks ++ [0]).map (ring_point M aCenter aInvertOrder aInnerRadius),
         (ks ++ [0]).map (ring_point M aCenter aInvertOrder aOuterRadius))) := by
  unfold generate_ring_contour
  by_cases hN : aNr_sides_per_circle = 0
  · simp [hN]
  · simp only [hN, if_false]
    rw [generate_ring_contour_loop_eq]
    cases hks : ring_loop_counters (3600 / aNr_sides_per_circle) fuel 0 with
    | none => rfl
    | some ks =>
      obtain ⟨t, rfl⟩ := ring_loop_counters_head _ _ _ _ hks (by decide)
      simp

theorem ring_loop_counters_zero_delta :
    ∀ (fuel ii : Nat), ii < 3600 → ring_loop_counters 0 fuel ii = none := by
  intro fuel
  induction fuel with
  | zero => intro ii _; rfl
  | succ fuel ih =>
    intro ii h
    unfold ring_loop_counters
    simp [h, ih ii h]

theorem ring_loop_counters_seven (fuel : Nat) :
    ring_loop_counters 514 (fuel + 9) 0 =
      some [0, 514, 1028, 1542, 2056, 2570, 3084, 3598] := by
  simp [ring_loop_counters]

/-- C4: with 7 sides asked for, `generate_ring_contour` returns 9 points in
each sequence (not 7 + 1) for every fuel of 9 or more, and with 3601 sides it
does not return whatever the fuel. -/
theorem generate_ring_contour_length_not_sides_plus_one (M : FloatMath α) (aCenter : SFVEC2F α)
    (aInnerRadius aOuterRadius : α) (aInvertOrder : Bool) (fuel : Nat) :
    (generate_ring_contour M (fuel + 9) aCenter aInnerRadius aOuterRadius 7 aInvertOrder).map
        (fun r => (r.1.length, r.2.length)) = some (9, 9) ∧
    generate_ring_contour M fuel aCenter aInnerRadius aOuterRadius 3601 aInvertOrder = none := by
  constructor
  · rw [generate_ring_contour_eq]
    have h : (3600 / 7 : Nat) = 514 := by decide
    simp [h, ring_loop_counters_seven]
  · rw [generate_ring_contour_eq]
    have h : (3600 / 3601 : Nat) = 0 := by decide
    simp [h, ring_loop_counters_zero_delta fuel 0 (by decide)]

theorem generate_ring_contour_returns (M : FloatMath α) (fuel : Nat) (aCenter : SFVEC2F α)
    (aInnerRadius aOuterRadius : α) (aNr_sides_per_circle : Nat) (aInvertOrder : Bool)
    (h1 : 1 ≤ aNr_sides_per_circle) (h2 : aNr_sides_per_circle ≤ 3600) (hf : 3600 < fuel) :
    ∃ t : List Nat,
      ring_loop_counters (3600 / aNr_sides_per_circle) fuel 0 = some (0 :: t) ∧
      generate_ring_contour M fuel aCenter aInnerRadius aOuterRadius aNr_sides_per_circle
          aInvertOrder =
        some ((0 :: t ++ [0]).map (ring_point M aCenter aInvertOrder aInnerRadius),
              (0 :: t ++ [0]).map (ring_point M aCenter aInvertOrder aOuterRadius)) := by
  have hd : 0 < 3600 / aNr_sides_per_circle := Nat.div_pos h2 (by omega)
  obtain ⟨ks, hks⟩ := ring_loop_counters_isSome _ hd fuel 0 (by omega)
  obtain ⟨t, rfl⟩ := ring_loop_counters_head _ _ _ _ hks (by decide)
  refine ⟨t, hks, ?_⟩
  rw [generate_ring_contour_eq]
  have hN : aNr_sides_per_circle ≠ 0 := by omega
  simp [hN, hks]

/-- C5: for a segment count between 1 and 3600 (and fuel above 3600),
`generate_ring_contour` returns, both sequences are non-empty and the last
point of each equals its first point. -/
theorem generate_ring_contour_closed (M : FloatMath α) (fuel : Nat) (aCenter : SFVEC2F α)
    (aInnerRadius aOuterRadius : α) (aNr_sides_per_circle : Nat) (aInvertOrder : Bool)
    (h1 : 1 ≤ aNr_sides_per_circle) (h2 : aNr_sides_per_circle ≤ 3600) (hf : 3600 < fuel) :
    ∃ inner outer : List (SFVEC2F α),
      generate_ring_contour M fuel aCenter aInnerRadius aOuterRadius aNr_sides_per_circle
          aInvertOrder = some (inner, outer) ∧
      inner ≠ [] ∧ outer ≠ [] ∧
      inner.getLast? = inner.head? ∧ outer.getLast? = outer.head? := by
  obtain ⟨t, -, h⟩ := generate_ring_contour_returns M fuel aCenter aInnerRadius aOuterRadius
    aNr_sides_per_circle aInvertOrder h1 h2 hf
  refine ⟨_, _, h, ?_, ?_, ?_, ?_⟩
  · simp
  · simp
  · simp only [List.map_cons, List.map_append, List.map_nil, List.cons_append, List.head?_cons]
    exact getLast?_cons_concat _ _ _
  · simp only [List.map_cons, List.map_append, List.map_nil, List.cons_append, List.head?_cons]
    exact getLast?_cons_concat _ _ _

/-- Witness of C5: four segments, real arithmetic, fuel 3601. -/
theorem generate_ring_contour_closed_witness :
    ∃ inner outer : List (SFVEC2F ℝ),
      generate_ring_contour ⟨Real.sqrt, Real.cos, Real.sin, Real.pi⟩ 3601 ⟨0, 0⟩ 1 2 4 false =
        some (inner, outer) ∧
      inner ≠ [] ∧ outer ≠ [] ∧
      inner.getLast? = inner.head? ∧ outer.getLast? = outer.head? :=
  generate_ring_contour_closed ⟨Real.sqrt, Real.cos, Real.sin, Real.pi⟩ 3601 ⟨0, 0⟩ 1 2 4 false
    (by decide) (by decide) (by decide)

/-! ### What each converter appends -/

theorem add_ring_quads_foldl (innerContour outerContour : List (SFVEC2F α)) (aZtop aZbot : α)
    (l : List Nat) :
    ∀ aDstLayer : CLAYER_TRIANGLES α,
      l.foldl (add_ring_quads innerContour outerContour aZtop aZbot) aDstLayer =
        { aDstLayer with
          m_layer_top_triangles := aDstLayer.m_layer_top_triangles ++
            l.map (ring_top_quad innerContour outerContour aZtop)
          m_layer_bot_triangles := aDstLayer.m_layer_bot_triangles ++
            l.map (ring_bot_quad innerContour outerContour aZbot) } := by
  induction l with
  | nil => intro aDstLayer; simp
  | cons i l ih =>
    intro aDstLayer
    rw [List.foldl_cons, ih]
    simp [add_ring_quads, ring_top_quad, ring_bot_quad, CLAYER_TRIANGLE_CONTAINER.AddQuad,
      List.append_assoc]

theorem triangle_isReverseOf_flip (a b c : SFVEC3F α) (a' b' c' : SFVEC3F α)
    (ha : a.x = a'.x ∧ a.y = a'.y) (hb : b.x = b'.x ∧ b.y = b'.y) (hc : c.x = c'.x ∧ c.y = c'.y) :
    (Face.triangle a b c).isReverseOf (Face.triangle c' b' a') := by
  unfold Face.isReverseOf Face.xy
  refine ⟨0, ?_⟩
  simp [ha.1, ha.2, hb.1, hb.2, hc.1, hc.2]

theorem triangle_isReverseOf_swap (a b c : SFVEC3F α) (a' b' c' : SFVEC3F α)
    (ha : a.x = a'.x ∧ a.y = a'.y) (hb : b.x = b'.x ∧ b.y = b'.y) (hc : c.x = c'.x ∧ c.y = c'.y) :
    (Face.triangle a b c).isReverseOf (Face.triangle b' a' c') := by
  unfold Face.isReverseOf Face.xy
  refine ⟨2, ?_⟩
  simp [ha.1, ha.2, hb.1, hb.2, hc.1, hc.2, List.rotate]

theorem quad_isReverseOf (a b c d : SFVEC3F α) (a' b' c' d' : SFVEC3F α)
    (ha : a.x = a'.x ∧ a.y = a'.y) (hb : b.x = b'.x ∧ b.y = b'.y) (hc : c.x = c'.x ∧ c.y = c'.y)
    (hd : d.x = d'.x ∧ d.y = d'.y) :
    (Face.quad a d c b).isReverseOf (Face.quad a' b' c' d') := by
  unfold Face.isReverseOf Face.xy
  refine ⟨1, ?_⟩
  simp [ha.1, ha.2, hb.1, hb.2, hc.1, hc.2, hd.1, hd.2, List.rotate]

theorem ring_quads_isReverseOf (innerContour outerContour : List (SFVEC2F α)) (aZtop aZbot : α)
    (l : List Nat) :
    List.Forall₂ Face.isReverseOf (l.map (ring_bot_quad innerContour outerContour aZbot))
      (l.map (ring_top_quad innerContour outerContour aZtop)) := by
  rw [List.forall₂_map_left_iff, List.forall₂_map_right_iff, List.forall₂_same]
  intro i _
  exact quad_isReverseOf _ _ _ _ _ _ _ _ ⟨rfl, rfl⟩ ⟨rfl, rfl⟩ ⟨rfl, rfl⟩ ⟨rfl, rfl⟩

theorem add_object_to_triangle_layer_appends (R : Renderer α) (fuel : Nat) (object2d_A : COBJECT2D α)
    (st st' : CLAYER_TRIANGLES α × Nat) (aZtop aZbot : α)
    (h : add_object_to_triangle_layer R fuel object2d_A st aZtop aZbot = some st') :
    ∃ T B TE BE : List (Face α),
      st'.1.m_layer_top_triangles = st.1.m_layer_top_triangles ++ T ∧
      st'.1.m_layer_bot_triangles = st.1.m_layer_bot_triangles ++ B ∧
      st'.1.m_layer_top_segment_ends = st.1.m_layer_top_segment_ends ++ TE ∧
      st'.1.m_layer_bot_segment_ends = st.1.m_layer_bot_segment_ends ++ BE ∧
      List.Forall₂ Face.isReverseOf B T ∧ List.Forall₂ Face.isReverseOf BE TE := by
  cases object2d_A with
  | FILLED_CIRCLE o =>
    simp only [add_object_to_triangle_layer, Option.some.injEq] at h
    subst h
    refine ⟨[], [], [_, _], [_, _], ?_, ?_, List.append_assoc _ _ _, List.append_assoc _ _ _,
      List.Forall₂.nil, ?_⟩
    · simp [add_object_to_triangle_layer_CFILLEDCIRCLE2D]
    · simp [add_object_to_triangle_layer_CFILLEDCIRCLE2D]
    · exact List.Forall₂.cons
        (triangle_isReverseOf_swap _ _ _ _ _ _ ⟨rfl, rfl⟩ ⟨rfl, rfl⟩ ⟨rfl, rfl⟩)
        (List.Forall₂.cons
          (triangle_isReverseOf_swap _ _ _ _ _ _ ⟨rfl, rfl⟩ ⟨rfl, rfl⟩ ⟨rfl, rfl⟩)
          List.Forall₂.nil)
  | POLYGON4PT o =>
    simp only [add_object_to_triangle_layer, Option.some.injEq] at h
    subst h
    refine ⟨[_, _], [_, _], [], [], List.append_assoc _ _ _, List.append_assoc _ _ _, ?_, ?_, ?_,
      List.Forall₂.nil⟩
    · simp [add_object_to_triangle_layer_CPOLYGON4PTS2D, add_triangle_top_bot]
    · simp [add_object_to_triangle_layer_CPOLYGON4PTS2D, add_triangle_top_bot]
    · exact List.Forall₂.cons
        (triangle_isReverseOf_flip _ _ _ _ _ _ ⟨rfl, rfl⟩ ⟨rfl, rfl⟩ ⟨rfl, rfl⟩)
        (List.Forall₂.cons
          (triangle_isReverseOf_flip _ _ _ _ _ _ ⟨rfl, rfl⟩ ⟨rfl, rfl⟩ ⟨rfl, rfl⟩)
          List.Forall₂.nil)
  | RING o =>
    simp only [add_object_to_triangle_layer, add_object_to_triangle_layer_CRING2D] at h
    cases hg : generate_ring_contour R.math fuel o.GetCenter o.GetInnerRadius o.GetOuterRadius
        (R.m_boardAdapter.GetNrSegmentsCircle (o.GetOuterRadius * 2)) false with
    | none => simp [hg] at h
    | some c =>
      obtain ⟨innerContour, outerContour⟩ := c
      simp only [hg, Option.map_some', Option.some.injEq] at h
      subst h
      rw [add_ring_quads_foldl]
      exact ⟨_, _, [], [], rfl, rfl, by simp, by simp,
        ring_quads_isReverseOf _ _ _ _ _, List.Forall₂.nil⟩
  | TRIANGLE o =>
    simp only [add_object_to_triangle_layer, Option.some.injEq] at h
    subst h
    refine ⟨[_], [_], [], [], rfl, rfl, ?_, ?_, ?_, List.Forall₂.nil⟩
    · simp [add_object_to_triangle_layer_CTRIANGLE2D, add_triangle_top_bot]
    · simp [add_object_to_triangle_layer_CTRIANGLE2D, add_triangle_top_bot]
    · exact List.Forall₂.cons
        (triangle_isReverseOf_flip _ _ _ _ _ _ ⟨rfl, rfl⟩ ⟨rfl, rfl⟩ ⟨rfl, rfl⟩)
        List.Forall₂.nil
  | ROUNDSEG o =>
    simp only [add_object_to_triangle_layer, Option.some.injEq] at h
    subst h
    refine ⟨[_], [_], [_, _], [_, _], rfl, rfl, List.append_assoc _ _ _, List.append_assoc _ _ _,
      ?_, ?_⟩
    · exact List.Forall₂.cons
        (quad_isReverseOf _ _ _ _ _ _ _ _ ⟨rfl, rfl⟩ ⟨rfl, rfl⟩ ⟨rfl, rfl⟩ ⟨rfl, rfl⟩)
        List.Forall₂.nil
    · exact List.Forall₂.cons
        (triangle_isReverseOf_swap _ _ _ _ _ _ ⟨rfl, rfl⟩ ⟨rfl, rfl⟩ ⟨rfl, rfl⟩)
        (List.Forall₂.cons
          (triangle_isReverseOf_swap _ _ _ _ _ _ ⟨rfl, rfl⟩ ⟨rfl, rfl⟩ ⟨rfl, rfl⟩)
          List.Forall₂.nil)
  | OTHER =>
    simp only [add_object_to_triangle_layer, Option.some.injEq] at h
    subst h
    exact ⟨[], [], [], [], by simp, by simp, by simp, by simp, List.Forall₂.nil, List.Forall₂.nil⟩

theorem add_object_to_triangle_layer_CRING2D_returns (R : Renderer α) (fuel : Nat)
    (aRing : CRING2D α) (aDstLayer : CLAYER_TRIANGLES α) (aZtop aZbot : α)
    (h1 : 1 ≤ R.m_boardAdapter.GetNrSegmentsCircle (aRing.GetOuterRadius * 2))
    (h2 : R.m_boardAdapter.GetNrSegmentsCircle (aRing.GetOuterRadius * 2) ≤ 3600)
    (hf : 3600 < fuel) :
    ∃ r, add_object_to_triangle_layer_CRING2D R fuel aRing aDstLayer aZtop aZbot = some r := by
  obtain ⟨t, -, h⟩ := generate_ring_contour_returns R.math fuel aRing.GetCenter
    aRing.GetInnerRadius aRing.GetOuterRadius _ false h1 h2 hf
  unfold add_object_to_triangle_layer_CRING2D
  simp only [h]
  exact ⟨_, rfl⟩

theorem isReverseOf_normalZ (b t : Face α) (h : b.isReverseOf t) : b.normalZ = -t.normalZ := by
  obtain ⟨n, hn⟩ := h
  cases b with
  | triangle a1 a2 a3 =>
    cases t with
    | triangle c1 c2 c3 =>
      rw [← List.rotate_mod] at hn
      have hlt : n % 3 < 3 := Nat.mod_lt _ (by decide)
      simp only [Face.xy, List.length_cons, List.length_nil] at hn
      simp only [Face.normalZ, signedArea2]
      interval_cases (n % 3)
      · simp [List.rotate] at hn
        obtain ⟨⟨h1, h2⟩, ⟨h3, h4⟩, ⟨h5, h6⟩⟩ := hn
        rw [h1, h2, h3, h4, h5, h6]; ring
      · simp [List.rotate] at hn
        obtain ⟨⟨h1, h2⟩, ⟨h3, h4⟩, ⟨h5, h6⟩⟩ := hn
        rw [h1, h2, h3, h4, h5, h6]; ring
      · simp [List.rotate] at hn
        obtain ⟨⟨h1, h2⟩, ⟨h3, h4⟩, ⟨h5, h6⟩⟩ := hn
        rw [h1, h2, h3, h4, h5, h6]; ring
    | quad c1 c2 c3 c4 =>
      have := congrArg List.length hn
      simp [Face.xy] at this
  | quad a1 a2 a3 a4 =>
    cases t with
    | triangle c1 c2 c3 =>
      have := congrArg List.length hn
      simp [Face.xy] at this
    | quad c1 c2 c3 c4 =>
      rw [← List.rotate_mod] at hn
      have hlt : n % 4 < 4 := Nat.mod_lt _ (by decide)
      simp only [Face.xy, List.length_cons, List.length_nil] at hn
      simp only [Face.normalZ, signedArea2]
      interval_cases (n % 4)
      · simp [List.rotate] at hn
        obtain ⟨⟨h1, h2⟩, ⟨h3, h4⟩, ⟨h5, h6⟩, ⟨h7, h8⟩⟩ := hn
        rw [h1, h2, h3, h4, h5, h6, h7, h8]; ring
      · simp [List.rotate] at hn
        obtain ⟨⟨h1, h2⟩, ⟨h3, h4⟩, ⟨h5, h6⟩, ⟨h7, h8⟩⟩ := hn
        rw [h1, h2, h3, h4, h5, h6, h7, h8]; ring
      · simp [List.rotate] at hn
        obtain ⟨⟨h1, h2⟩, ⟨h3, h4⟩, ⟨h5, h6⟩, ⟨h7, h8⟩⟩ := hn
        rw [h1, h2, h3, h4, h5, h6, h7, h8]; ring
      · simp [List.rotate] at hn
        obtain ⟨⟨h1, h2⟩, ⟨h3, h4⟩, ⟨h5, h6⟩, ⟨h7, h8⟩⟩ := hn
        rw [h1, h2, h3, h4, h5, h6, h7, h8]; ring

/-- C2: whenever the converter chosen for a primitive returns, each of the
four sub-buffers is its prior contents followed by the appended faces, and the
k-th face appended to a bottom buffer has the XY vertices of the k-th face
appended to the matching top buffer, listed in the reverse cyclic order. -/
theorem top_and_bottom_faces_reversed (R : Renderer α) (fuel : Nat) (object2d_A : COBJECT2D α)
    (st st' : CLAYER_TRIANGLES α × Nat) (aZtop aZbot : α)
    (h : add_object_to_triangle_layer R fuel object2d_A st aZtop aZbot = some st') :
    ∃ T B TE BE : List (Face α),
      st'.1.m_layer_top_triangles = st.1.m_layer_top_triangles ++ T ∧
      st'.1.m_layer_bot_triangles = st.1.m_layer_bot_triangles ++ B ∧
      st'.1.m_layer_top_segment_ends = st.1.m_layer_top_segment_ends ++ TE ∧
      st'.1.m_layer_bot_segment_ends = st.1.m_layer_bot_segment_ends ++ BE ∧
      List.Forall₂ Face.isReverseOf B T ∧ List.Forall₂ Face.isReverseOf BE TE :=
  add_object_to_triangle_layer_appends R fuel object2d_A st st' aZtop aZbot h

/-- Witness of C2: a ring of radii 1 and 2 at the origin with 4 segments, real
arithmetic, Ztop = 1, Zbot = 0, empty destination, fuel 3601. -/
theorem top_and_bottom_faces_reversed_witness :
    ∃ st' : CLAYER_TRIANGLES ℝ × Nat,
      add_object_to_triangle_layer
        ⟨⟨fun _ => 1, fun _ => 0, 1, fun _ => true, fun _ => 4⟩, 0, 1024,
          ⟨Real.sqrt, Real.cos, Real.sin, Real.pi⟩⟩
        3601 (COBJECT2D.RING ⟨⟨0, 0⟩, 1, 2⟩) (CLAYER_TRIANGLES.new 0, 0) 1 0 = some st' ∧
      ∃ T B TE BE : List (Face ℝ),
        st'.1.m_layer_top_triangles = [] ++ T ∧
        st'.1.m_layer_bot_triangles = [] ++ B ∧
        st'.1.m_layer_top_segment_ends = [] ++ TE ∧
        st'.1.m_layer_bot_segment_ends = [] ++ BE ∧
        List.Forall₂ Face.isReverseOf B T ∧ List.Forall₂ Face.isReverseOf BE TE := by
  obtain ⟨r, hr⟩ := add_object_to_triangle_layer_CRING2D_returns
    (⟨⟨fun _ => 1, fun _ => 0, 1, fun _ => true, fun _ => 4⟩, 0, 1024,
      ⟨Real.sqrt, Real.cos, Real.sin, Real.pi⟩⟩ : Renderer ℝ)
    3601 ⟨⟨0, 0⟩, 1, 2⟩ (CLAYER_TRIANGLES.new 0) 1 0 (by decide) (by decide) (by decide)
  have h : add_object_to_triangle_layer
      (⟨⟨fun _ => 1, fun _ => 0, 1, fun _ => true, fun _ => 4⟩, 0, 1024,
        ⟨Real.sqrt, Real.cos, Real.sin, Real.pi⟩⟩ : Renderer ℝ)
      3601 (COBJECT2D.RING ⟨⟨0, 0⟩, 1, 2⟩) (CLAYER_TRIANGLES.new 0, 0) 1 0 = some (r, 0) := by
    simp only [add_object_to_triangle_layer, hr, Option.map_some']
  exact ⟨(r, 0), h, top_and_bottom_faces_reversed _ _ _ _ _ _ _ h⟩

/-- C3 fails as stated: for the counter-clockwise triangle (0,0), (1,0), (0,1)
the face appended to the top buffer is not wound to +Z and the face appended
to the bottom buffer is not wound to -Z; likewise for the clockwise 4-point
polygon (0,0), (0,1), (1,1), (1,0). -/
theorem top_face_winding_counterexample :
    signedArea2 (⟨0, 0⟩ : SFVEC2F ℚ) ⟨1, 0⟩ ⟨0, 1⟩ ≠ 0 ∧
    ¬ (∀ t ∈ (add_object_to_triangle_layer_CTRIANGLE2D
          (⟨⟨0, 0⟩, ⟨1, 0⟩, ⟨0, 1⟩⟩ : CTRIANGLE2D ℚ)
          (CLAYER_TRIANGLES.new 0) 1 0).m_layer_top_triangles, 0 < t.normalZ) ∧
    ¬ (∀ b ∈ (add_object_to_triangle_layer_CTRIANGLE2D
          (⟨⟨0, 0⟩, ⟨1, 0⟩, ⟨0, 1⟩⟩ : CTRIANGLE2D ℚ)
          (CLAYER_TRIANGLES.new 0) 1 0).m_layer_bot_triangles, b.normalZ < 0) ∧
    ¬ (∀ t ∈ (add_object_to_triangle_layer_CPOLYGON4PTS2D
          (⟨⟨0, 0⟩, ⟨0, 1⟩, ⟨1, 1⟩, ⟨1, 0⟩⟩ : CPOLYGON4PTS2D ℚ)
          (CLAYER_TRIANGLES.new 0) 1 0).m_layer_top_triangles, 0 < t.normalZ) := by
  refine ⟨?_, ?_, ?_, ?_⟩
  · norm_num [signedArea2]
  · norm_num [add_object_to_triangle_layer_CTRIANGLE2D, add_triangle_top_bot,
      CLAYER_TRIANGLES.new, CLAYER_TRIANGLE_CONTAINER.AddTriangle, Face.normalZ, signedArea2]
  · norm_num [add_object_to_triangle_layer_CTRIANGLE2D, add_triangle_top_bot,
      CLAYER_TRIANGLES.new, CLAYER_TRIANGLE_CONTAINER.AddTriangle, Face.normalZ, signedArea2]
  · norm_num [add_object_to_triangle_layer_CPOLYGON4PTS2D, add_triangle_top_bot,
      CLAYER_TRIANGLES.new, CLAYER_TRIANGLE_CONTAINER.AddTriangle, Face.normalZ, signedArea2]

/-- C9: for every filled circle, destination mesh, Ztop and Zbot, the
filled-circle converter appends exactly two triangles to the top segment-end
buffer and exactly two to the bottom segment-end buffer, and leaves the plain
top and bottom buffers (and the side-wall requests) as they were. -/
theorem filled_circle_face_count (R : Renderer α) (aFilledCircle : CFILLEDCIRCLE2D α)
    (aDstLayer : CLAYER_TRIANGLES α) (aZtop aZbot : α) :
    ∃ t1 t2 b1 b2 : Face α,
      t1.isTriangle = true ∧ t2.isTriangle = true ∧
      b1.isTriangle = true ∧ b2.isTriangle = true ∧
      (add_object_to_triangle_layer_CFILLEDCIRCLE2D R aFilledCircle aDstLayer aZtop
        aZbot).m_layer_top_segment_ends = aDstLayer.m_layer_top_segment_ends ++ [t1, t2] ∧
      (add_object_to_triangle_layer_CFILLEDCIRCLE2D R aFilledCircle aDstLayer aZtop
        aZbot).m_layer_bot_segment_ends = aDstLayer.m_layer_bot_segment_ends ++ [b1, b2] ∧
      (add_object_to_triangle_layer_CFILLEDCIRCLE2D R aFilledCircle aDstLayer aZtop
        aZbot).m_layer_top_triangles = aDstLayer.m_layer_top_triangles ∧
      (add_object_to_triangle_layer_CFILLEDCIRCLE2D R aFilledCircle aDstLayer aZtop
        aZbot).m_layer_bot_triangles = aDstLayer.m_layer_bot_triangles ∧
      (add_object_to_triangle_layer_CFILLEDCIRCLE2D R aFilledCircle aDstLayer aZtop
        aZbot).m_layer_middle_contourns_quads = aDstLayer.m_layer_middle_contourns_quads ∧
      ((add_object_to_triangle_layer_CFILLEDCIRCLE2D R aFilledCircle
          (CLAYER_TRIANGLES.new 0) aZtop aZbot).m_layer_top_segment_ends.length = 2 ∧
        (add_object_to_triangle_layer_CFILLEDCIRCLE2D R aFilledCircle
          (CLAYER_TRIANGLES.new 0) aZtop aZbot).m_layer_bot_segment_ends.length = 2 ∧
        (add_object_to_triangle_layer_CFILLEDCIRCLE2D R aFilledCircle
          (CLAYER_TRIANGLES.new 0) aZtop aZbot).m_layer_top_triangles.length = 0 ∧
        (add_object_to_triangle_layer_CFILLEDCIRCLE2D R aFilledCircle
          (CLAYER_TRIANGLES.new 0) aZtop aZbot).m_layer_bot_triangles.length = 0) := by
  refine ⟨_, _, _, _, ?_, ?_, ?_, ?_, List.append_assoc _ _ _, List.append_assoc _ _ _, rfl, rfl,
    rfl, rfl, rfl, rfl, rfl⟩ <;> rfl

/-- C7: for a segment count between 1 and 3600 (fuel above 3600, real
arithmetic), `generate_ring_contour` returns two sequences of the same length
and, at every index, the inner and the outer point lie on the same ray from
the centre, `(inner[i] - centre) * Rout = (outer[i] - centre) * Rin`, at
distance `Rin` resp. `Rout` from the centre when that radius is not negative. -/
theorem generate_ring_contour_index_aligned (fuel : Nat) (aCenter : SFVEC2F ℝ)
    (aInnerRadius aOuterRadius : ℝ) (aNr_sides_per_circle : Nat) (aInvertOrder : Bool)
    (h1 : 1 ≤ aNr_sides_per_circle) (h2 : aNr_sides_per_circle ≤ 3600) (hf : 3600 < fuel) :
    ∃ inner outer : List (SFVEC2F ℝ),
      generate_ring_contour ⟨Real.sqrt, Real.cos, Real.sin, Real.pi⟩ fuel aCenter aInnerRadius
          aOuterRadius aNr_sides_per_circle aInvertOrder = some (inner, outer) ∧
      inner.length = outer.length ∧
      ∀ (i : Nat) (p q : SFVEC2F ℝ), inner[i]? = some p → outer[i]? = some q →
        (p.x - aCenter.x) * aOuterRadius = (q.x - aCenter.x) * aInnerRadius ∧
        (p.y - aCenter.y) * aOuterRadius = (q.y - aCenter.y) * aInnerRadius ∧
        (0 ≤ aInnerRadius →
          Real.sqrt ((p.x - aCenter.x) ^ 2 + (p.y - aCenter.y) ^ 2) = aInnerRadius) ∧
        (0 ≤ aOuterRadius →
          Real.sqrt ((q.x - aCenter.x) ^ 2 + (q.y - aCenter.y) ^ 2) = aOuterRadius) := by
  obtain ⟨t, -, h⟩ := generate_ring_contour_returns ⟨Real.sqrt, Real.cos, Real.sin, Real.pi⟩
    fuel aCenter aInnerRadius aOuterRadius aNr_sides_per_circle aInvertOrder h1 h2 hf
  refine ⟨_, _, h, by simp, ?_⟩
  intro i p q hp hq
  rw [List.getElem?_map] at hp hq
  cases hk : (0 :: t ++ [0])[i]? with
  | none =>
    rw [hk] at hp
    exact absurd hp (by simp)
  | some k =>
    rw [hk] at hp hq
    simp only [Option.map_some', Option.some.injEq] at hp hq
    subst hp
    subst hq
    simp only [ring_point, add_sub_cancel_left]
    refine ⟨by ring, by ring, ?_, ?_⟩
    · intro hr
      have e : ∀ a : ℝ, (Real.cos a * aInnerRadius) ^ 2 + (Real.sin a * aInnerRadius) ^ 2 =
          aInnerRadius ^ 2 := fun a => by
        have := Real.cos_sq_add_sin_sq a
        nlinarith [this]
      rw [e, Real.sqrt_sq hr]
    · intro hr
      have e : ∀ a : ℝ, (Real.cos a * aOuterRadius) ^ 2 + (Real.sin a * aOuterRadius) ^ 2 =
          aOuterRadius ^ 2 := fun a => by
        have := Real.cos_sq_add_sin_sq a
        nlinarith [this]
      rw [e, Real.sqrt_sq hr]

/-- Witness of C7: four segments around the origin, radii 1 and 2, fuel 3601. -/
theorem generate_ring_contour_index_aligned_witness :
    ∃ inner outer : List (SFVEC2F ℝ),
      generate_ring_contour ⟨Real.sqrt, Real.cos, Real.sin, Real.pi⟩ 3601 ⟨0, 0⟩ 1 2 4 false =
        some (inner, outer) ∧
      inner.length = outer.length ∧
      ∀ (i : Nat) (p q : SFVEC2F ℝ), inner[i]? = some p → outer[i]? = some q →
        (p.x - 0) * 2 = (q.x - 0) * 1 ∧
        (p.y - 0) * 2 = (q.y - 0) * 1 ∧
        ((0 : ℝ) ≤ 1 → Real.sqrt ((p.x - 0) ^ 2 + (p.y - 0) ^ 2) = 1) ∧
        ((0 : ℝ) ≤ 2 → Real.sqrt ((q.x - 0) ^ 2 + (q.y - 0) ^ 2) = 2) :=
  generate_ring_contour_index_aligned 3601 ⟨0, 0⟩ 1 2 4 false (by decide) (by decide) (by decide)

/-- C6: with 7 segments (real arithmetic, centre at the origin, radii 1 and 2)
the point of index 1 sits at the angle of 514 tenths of a degree, which is not
the point `centre + Rin * (cos (2 pi / 7), sin (2 pi / 7))` of the claim. -/
theorem generate_ring_contour_angle_seven (fuel : Nat) :
    ∃ inner outer : List (SFVEC2F ℝ),
      generate_ring_contour ⟨Real.sqrt, Real.cos, Real.sin, Real.pi⟩ (fuel + 9) ⟨0, 0⟩ 1 2 7
          false = some (inner, outer) ∧
      inner[1]? = some ⟨0 + Real.cos (514 * 2 * Real.pi / 3600) * 1,
                        0 + Real.sin (514 * 2 * Real.pi / 3600) * 1⟩ ∧
      inner[1]? ≠ some ⟨0 + 1 * Real.cos (2 * Real.pi * 1 / 7),
                        0 + 1 * Real.sin (2 * Real.pi * 1 / 7)⟩ := by
  have hd : (3600 / 7 : Nat) = 514 := by decide
  have hlt : 514 * 2 * Real.pi / 3600 < 2 * Real.pi * 1 / 7 := by
    nlinarith [Real.pi_pos]
  have h0 : (0 : ℝ) ≤ 514 * 2 * Real.pi / 3600 := by
    have := Real.pi_pos
    positivity
  have hpi : 2 * Real.pi * 1 / 7 ≤ Real.pi := by
    nlinarith [Real.pi_pos]
  have hcos := Real.cos_lt_cos_of_nonneg_of_le_pi h0 hpi hlt
  have h : generate_ring_contour (⟨Real.sqrt, Real.cos, Real.sin, Real.pi⟩ : FloatMath ℝ)
      (fuel + 9) ⟨0, 0⟩ 1 2 7 false =
      some (([0, 514, 1028, 1542, 2056, 2570, 3084, 3598] ++ [0]).map
              (ring_point ⟨Real.sqrt, Real.cos, Real.sin, Real.pi⟩ ⟨0, 0⟩ false 1),
            ([0, 514, 1028, 1542, 2056, 2570, 3084, 3598] ++ [0]).map
              (ring_point ⟨Real.sqrt, Real.cos, Real.sin, Real.pi⟩ ⟨0, 0⟩ false 2)) := by
    rw [generate_ring_contour_eq]
    simp only [hd, ring_loop_counters_seven]
    rfl
  refine ⟨_, _, h, ?_, ?_⟩
  · simp [ring_point]
  · simp only [List.map_cons, List.cons_append, List.getElem?_cons_succ, List.getElem?_cons_zero]
    intro h'
    have hx := congrArg SFVEC2F.x (Option.some.inj h')
    simp only [ring_point, Bool.false_eq_true, if_false, Nat.cast_ofNat, zero_add, mul_one,
      one_mul] at hx
    have hc2 : Real.cos (2 * Real.pi * 1 / 7) = Real.cos (2 * Real.pi / 7) := by rw [mul_one]
    linarith [hx, hc2, hcos]

theorem add_object_to_triangle_layer_CRING2D_eq (R : Renderer α) (fuel : Nat)
    (aRing : CRING2D α) (aDstLayer : CLAYER_TRIANGLES α) (aZtop aZbot : α) :
    add_object_to_triangle_layer_CRING2D R fuel aRing aDstLayer aZtop aZbot =
      (generate_ring_contour R.math fuel aRing.GetCenter aRing.GetInnerRadius
        aRing.GetOuterRadius (R.m_boardAdapter.GetNrSegmentsCircle (aRing.GetOuterRadius * 2))
        false).map (fun c =>
          { aDstLayer with
            m_layer_top_triangles := aDstLayer.m_layer_top_triangles ++
              (List.range (c.1.length - 1)).map (ring_top_quad c.1 c.2 aZtop)
            m_layer_bot_triangles := aDstLayer.m_layer_bot_triangles ++
              (List.range (c.1.length - 1)).map (ring_bot_quad c.1 c.2 aZbot) }) := by
  simp only [add_object_to_triangle_layer_CRING2D]
  cases generate_ring_contour R.math fuel aRing.GetCenter aRing.GetInnerRadius
      aRing.GetOuterRadius (R.m_boardAdapter.GetNrSegmentsCircle (aRing.GetOuterRadius * 2))
      false with
  | none => rfl
  | some c =>
    obtain ⟨innerContour, outerContour⟩ := c
    simp only [Option.map_some', add_ring_quads_foldl]

theorem generate_ring_contour_seven (M : FloatMath α) (aCenter : SFVEC2F α)
    (aInnerRadius aOuterRadius : α) (aInvertOrder : Bool) (fuel : Nat) :
    generate_ring_contour M (fuel + 9) aCenter aInnerRadius aOuterRadius 7 aInvertOrder =
      some (([0, 514, 1028, 1542, 2056, 2570, 3084, 3598] ++ [0]).map
              (ring_point M aCenter aInvertOrder aInnerRadius),
            ([0, 514, 1028, 1542, 2056, 2570, 3084, 3598] ++ [0]).map
              (ring_point M aCenter aInvertOrder aOuterRadius)) := by
  have hd : (3600 / 7 : Nat) = 514 := by decide
  rw [generate_ring_contour_eq, hd, ring_loop_counters_seven]
  rfl

/-- C10: when the adapter chooses 7 segments, the ring converter appends 8 top
quads and 8 bottom quads (one per consecutive pair of the 9 contour points),
not 7, and nothing to the segment-end buffers. -/
theorem ring_quad_count_seven (R : Renderer α) (aRing : CRING2D α) (aZtop aZbot : α)
    (fuel : Nat) :
    (add_object_to_triangle_layer_CRING2D
        { R with m_boardAdapter := { R.m_boardAdapter with GetNrSegmentsCircle := fun _ => 7 } }
        (fuel + 9) aRing (CLAYER_TRIANGLES.new 0) aZtop aZbot).map
      (fun m => (m.m_layer_top_triangles.length, m.m_layer_bot_triangles.length,
        m.m_layer_top_segment_ends.length, m.m_layer_bot_segment_ends.length)) =
      some (8, 8, 0, 0) ∧
    (add_object_to_triangle_layer_CRING2D
        { R with m_boardAdapter := { R.m_boardAdapter with GetNrSegmentsCircle := fun _ => 7 } }
        (fuel + 9) aRing (CLAYER_TRIANGLES.new 0) aZtop aZbot).map
      (fun m => (m.m_layer_top_triangles.all Face.isQuad,
        m.m_layer_bot_triangles.all Face.isQuad)) = some (true, true) := by
  have h := generate_ring_contour_seven R.math aRing.GetCenter aRing.GetInnerRadius
    aRing.GetOuterRadius false fuel
  rw [add_object_to_triangle_layer_CRING2D_eq]
  rw [show ∀ x, ({ R with m_boardAdapter :=
      { R.m_boardAdapter with GetNrSegmentsCircle := fun _ => 7 } } :
      Renderer α).m_boardAdapter.GetNrSegmentsCircle x = 7 from fun _ => rfl]
  rw [show ({ R with m_boardAdapter :=
      { R.m_boardAdapter with GetNrSegmentsCircle := fun _ => 7 } } :
      Renderer α).math = R.math from rfl]
  rw [h]
  exact ⟨rfl, rfl⟩

/-! ### The assemblers return, and return absent only on an empty list -/

theorem add_object_to_triangle_layer_returns (R : Renderer α) (fuel : Nat)
    (hN : ∀ x, 1 ≤ R.m_boardAdapter.GetNrSegmentsCircle x ∧
      R.m_boardAdapter.GetNrSegmentsCircle x ≤ 3600)
    (hf : 3600 < fuel) (object2d_A : COBJECT2D α) (st : CLAYER_TRIANGLES α × Nat)
    (aZtop aZbot : α) :
    ∃ st', add_object_to_triangle_layer R fuel object2d_A st aZtop aZbot = some st' := by
  cases object2d_A with
  | RING o =>
    obtain ⟨r, hr⟩ := add_object_to_triangle_layer_CRING2D_returns R fuel o st.1 aZtop aZbot
      (hN _).1 (hN _).2 hf
    exact ⟨(r, st.2), by simp only [add_object_to_triangle_layer, hr, Option.map_some']⟩
  | FILLED_CIRCLE o => exact ⟨_, rfl⟩
  | POLYGON4PT o => exact ⟨_, rfl⟩
  | TRIANGLE o => exact ⟨_, rfl⟩
  | ROUNDSEG o => exact ⟨_, rfl⟩
  | OTHER => exact ⟨_, rfl⟩

theorem generateLayerListFromContainer_loop_returns (R : Renderer α) (fuel : Nat)
    (hN : ∀ x, 1 ≤ R.m_boardAdapter.GetNrSegmentsCircle x ∧
      R.m_boardAdapter.GetNrSegmentsCircle x ≤ 3600)
    (hf : 3600 < fuel) (layer_z_top layer_z_bot : α) (l : List (COBJECT2D α)) :
    ∀ st : CLAYER_TRIANGLES α × Nat,
      ∃ st', generateLayerListFromContainer_loop R fuel layer_z_top layer_z_bot l st =
        some st' := by
  induction l with
  | nil => intro st; exact ⟨st, rfl⟩
  | cons o l ih =>
    intro st
    obtain ⟨st1, h1⟩ := add_object_to_triangle_layer_returns R fuel hN hf o st layer_z_top
      layer_z_bot
    obtain ⟨st2, h2⟩ := ih st1
    exact ⟨st2, by simp only [generateLayerListFromContainer_loop, h1, h2]⟩

theorem generateLayerListFromContainer_ret (R : Renderer α) (fuel : Nat)
    (aContainer : Option (CBVHCONTAINER2D α)) (aPolyList : Option SHAPE_POLY_SET)
    (aLayerId : PCB_LAYER_ID) :
    ((generateLayerListFromContainer R fuel aContainer aPolyList aLayerId).map Traced.ret =
        some none ↔
      (aContainer = none ∨ ∃ c, aContainer = some c ∧ c.GetList = [])) := by
  cases aContainer with
  | none => simp [generateLayerListFromContainer]
  | some c =>
    by_cases hl : c.GetList = []
    · simp [generateLayerListFromContainer, hl]
    · have hlen : c.GetList.length ≠ 0 := fun h => hl (List.length_eq_zero.mp h)
      simp only [generateLayerListFromContainer, hlen, if_false]
      cases generateLayerListFromContainer_loop R fuel
          (get_layer_z_pos R.m_boardAdapter aLayerId).1
          (get_layer_z_pos R.m_boardAdapter aLayerId).2 c.GetList
          (CLAYER_TRIANGLES.new (c.GetList.length * 8), 0) with
      | none => simp [hl]
      | some st => simp [hl]

theorem generateLayerListFromContainer_returns (R : Renderer α) (fuel : Nat)
    (hN : ∀ x, 1 ≤ R.m_boardAdapter.GetNrSegmentsCircle x ∧
      R.m_boardAdapter.GetNrSegmentsCircle x ≤ 3600)
    (hf : 3600 < fuel)
    (aContainer : Option (CBVHCONTAINER2D α)) (aPolyList : Option SHAPE_POLY_SET)
    (aLayerId : PCB_LAYER_ID) :
    ∃ t, generateLayerListFromContainer R fuel aContainer aPolyList aLayerId = some t := by
  cases aContainer with
  | none => exact ⟨_, rfl⟩
  | some c =>
    by_cases hlen : c.GetList.length = 0
    · exact ⟨⟨none, 0⟩, by simp only [generateLayerListFromContainer, hlen, if_true]⟩
    · obtain ⟨st, hst⟩ := generateLayerListFromContainer_loop_returns R fuel hN hf
        (get_layer_z_pos R.m_boardAdapter aLayerId).1
        (get_layer_z_pos R.m_boardAdapter aLayerId).2 c.GetList
        (CLAYER_TRIANGLES.new (c.GetList.length * 8), 0)
      simp only [generateLayerListFromContainer, hlen, if_false, hst]
      exact ⟨_, rfl⟩

theorem generate_holes_display_list_ret (R : Renderer α) (aListHolesObject2d : LIST_OBJECT2D α)
    (aPoly : SHAPE_POLY_SET) (aZtop aZbot : α) (aInvertFaces : Bool) :
    (generate_holes_display_list R aListHolesObject2d aPoly aZtop aZbot aInvertFaces).ret =
      none ↔ aListHolesObject2d = [] := by
  cases aListHolesObject2d with
  | nil => simp [generate_holes_display_list]
  | cons o l => simp [generate_holes_display_list]

/-- C8: `generateLayerListFromContainer` returns a null result exactly when the
container is null or its primitive list is empty, and it does return whenever
the adapter's segment counts lie between 1 and 3600 (fuel above 3600);
`generate_holes_display_list` returns a null result exactly when its primitive
list is empty; so a present object is never built from an empty list. -/
theorem absent_iff_empty (R : Renderer α) (fuel : Nat)
    (aContainer : Option (CBVHCONTAINER2D α)) (aPolyList : Option SHAPE_POLY_SET)
    (aLayerId : PCB_LAYER_ID) (aListHolesObject2d : LIST_OBJECT2D α)
    (aPoly : SHAPE_POLY_SET) (aZtop aZbot : α) (aInvertFaces : Bool) :
    ((generateLayerListFromContainer R fuel aContainer aPolyList aLayerId).map Traced.ret =
        some none ↔
      (aContainer = none ∨ ∃ c, aContainer = some c ∧ c.GetList = [])) ∧
    (∀ obj, (generateLayerListFromContainer R fuel aContainer aPolyList aLayerId).map
        Traced.ret = some (some obj) → ∃ c, aContainer = some c ∧ c.GetList ≠ []) ∧
    ((∀ x, 1 ≤ R.m_boardAdapter.GetNrSegmentsCircle x ∧
        R.m_boardAdapter.GetNrSegmentsCircle x ≤ 3600) → 3600 < fuel →
      ∃ t, generateLayerListFromContainer R fuel aContainer aPolyList aLayerId = some t) ∧
    ((generate_holes_display_list R aListHolesObject2d aPoly aZtop aZbot aInvertFaces).ret =
      none ↔ aListHolesObject2d = []) ∧
    (∀ obj, (generate_holes_display_list R aListHolesObject2d aPoly aZtop aZbot
        aInvertFaces).ret = some obj → aListHolesObject2d ≠ []) := by
  refine ⟨generateLayerListFromContainer_ret R fuel aContainer aPolyList aLayerId, ?_,
    fun hN hf => generateLayerListFromContainer_returns R fuel hN hf aContainer aPolyList
      aLayerId,
    generate_holes_display_list_ret R aListHolesObject2d aPoly aZtop aZbot aInvertFaces, ?_⟩
  · intro obj hobj
    cases aContainer with
    | none => simp [generateLayerListFromContainer] at hobj
    | some c =>
      refine ⟨c, rfl, fun hl => ?_⟩
      have := (generateLayerListFromContainer_ret R fuel (some c) aPolyList aLayerId).mpr
        (Or.inr ⟨c, rfl, hl⟩)
      rw [this] at hobj
      exact absurd hobj (by simp)
  · intro obj hobj hl
    have := (generate_holes_display_list_ret R aListHolesObject2d aPoly aZtop aZbot
      aInvertFaces).mpr hl
    rw [this] at hobj
    exact absurd hobj (by simp)

/-- Witness of C8: a container holding one ring (radii 1 and 2, 4 segments),
real arithmetic, fuel 3601: the assembler returns, and an empty holes list
gives a null result. -/
theorem absent_iff_empty_witness :
    (∃ t, generateLayerListFromContainer
        (⟨⟨fun _ => 1, fun _ => 0, 1, fun _ => true, fun _ => 4⟩, 0, 1024,
          ⟨Real.sqrt, Real.cos, Real.sin, Real.pi⟩⟩ : Renderer ℝ)
        3601 (some ⟨[COBJECT2D.RING ⟨⟨0, 0⟩, 1, 2⟩]⟩) none 0 = some t) ∧
    (generate_holes_display_list
        (⟨⟨fun _ => 1, fun _ => 0, 1, fun _ => true, fun _ => 4⟩, 0, 1024,
          ⟨Real.sqrt, Real.cos, Real.sin, Real.pi⟩⟩ : Renderer ℝ)
        [] ⟨[]⟩ 1 0 false).ret = none :=
  ⟨(absent_iff_empty
      (⟨⟨fun _ => 1, fun _ => 0, 1, fun _ => true, fun _ => 4⟩, 0, 1024,
        ⟨Real.sqrt, Real.cos, Real.sin, Real.pi⟩⟩ : Renderer ℝ)
      3601 (some ⟨[COBJECT2D.RING ⟨⟨0, 0⟩, 1, 2⟩]⟩) none 0 [] ⟨[]⟩ 1 0 false).2.2.1
      (fun _ => ⟨(by decide : 1 ≤ 4), (by decide : 4 ≤ 3600)⟩) (by decide),
   (absent_iff_empty
      (⟨⟨fun _ => 1, fun _ => 0, 1, fun _ => true, fun _ => 4⟩, 0, 1024,
        ⟨Real.sqrt, Real.cos, Real.sin, Real.pi⟩⟩ : Renderer ℝ)
      3601 (some ⟨[COBJECT2D.RING ⟨⟨0, 0⟩, 1, 2⟩]⟩) none 0 [] ⟨[]⟩ 1 0 false).2.2.2.1.mpr rfl⟩

/-! ### The 4-point polygon -/

/-- C11: for every 4-point polygon (and destination mesh, Ztop, Zbot) the
converter appends exactly two triangles to the top buffer and exactly two to
the bottom buffer, and nothing elsewhere; on each face the first triangle has
the vertices V0, V1, V2 and the second V0, V2, V3, so both contain V0 and V2. -/
theorem polygon4pt_split (aPoly : CPOLYGON4PTS2D α) (aDstLayer : CLAYER_TRIANGLES α)
    (aZtop aZbot : α) :
    ∃ t1 t2 b1 b2 : Face α,
      t1.isTriangle = true ∧ t2.isTriangle = true ∧
      b1.isTriangle = true ∧ b2.isTriangle = true ∧
      (add_object_to_triangle_layer_CPOLYGON4PTS2D aPoly aDstLayer aZtop
        aZbot).m_layer_top_triangles = aDstLayer.m_layer_top_triangles ++ [t1, t2] ∧
      (add_object_to_triangle_layer_CPOLYGON4PTS2D aPoly aDstLayer aZtop
        aZbot).m_layer_bot_triangles = aDstLayer.m_layer_bot_triangles ++ [b1, b2] ∧
      (add_object_to_triangle_layer_CPOLYGON4PTS2D aPoly aDstLayer aZtop
        aZbot).m_layer_top_segment_ends = aDstLayer.m_layer_top_segment_ends ∧
      (add_object_to_triangle_layer_CPOLYGON4PTS2D aPoly aDstLayer aZtop
        aZbot).m_layer_bot_segment_ends = aDstLayer.m_layer_bot_segment_ends ∧
      List.Perm t1.xy [aPoly.GetV0, aPoly.GetV1, aPoly.GetV2] ∧
      List.Perm t2.xy [aPoly.GetV0, aPoly.GetV2, aPoly.GetV3] ∧
      List.Perm b1.xy [aPoly.GetV0, aPoly.GetV1, aPoly.GetV2] ∧
      List.Perm b2.xy [aPoly.GetV0, aPoly.GetV2, aPoly.GetV3] ∧
      aPoly.GetV0 ∈ t1.xy ∧ aPoly.GetV2 ∈ t1.xy ∧ aPoly.GetV0 ∈ t2.xy ∧ aPoly.GetV2 ∈ t2.xy ∧
      aPoly.GetV0 ∈ b1.xy ∧ aPoly.GetV2 ∈ b1.xy ∧ aPoly.GetV0 ∈ b2.xy ∧ aPoly.GetV2 ∈ b2.xy := by
  refine ⟨_, _, _, _, ?_, ?_, ?_, ?_, List.append_assoc _ _ _, List.append_assoc _ _ _, rfl, rfl,
    ?_, ?_, ?_, ?_, ?_, ?_, ?_, ?_, ?_, ?_, ?_, ?_⟩
  · rfl
  · rfl
  · rfl
  · rfl
  · exact List.IsRotated.perm ⟨2, rfl⟩
  · exact List.IsRotated.perm ⟨1, rfl⟩
  · exact List.Perm.cons _ (List.Perm.swap _ _ _)
  · exact List.Perm.swap _ _ _
  · exact List.mem_cons_of_mem _ (List.mem_cons_of_mem _ (List.mem_cons_self _ _))
  · exact List.mem_cons_of_mem _ (List.mem_cons_self _ _)
  · exact List.mem_cons_of_mem _ (List.mem_cons_self _ _)
  · exact List.mem_cons_of_mem _ (List.mem_cons_of_mem _ (List.mem_cons_self _ _))
  · exact List.mem_cons_self _ _
  · exact List.mem_cons_of_mem _ (List.mem_cons_self _ _)
  · exact List.mem_cons_of_mem _ (List.mem_cons_self _ _)
  · exact List.mem_cons_self _ _

/-! ### The holes generator against the layer assembler -/

theorem holes_loop_eq_layer_loop (R : Renderer α) (fuel : Nat) (aZtop aZbot : α)
    (l : List (COBJECT2D α)) (hl : ∀ o ∈ l, o.isHoleKind = true) :
    ∀ st : CLAYER_TRIANGLES α × Nat,
      generateLayerListFromContainer_loop R fuel aZtop aZbot l st =
        some (generate_holes_display_list_loop R aZtop aZbot l st) := by
  induction l with
  | nil => intro st; rfl
  | cons o l ih =>
    intro st
    have hl' : ∀ o ∈ l, o.isHoleKind = true := fun o ho => hl o (List.mem_cons_of_mem _ ho)
    have ho := hl o (List.mem_cons_self _ _)
    obtain ⟨layerTriangles, failed⟩ := st
    cases o with
    | FILLED_CIRCLE c =>
      simp only [generateLayerListFromContainer_loop, add_object_to_triangle_layer,
        generate_holes_display_list_loop, ih hl']
    | ROUNDSEG c =>
      simp only [generateLayerListFromContainer_loop, add_object_to_triangle_layer,
        generate_holes_display_list_loop, ih hl']
    | POLYGON4PT c => simp [COBJECT2D.isHoleKind] at ho
    | RING c => simp [COBJECT2D.isHoleKind] at ho
    | TRIANGLE c => simp [COBJECT2D.isHoleKind] at ho
    | OTHER => simp [COBJECT2D.isHoleKind] at ho

/-- C20: for a non-empty primitive list made only of filled circles and rounded
segments, a polygon set P and a layer L, the layer assembler called on the
container of the list, P and L returns, and it returns what the holes
generator returns for the list, P, the resolved Z pair of L and no face
inversion: the same mesh buffer, the same side-wall request, the same Z bounds
(and no failed check on either side). -/
theorem holes_generator_refines_layer_assembler (R : Renderer α) (fuel : Nat)
    (l : List (COBJECT2D α)) (aPoly : SHAPE_POLY_SET) (aLayerId : PCB_LAYER_ID)
    (hne : l ≠ []) (hl : ∀ o ∈ l, o.isHoleKind = true) :
    generateLayerListFromContainer R fuel (some ⟨l⟩) (some aPoly) aLayerId =
      some (generate_holes_display_list R l aPoly
        (get_layer_z_pos R.m_boardAdapter aLayerId).1
        (get_layer_z_pos R.m_boardAdapter aLayerId).2 false) ∧
    (generate_holes_display_list R l aPoly
        (get_layer_z_pos R.m_boardAdapter aLayerId).1
        (get_layer_z_pos R.m_boardAdapter aLayerId).2 false).ret.isSome = true := by
  have hlen : l.length ≠ 0 := fun h => hne (List.length_eq_zero.mp h)
  have hpos : l.length > 0 := Nat.pos_of_ne_zero hlen
  constructor
  · simp only [generateLayerListFromContainer, hlen, if_false, holes_loop_eq_layer_loop R fuel _ _
      l hl, generate_holes_display_list, hpos, if_true, CLAYER_TRIANGLES.new]
  · simp only [generate_holes_display_list, hpos, if_true, Option.isSome_some]

/-- Witness of C20: a list of one filled circle (radius 1 at the origin), an
empty polygon set, layer 0, real arithmetic. -/
theorem holes_generator_refines_layer_assembler_witness :
    generateLayerListFromContainer
        (⟨⟨fun _ => 1, fun _ => 0, 1, fun _ => true, fun _ => 4⟩, 0, 1024,
          ⟨Real.sqrt, Real.cos, Real.sin, Real.pi⟩⟩ : Renderer ℝ)
        0 (some ⟨[COBJECT2D.FILLED_CIRCLE ⟨⟨0, 0⟩, 1⟩]⟩) (some ⟨[]⟩) 0 =
      some (generate_holes_display_list
        (⟨⟨fun _ => 1, fun _ => 0, 1, fun _ => true, fun _ => 4⟩, 0, 1024,
          ⟨Real.sqrt, Real.cos, Real.sin, Real.pi⟩⟩ : Renderer ℝ)
        [COBJECT2D.FILLED_CIRCLE ⟨⟨0, 0⟩, 1⟩] ⟨[]⟩
        (get_layer_z_pos (⟨fun _ => 1, fun _ => 0, 1, fun _ => true, fun _ => 4⟩ :
          BOARD_ADAPTER ℝ) 0).1
        (get_layer_z_pos (⟨fun _ => 1, fun _ => 0, 1, fun _ => true, fun _ => 4⟩ :
          BOARD_ADAPTER ℝ) 0).2 false) :=
  (holes_generator_refines_layer_assembler
    (⟨⟨fun _ => 1, fun _ => 0, 1, fun _ => true, fun _ => 4⟩, 0, 1024,
      ⟨Real.sqrt, Real.cos, Real.sin, Real.pi⟩⟩ : Renderer ℝ)
    0 [COBJECT2D.FILLED_CIRCLE ⟨⟨0, 0⟩, 1⟩] ⟨[]⟩ 0 (by simp)
    (by intro o ho; rw [List.mem_singleton] at ho; subst ho; rfl)).1

/-! ### The holes generator on a primitive it does not handle -/

theorem holes_loop_filter (R : Renderer α) (aZtop aZbot : α) (l : List (COBJECT2D α)) :
    ∀ st : CLAYER_TRIANGLES α × Nat,
      generate_holes_display_list_loop R aZtop aZbot l st =
        ((generate_holes_display_list_loop R aZtop aZbot (l.filter COBJECT2D.isHoleKind)
            (st.1, 0)).1,
          st.2 + 2 * (l.filter (fun o => !o.isHoleKind)).length) := by
  induction l with
  | nil => intro st; rfl
  | cons o l ih =>
    intro st
    obtain ⟨layerTriangles, failed⟩ := st
    cases o with
    | FILLED_CIRCLE c =>
      have e1 : generate_holes_display_list_loop R aZtop aZbot
          (COBJECT2D.FILLED_CIRCLE c :: l) (layerTriangles, failed) =
          generate_holes_display_list_loop R aZtop aZbot l
            (add_object_to_triangle_layer_CFILLEDCIRCLE2D R c layerTriangles aZtop aZbot,
              failed) := rfl
      rw [e1, ih]
      rfl
    | ROUNDSEG c =>
      have e1 : generate_holes_display_list_loop R aZtop aZbot
          (COBJECT2D.ROUNDSEG c :: l) (layerTriangles, failed) =
          generate_holes_display_list_loop R aZtop aZbot l
            (add_object_to_triangle_layer_CROUNDSEGMENT2D R c layerTriangles aZtop aZbot,
              failed) := rfl
      rw [e1, ih]
      rfl
    | POLYGON4PT c =>
      have e1 : generate_holes_display_list_loop R aZtop aZbot
          (COBJECT2D.POLYGON4PT c :: l) (layerTriangles, failed) =
          generate_holes_display_list_loop R aZtop aZbot l (layerTriangles, failed + 1 + 1) := rfl
      have e3 : (COBJECT2D.POLYGON4PT c :: l).filter (fun o => !o.isHoleKind) =
          COBJECT2D.POLYGON4PT c :: l.filter (fun o => !o.isHoleKind) := rfl
      rw [e1, ih, e3]
      refine Prod.ext rfl ?_
      simp only [List.length_cons]
      omega
    | RING c =>
      have e1 : generate_holes_display_list_loop R aZtop aZbot
          (COBJECT2D.RING c :: l) (layerTriangles, failed) =
          generate_holes_display_list_loop R aZtop aZbot l (layerTriangles, failed + 1 + 1) := rfl
      have e3 : (COBJECT2D.RING c :: l).filter (fun o => !o.isHoleKind) =
          COBJECT2D.RING c :: l.filter (fun o => !o.isHoleKind) := rfl
      rw [e1, ih, e3]
      refine Prod.ext rfl ?_
      simp only [List.length_cons]
      omega
    | TRIANGLE c =>
      have e1 : generate_holes_display_list_loop R aZtop aZbot
          (COBJECT2D.TRIANGLE c :: l) (layerTriangles, failed) =
          generate_holes_display_list_loop R aZtop aZbot l (layerTriangles, failed + 1 + 1) := rfl
      have e3 : (COBJECT2D.TRIANGLE c :: l).filter (fun o => !o.isHoleKind) =
          COBJECT2D.TRIANGLE c :: l.filter (fun o => !o.isHoleKind) := rfl
      rw [e1, ih, e3]
      refine Prod.ext rfl ?_
      simp only [List.length_cons]
      omega
    | OTHER =>
      have e1 : generate_holes_display_list_loop R aZtop aZbot
          (COBJECT2D.OTHER :: l) (layerTriangles, failed) =
          generate_holes_display_list_loop R aZtop aZbot l (layerTriangles, failed + 1 + 1) := rfl
      have e3 : (COBJECT2D.OTHER :: l).filter (fun o => !o.isHoleKind) =
          COBJECT2D.OTHER :: l.filter (fun o => !o.isHoleKind) := rfl
      rw [e1, ih, e3]
      refine Prod.ext rfl ?_
      simp only [List.length_cons]
      omega

/-- C15 fails as stated: for the list holding one triangle primitive the holes
generator reports two failed checks and still returns a renderable object. -/
theorem holes_generator_returns_object_on_triangle :
    (generate_holes_display_list
        (⟨⟨fun _ => 1, fun _ => 0, 1, fun _ => true, fun _ => 4⟩, 0, 1024,
          ⟨Real.sqrt, Real.cos, Real.sin, Real.pi⟩⟩ : Renderer ℝ)
        [COBJECT2D.TRIANGLE ⟨⟨0, 0⟩, ⟨1, 0⟩, ⟨0, 1⟩⟩] ⟨[]⟩ 1 0 false).ret ≠ none ∧
    (generate_holes_display_list
        (⟨⟨fun _ => 1, fun _ => 0, 1, fun _ => true, fun _ => 4⟩, 0, 1024,
          ⟨Real.sqrt, Real.cos, Real.sin, Real.pi⟩⟩ : Renderer ℝ)
        [COBJECT2D.TRIANGLE ⟨⟨0, 0⟩, ⟨1, 0⟩, ⟨0, 1⟩⟩] ⟨[]⟩ 1 0 false).failedAsserts = 2 := by
  constructor
  · simp [generate_holes_display_list]
  · rfl

/-- C15 as amended: for every primitive list that contains a primitive that is
neither a filled circle nor a rounded segment, the holes generator reports two
failed checks (the `wxASSERT` and the `wxFAIL_MSG`) for each such primitive,
adds nothing to the mesh for it, and still returns a renderable object: the one
built from the remaining primitives, with the Z bounds it was given. -/
theorem holes_generator_reports_and_continues (R : Renderer α) (l : List (COBJECT2D α))
    (aPoly : SHAPE_POLY_SET) (aZtop aZbot : α) (aInvertFaces : Bool)
    (h : ∃ o ∈ l, o.isHoleKind = false) :
    (generate_holes_display_list R l aPoly aZtop aZbot aInvertFaces).failedAsserts =
      2 * (l.filter (fun o => !o.isHoleKind)).length ∧
    0 < (generate_holes_display_list R l aPoly aZtop aZbot aInvertFaces).failedAsserts ∧
    ∃ obj : CLAYERS_OGL_DISP_LISTS α,
      (generate_holes_display_list R l aPoly aZtop aZbot aInvertFaces).ret = some obj ∧
      obj.triangles =
        (if aPoly.OutlineCount > 0 then
          (generate_holes_display_list_loop R aZtop aZbot (l.filter COBJECT2D.isHoleKind)
            (CLAYER_TRIANGLES.new 0, 0)).1.AddToMiddleContourns aPoly aZbot aZtop
              R.m_boardAdapter.BiuTo3Dunits aInvertFaces
        else
          (generate_holes_display_list_loop R aZtop aZbot (l.filter COBJECT2D.isHoleKind)
            (CLAYER_TRIANGLES.new 0, 0)).1) ∧
      obj.aZBot = aZbot ∧ obj.aZTop = aZtop := by
  obtain ⟨o, ho, hk⟩ := h
  have hpos : l.length > 0 := List.length_pos_of_mem ho
  have hcnt : 0 < (l.filter (fun o => !o.isHoleKind)).length :=
    List.length_pos_of_mem (List.mem_filter.mpr ⟨ho, by simp [hk]⟩)
  have hf : (generate_holes_display_list R l aPoly aZtop aZbot aInvertFaces).failedAsserts =
      2 * (l.filter (fun o => !o.isHoleKind)).length := by
    simp only [generate_holes_display_list, hpos, if_true, holes_loop_filter R aZtop aZbot l]
    omega
  refine ⟨hf, by omega, ?_⟩
  simp only [generate_holes_display_list, hpos, if_true, holes_loop_filter R aZtop aZbot l]
  exact ⟨_, rfl, rfl, rfl, rfl⟩

/-- Witness of C15 as amended: the list holding one triangle primitive. -/
theorem holes_generator_reports_and_continues_witness :
    (generate_holes_display_list
        (⟨⟨fun _ => 1, fun _ => 0, 1, fun _ => true, fun _ => 4⟩, 0, 1024,
          ⟨Real.sqrt, Real.cos, Real.sin, Real.pi⟩⟩ : Renderer ℝ)
        [COBJECT2D.TRIANGLE ⟨⟨0, 0⟩, ⟨1, 0⟩, ⟨0, 1⟩⟩] ⟨[]⟩ 1 0 false).failedAsserts =
      2 * ([COBJECT2D.TRIANGLE (⟨⟨0, 0⟩, ⟨1, 0⟩, ⟨0, 1⟩⟩ : CTRIANGLE2D ℝ)].filter
        (fun o => !o.isHoleKind)).length :=
  (holes_generator_reports_and_continues
    (⟨⟨fun _ => 1, fun _ => 0, 1, fun _ => true, fun _ => 4⟩, 0, 1024,
      ⟨Real.sqrt, Real.cos, Real.sin, Real.pi⟩⟩ : Renderer ℝ)
    [COBJECT2D.TRIANGLE ⟨⟨0, 0⟩, ⟨1, 0⟩, ⟨0, 1⟩⟩] ⟨[]⟩ 1 0 false
    ⟨_, List.mem_cons_self _ _, rfl⟩).1

/-! ### The board object -/

theorem createBoard_loop_zs (layer_z_top layer_z_bot : α) (l : List (CTRIANGLE2D α)) :
    ∀ layerTriangles : CLAYER_TRIANGLES α,
      (∀ t ∈ layerTriangles.m_layer_top_triangles, ∀ z ∈ t.zs, z = layer_z_top) →
      (∀ b ∈ layerTriangles.m_layer_bot_triangles, ∀ z ∈ b.zs, z = layer_z_bot) →
      (∀ t ∈ (createBoard_loop layer_z_top layer_z_bot l layerTriangles).m_layer_top_triangles,
        ∀ z ∈ t.zs, z = layer_z_top) ∧
      (∀ b ∈ (createBoard_loop layer_z_top layer_z_bot l layerTriangles).m_layer_bot_triangles,
        ∀ z ∈ b.zs, z = layer_z_bot) := by
  induction l with
  | nil => intro layerTriangles ht hb; exact ⟨ht, hb⟩
  | cons tri l ih =>
    intro layerTriangles ht hb
    simp only [createBoard_loop]
    apply ih
    · intro t hmem z hz
      simp only [add_triangle_top_bot, CLAYER_TRIANGLE_CONTAINER.AddTriangle,
        List.mem_append, List.mem_singleton] at hmem
      rcases hmem with hmem | rfl
      · exact ht t hmem z hz
      · simpa [Face.zs] using hz
    · intro b hmem z hz
      simp only [add_triangle_top_bot, CLAYER_TRIANGLE_CONTAINER.AddTriangle,
        List.mem_append, List.mem_singleton] at hmem
      rcases hmem with hmem | rfl
      · exact hb b hmem z hz
      · simpa [Face.zs] using hz

/-- C16: for a board polygon with a non-empty triangulation (and a non-empty
adapter board outline) `createBoard` returns an object whose top faces lie at
Z = 1 and whose bottom faces lie at Z = 0, but the bounds it records are
bottom = 1 and top = 1: the constructor is handed `layer_z_top` twice. -/
theorem createBoard_records_top_as_bottom (R : Renderer α) (S : SCENE_ACCESSORS α)
    (aBoardPoly : SHAPE_POLY_SET)
    (htri : S.Convert_shape_line_polygon_to_triangles aBoardPoly
      R.m_boardAdapter.BiuTo3Dunits ≠ [])
    (hout : S.GetBoardPoly.OutlineCount > 0) :
    ∃ obj : CLAYERS_OGL_DISP_LISTS α,
      (createBoard R S aBoardPoly).ret = some obj ∧
      obj.aZBot = 1 ∧ obj.aZTop = 1 ∧ obj.aZBot ≠ 0 ∧
      (∀ t ∈ obj.triangles.m_layer_top_triangles, ∀ z ∈ t.zs, z = 1) ∧
      (∀ b ∈ obj.triangles.m_layer_bot_triangles, ∀ z ∈ b.zs, z = 0) := by
  have hpos : (S.Convert_shape_line_polygon_to_triangles aBoardPoly
      R.m_boardAdapter.BiuTo3Dunits).length > 0 := List.length_pos.mpr htri
  have hz := createBoard_loop_zs (1 : α) 0
    (S.Convert_shape_line_polygon_to_triangles aBoardPoly R.m_boardAdapter.BiuTo3Dunits)
    (CLAYER_TRIANGLES.new (S.Convert_shape_line_polygon_to_triangles aBoardPoly
      R.m_boardAdapter.BiuTo3Dunits).length)
    (by intro t ht; simp [CLAYER_TRIANGLES.new] at ht)
    (by intro t ht; simp [CLAYER_TRIANGLES.new] at ht)
  simp only [createBoard, hpos, hout, if_true]
  exact ⟨_, rfl, rfl, rfl, one_ne_zero, hz.1, hz.2⟩

/-- Witness of C16: a board whose polygon is triangulated into the one
triangle (0,0), (1,0), (0,1) and whose outline set has one outline. -/
theorem createBoard_records_top_as_bottom_witness :
    ∃ obj : CLAYERS_OGL_DISP_LISTS ℝ,
      (createBoard
        (⟨⟨fun _ => 1, fun _ => 0, 1, fun _ => true, fun _ => 4⟩, 0, 1024,
          ⟨Real.sqrt, Real.cos, Real.sin, Real.pi⟩⟩ : Renderer ℝ)
        (⟨⟨[], []⟩, ⟨[[[(0, 0), (1, 0), (0, 1)]]]⟩, fun _ => true, 1, fun _ => 4, 0, [],
          fun _ => none, fun _ => none, 0, fun _ _ => [⟨⟨0, 0⟩, ⟨1, 0⟩, ⟨0, 1⟩⟩]⟩ :
          SCENE_ACCESSORS ℝ)
        ⟨[[[(0, 0), (1, 0), (0, 1)]]]⟩).ret = some obj ∧
      obj.aZBot = 1 ∧ obj.aZTop = 1 ∧ obj.aZBot ≠ 0 ∧
      (∀ t ∈ obj.triangles.m_layer_top_triangles, ∀ z ∈ t.zs, z = 1) ∧
      (∀ b ∈ obj.triangles.m_layer_bot_triangles, ∀ z ∈ b.zs, z = 0) :=
  createBoard_records_top_as_bottom _ _ _ (by simp) (by decide)

/-! ### The 3D model cache -/

theorem load_3D_models_model_eq (mm : MATERIAL_MODE) (G : String → Option S3DMODEL)
    (st : ModelCache) (model : MODULE_3D_SETTINGS) :
    load_3D_models_model mm G st model =
      if model.m_Show && !(model.m_Filename == "") then
        load_3D_models_visible mm G st model.m_Filename
      else st := by
  by_cases hv : (model.m_Show && !(model.m_Filename == "")) = true
  · rw [if_pos hv]
    unfold load_3D_models_model load_3D_models_visible
    rw [if_pos hv]
  · rw [if_neg hv]
    unfold load_3D_models_model
    rw [if_neg hv]

theorem foldl_load_3D_models_model (mm : MATERIAL_MODE) (G : String → Option S3DMODEL)
    (l : List MODULE_3D_SETTINGS) :
    ∀ st : ModelCache,
      l.foldl (load_3D_models_model mm G) st =
        ((l.filter (fun model => model.m_Show && !(model.m_Filename == ""))).map
          (fun model => model.m_Filename)).foldl (load_3D_models_visible mm G) st := by
  induction l with
  | nil => intro st; rfl
  | cons model l ih =>
    intro st
    rw [List.foldl_cons, load_3D_models_model_eq, ih]
    by_cases hv : (model.m_Show && !(model.m_Filename == "")) = true
    · have e : (model :: l).filter (fun model => model.m_Show && !(model.m_Filename == "")) =
          model :: l.filter (fun model => model.m_Show && !(model.m_Filename == "")) := by
        simp only [List.filter_cons, hv, if_true]
      rw [e, if_pos hv]
      rfl
    · have e : (model :: l).filter (fun model => model.m_Show && !(model.m_Filename == "")) =
          l.filter (fun model => model.m_Show && !(model.m_Filename == "")) := by
        simp only [List.filter_cons, hv, if_false, Bool.false_eq_true]
      rw [e, if_neg hv]

theorem load_3D_models_eq (S : SCENE_ACCESSORS α) (st : ModelCache) :
    load_3D_models S st =
      if models_enabled S then
        (requested_filenames S.GetBoard).foldl
          (load_3D_models_visible S.MaterialModeGet S.GetModel) st
      else st := by
  unfold load_3D_models models_enabled requested_filenames visible_model_references
  cases h1 : S.GetFlag .FL_MODULE_ATTRIBUTES_NORMAL <;>
  cases h2 : S.GetFlag .FL_MODULE_ATTRIBUTES_NORMAL_INSERT <;>
  cases h3 : S.GetFlag .FL_MODULE_ATTRIBUTES_VIRTUAL <;>
  simp only [Bool.not_true, Bool.not_false, Bool.and_true, Bool.and_false, Bool.or_true,
    Bool.or_false, Bool.or_self, Bool.and_self, if_true, if_false, Bool.false_eq_true] <;>
  rw [← foldl_load_3D_models_model, List.foldl_flatten, List.foldl_map]

theorem load_3D_models_visible_keeps (mm : MATERIAL_MODE) (G : String → Option S3DMODEL)
    (st : ModelCache) (g k : String) (v : C_OGL_3DMODEL) (h : st.m_3dmodel_map k = some v) :
    (load_3D_models_visible mm G st g).m_3dmodel_map k = some v := by
  unfold load_3D_models_visible
  by_cases hn : (st.m_3dmodel_map g).isNone = true
  · rw [if_pos hn]
    have hkg : k ≠ g := by
      intro e
      rw [e] at h
      rw [h] at hn
      simp at hn
    cases G g with
    | none => exact h
    | some mp => simp only [std_map.assign, hkg, if_false, h]
  · rw [if_neg hn]
    exact h

theorem foldl_load_3D_models_visible_keeps (mm : MATERIAL_MODE) (G : String → Option S3DMODEL)
    (fs : List String) (k : String) (v : C_OGL_3DMODEL) :
    ∀ st : ModelCache, st.m_3dmodel_map k = some v →
      (fs.foldl (load_3D_models_visible mm G) st).m_3dmodel_map k = some v := by
  induction fs with
  | nil => intro st h; exact h
  | cons g fs ih =>
    intro st h
    rw [List.foldl_cons]
    exact ih _ (load_3D_models_visible_keeps mm G st g k v h)

theorem foldl_load_3D_models_visible_loads (mm : MATERIAL_MODE) (G : String → Option S3DMODEL)
    (fs : List String) (f : String) (hG : (G f).isSome = true) :
    ∀ st : ModelCache, f ∈ fs →
      ((fs.foldl (load_3D_models_visible mm G) st).m_3dmodel_map f).isSome = true := by
  induction fs with
  | nil => intro st h; simp at h
  | cons g fs ih =>
    intro st h
    rw [List.foldl_cons]
    rcases List.mem_cons.mp h with rfl | h'
    · have hs : ((load_3D_models_visible mm G st f).m_3dmodel_map f).isSome = true := by
        unfold load_3D_models_visible
        by_cases hn : (st.m_3dmodel_map f).isNone = true
        · rw [if_pos hn]
          cases hg : G f with
          | none => rw [hg] at hG; simp at hG
          | some mp => simp [std_map.assign]
        · rw [if_neg hn]
          cases hm : st.m_3dmodel_map f with
          | none => rw [hm] at hn; simp at hn
          | some v => rfl
      obtain ⟨v, hv⟩ := Option.isSome_iff_exists.mp hs
      rw [foldl_load_3D_models_visible_keeps mm G fs f v _ hv]
      rfl
    · exact ih _ h'

theorem load_3D_models_visible_other (mm : MATERIAL_MODE) (G : String → Option S3DMODEL)
    (st : ModelCache) (g f : String) (hgf : g ≠ f) :
    (load_3D_models_visible mm G st g).m_3dmodel_map f = st.m_3dmodel_map f ∧
    (load_3D_models_visible mm G st g).GetModel_calls.count f = st.GetModel_calls.count f := by
  have hfg : f ≠ g := fun e => hgf e.symm
  unfold load_3D_models_visible
  by_cases hn : (st.m_3dmodel_map g).isNone = true
  · rw [if_pos hn]
    cases G g with
    | none => simp [List.count_append, List.count_singleton, hgf]
    | some mp => simp [List.count_append, List.count_singleton, hgf, std_map.assign, hfg]
  · rw [if_neg hn]
    exact ⟨rfl, rfl⟩

theorem load_3D_models_visible_same (mm : MATERIAL_MODE) (G : String → Option S3DMODEL)
    (st : ModelCache) (f : String) :
    ((st.m_3dmodel_map f).isSome = true →
      load_3D_models_visible mm G st f = st) ∧
    (st.m_3dmodel_map f = none → (G f).isSome = true →
      ((load_3D_models_visible mm G st f).m_3dmodel_map f).isSome = true ∧
      (load_3D_models_visible mm G st f).GetModel_calls.count f =
        st.GetModel_calls.count f + 1) ∧
    (st.m_3dmodel_map f = none → G f = none →
      (load_3D_models_visible mm G st f).m_3dmodel_map f = none ∧
      (load_3D_models_visible mm G st f).GetModel_calls.count f =
        st.GetModel_calls.count f + 1) := by
  unfold load_3D_models_visible
  refine ⟨?_, ?_, ?_⟩
  · intro h
    have hn : ¬ (st.m_3dmodel_map f).isNone = true := by
      cases hm : st.m_3dmodel_map f with
      | none => rw [hm] at h; simp at h
      | some v => simp
    rw [if_neg hn]
  · intro h hG
    have hn : (st.m_3dmodel_map f).isNone = true := by rw [h]; rfl
    rw [if_pos hn]
    cases hg : G f with
    | none => rw [hg] at hG; simp at hG
    | some mp => simp [List.count_append, List.count_singleton, std_map.assign]
  · intro h hG
    have hn : (st.m_3dmodel_map f).isNone = true := by rw [h]; rfl
    rw [if_pos hn, hG]
    simp [List.count_append, List.count_singleton, h]

theorem foldl_load_3D_models_visible_calls (mm : MATERIAL_MODE) (G : String → Option S3DMODEL)
    (fs : List String) (f : String) :
    ∀ st : ModelCache,
      (fs.foldl (load_3D_models_visible mm G) st).GetModel_calls.count f =
        st.GetModel_calls.count f +
          (if (st.m_3dmodel_map f).isSome then 0
           else if (G f).isSome then min 1 (fs.count f) else fs.count f) := by
  induction fs with
  | nil => intro st; simp
  | cons g fs ih =>
    intro st
    rw [List.foldl_cons, ih]
    by_cases hgf : g = f
    · subst hgf
      have hsame := load_3D_models_visible_same mm G st g
      rw [List.count_cons_self]
      cases hm : st.m_3dmodel_map g with
      | some v =>
        rw [hsame.1 (by rw [hm]; rfl), hm]
        simp
      | none =>
        cases hG : G g with
        | some mp =>
          obtain ⟨h1, h2⟩ := hsame.2.1 hm (by rw [hG]; rfl)
          rw [h2, h1]
          simp
        | none =>
          obtain ⟨h1, h2⟩ := hsame.2.2 hm hG
          rw [h2, h1]
          simp
          omega
    · obtain ⟨h1, h2⟩ := load_3D_models_visible_other mm G st g f hgf
      rw [h1, h2, List.count_cons_of_ne (fun e => hgf e.symm)]

theorem foldl_load_3D_models_visible_absent (mm : MATERIAL_MODE) (G : String → Option S3DMODEL)
    (fs : List String) (f : String) (hG : G f = none) :
    ∀ st : ModelCache, st.m_3dmodel_map f = none →
      (fs.foldl (load_3D_models_visible mm G) st).m_3dmodel_map f = none := by
  induction fs with
  | nil => intro st h; exact h
  | cons g fs ih =>
    intro st h
    rw [List.foldl_cons]
    apply ih
    by_cases hgf : g = f
    · subst hgf
      exact ((load_3D_models_visible_same mm G st g).2.2 h hG).1
    · rw [(load_3D_models_visible_other mm G st g f hgf).1]
      exact h

theorem mem_requested_filenames (board : BOARD) (f : String) :
    f ∈ requested_filenames board ↔
      ∃ module ∈ board.Modules, ∃ model ∈ module.Models,
        model.m_Show = true ∧ model.m_Filename ≠ "" ∧ model.m_Filename = f := by
  unfold requested_filenames visible_model_references
  simp only [List.mem_map, List.mem_filter, List.mem_flatten, Bool.and_eq_true,
    Bool.not_eq_true', beq_eq_false_iff_ne, ne_eq]
  constructor
  · rintro ⟨model, ⟨⟨l, ⟨module, hmod, rfl⟩, hmem⟩, hshow, hname⟩, rfl⟩
    exact ⟨module, hmod, model, hmem, hshow, hname, rfl⟩
  · rintro ⟨module, hmod, model, hmem, hshow, hname, rfl⟩
    exact ⟨model, ⟨⟨_, ⟨module, hmod, rfl⟩, hmem⟩, hshow, hname⟩, rfl⟩

/-- C12 fails as stated: when the collaborator returns no model, two visible
references to the same file in one pass make two `GetModel` calls for it, and
one reference makes one call in each of two successive passes. -/
theorem model_cache_lookup_twice_counterexample :
    (load_3D_models
        (⟨⟨[], [⟨[⟨true, "a.wrl"⟩, ⟨true, "a.wrl"⟩]⟩]⟩, ⟨[]⟩, fun _ => true, 1, fun _ => 4, 0, [],
          fun _ => none, fun _ => none, 0, fun _ _ => []⟩ : SCENE_ACCESSORS ℚ)
        ⟨fun _ => none, []⟩).GetModel_calls = ["a.wrl", "a.wrl"] ∧
    (load_3D_models
        (⟨⟨[], [⟨[⟨true, "a.wrl"⟩]⟩]⟩, ⟨[]⟩, fun _ => true, 1, fun _ => 4, 0, [],
          fun _ => none, fun _ => none, 0, fun _ _ => []⟩ : SCENE_ACCESSORS ℚ)
        (load_3D_models
          (⟨⟨[], [⟨[⟨true, "a.wrl"⟩]⟩]⟩, ⟨[]⟩, fun _ => true, 1, fun _ => 4, 0, [],
            fun _ => none, fun _ => none, 0, fun _ _ => []⟩ : SCENE_ACCESSORS ℚ)
          ⟨fun _ => none, []⟩)).GetModel_calls = ["a.wrl", "a.wrl"] := by
  constructor <;> rfl

/-- C12 as amended: while at least one footprint attribute flag is set, for a
file name f requested by a visible model reference: if f is already in the
model map, `GetModel` is not called for f; if it is not and the collaborator
returns a model for f, `GetModel` is called exactly once for f in the pass
and not again in a following pass; if the collaborator returns no model for
f, nothing is stored and `GetModel` is called once for every request, in every
pass. -/
theorem model_cache_single_lookup (S : SCENE_ACCESSORS α) (st : ModelCache) (f : String)
    (hen : models_enabled S = true) (hreq : f ∈ requested_filenames S.GetBoard) :
    ((st.m_3dmodel_map f).isSome = true →
      (load_3D_models S st).GetModel_calls.count f = st.GetModel_calls.count f) ∧
    (st.m_3dmodel_map f = none → (S.GetModel f).isSome = true →
      (load_3D_models S st).GetModel_calls.count f = st.GetModel_calls.count f + 1 ∧
      (load_3D_models S (load_3D_models S st)).GetModel_calls.count f =
        st.GetModel_calls.count f + 1) ∧
    (st.m_3dmodel_map f = none → S.GetModel f = none →
      (load_3D_models S st).m_3dmodel_map f = none ∧
      (load_3D_models S st).GetModel_calls.count f =
        st.GetModel_calls.count f + (requested_filenames S.GetBoard).count f ∧
      (load_3D_models S (load_3D_models S st)).GetModel_calls.count f =
        st.GetModel_calls.count f + 2 * (requested_filenames S.GetBoard).count f) := by
  have hpos : 0 < (requested_filenames S.GetBoard).count f := List.count_pos_iff.mpr hreq
  simp only [load_3D_models_eq, hen, if_true]
  refine ⟨?_, ?_, ?_⟩
  · intro h
    rw [foldl_load_3D_models_visible_calls, h]
    simp
  · intro h hG
    have h1 := foldl_load_3D_models_visible_loads S.MaterialModeGet S.GetModel
      (requested_filenames S.GetBoard) f hG st hreq
    rw [foldl_load_3D_models_visible_calls, foldl_load_3D_models_visible_calls,
      foldl_load_3D_models_visible_calls, h1, h, hG]
    have hmin : min 1 ((requested_filenames S.GetBoard).count f) = 1 := Nat.min_eq_left hpos
    simp [hmin]
  · intro h hG
    have h1 := foldl_load_3D_models_visible_absent S.MaterialModeGet S.GetModel
      (requested_filenames S.GetBoard) f hG st h
    refine ⟨h1, ?_, ?_⟩
    · rw [foldl_load_3D_models_visible_calls, h, hG]
      simp
    · rw [foldl_load_3D_models_visible_calls, foldl_load_3D_models_visible_calls, h1, h, hG]
      simp
      omega

/-- Witness of C12 as amended: one module with two visible references to
"a.wrl", every flag set, a collaborator that returns a model for every file
name, starting from an empty map and an empty call log. -/
theorem model_cache_single_lookup_witness :
    (load_3D_models
        (⟨⟨[], [⟨[⟨true, "a.wrl"⟩, ⟨true, "a.wrl"⟩]⟩]⟩, ⟨[]⟩, fun _ => true, 1, fun _ => 4, 0, [],
          fun _ => none, fun _ => some ⟨7⟩, 0, fun _ _ => []⟩ : SCENE_ACCESSORS ℚ)
        ⟨fun _ => none, []⟩).GetModel_calls.count "a.wrl" = 0 + 1 ∧
    (load_3D_models
        (⟨⟨[], [⟨[⟨true, "a.wrl"⟩, ⟨true, "a.wrl"⟩]⟩]⟩, ⟨[]⟩, fun _ => true, 1, fun _ => 4, 0, [],
          fun _ => none, fun _ => some ⟨7⟩, 0, fun _ _ => []⟩ : SCENE_ACCESSORS ℚ)
        (load_3D_models
          (⟨⟨[], [⟨[⟨true, "a.wrl"⟩, ⟨true, "a.wrl"⟩]⟩]⟩, ⟨[]⟩, fun _ => true, 1, fun _ => 4, 0,
            [], fun _ => none, fun _ => some ⟨7⟩, 0, fun _ _ => []⟩ : SCENE_ACCESSORS ℚ)
          ⟨fun _ => none, []⟩)).GetModel_calls.count "a.wrl" = 0 + 1 :=
  (model_cache_single_lookup
    (⟨⟨[], [⟨[⟨true, "a.wrl"⟩, ⟨true, "a.wrl"⟩]⟩]⟩, ⟨[]⟩, fun _ => true, 1, fun _ => 4, 0, [],
      fun _ => none, fun _ => some ⟨7⟩, 0, fun _ _ => []⟩ : SCENE_ACCESSORS ℚ)
    ⟨fun _ => none, []⟩ "a.wrl" rfl (by decide)).2.1 rfl rfl

/-- C13 fails as stated: with the three footprint attribute flags off,
`load_3D_models` returns at once and the map gets no entry for the visible
reference "a.wrl", although the collaborator would return a model for it. -/
theorem model_loading_skipped_counterexample :
    (load_3D_models
        (⟨⟨[], [⟨[⟨true, "a.wrl"⟩]⟩]⟩, ⟨[]⟩, fun _ => false, 1, fun _ => 4, 0, [],
          fun _ => none, fun _ => some ⟨7⟩, 0, fun _ _ => []⟩ : SCENE_ACCESSORS ℚ)
        ⟨fun _ => none, []⟩).m_3dmodel_map "a.wrl" = none := by
  rfl

/-- C13 as amended: when at least one of the flags FL_MODULE_ATTRIBUTES_NORMAL,
FL_MODULE_ATTRIBUTES_NORMAL_INSERT, FL_MODULE_ATTRIBUTES_VIRTUAL is set, after
`load_3D_models` the model map has an entry keyed by f for every footprint
model reference that is shown, has the non-empty file name f, and for which the
collaborator returns a model; when none of the three is set, the map and the
call log are left as they were. -/
theorem model_loading_coverage (S : SCENE_ACCESSORS α) (st : ModelCache) :
    (models_enabled S = true →
      ∀ module ∈ S.GetBoard.Modules, ∀ model ∈ module.Models,
        model.m_Show = true → model.m_Filename ≠ "" →
        (S.GetModel model.m_Filename).isSome = true →
        ((load_3D_models S st).m_3dmodel_map model.m_Filename).isSome = true) ∧
    (models_enabled S = false → load_3D_models S st = st) := by
  constructor
  · intro hen module hmod model hmem hshow hname hG
    simp only [load_3D_models_eq, hen, if_true]
    exact foldl_load_3D_models_visible_loads S.MaterialModeGet S.GetModel _ _ hG st
      ((mem_requested_filenames S.GetBoard model.m_Filename).mpr
        ⟨module, hmod, model, hmem, hshow, hname, rfl⟩)
  · intro hen
    simp only [load_3D_models_eq, hen, Bool.false_eq_true, if_false]

/-- Witness of C13 as amended: one module with the visible reference "a.wrl",
every flag set, a collaborator that returns a model, an empty map. -/
theorem model_loading_coverage_witness :
    ((load_3D_models
        (⟨⟨[], [⟨[⟨true, "a.wrl"⟩]⟩]⟩, ⟨[]⟩, fun _ => true, 1, fun _ => 4, 0, [],
          fun _ => none, fun _ => some ⟨7⟩, 0, fun _ _ => []⟩ : SCENE_ACCESSORS ℚ)
        ⟨fun _ => none, []⟩).m_3dmodel_map "a.wrl").isSome = true :=
  (model_loading_coverage
    (⟨⟨[], [⟨[⟨true, "a.wrl"⟩]⟩]⟩, ⟨[]⟩, fun _ => true, 1, fun _ => 4, 0, [],
      fun _ => none, fun _ => some ⟨7⟩, 0, fun _ _ => []⟩ : SCENE_ACCESSORS ℚ)
    ⟨fun _ => none, []⟩).1 rfl ⟨[⟨true, "a.wrl"⟩]⟩ (List.mem_cons_self _ _) ⟨true, "a.wrl"⟩
      (List.mem_cons_self _ _) rfl (by decide) rfl

/-! ### The layer loop of `reload` -/

theorem reload_layers_loop_entries (R : Renderer α) (S : SCENE_ACCESSORS α) (fuel : Nat)
    (hN : ∀ x, 1 ≤ R.m_boardAdapter.GetNrSegmentsCircle x ∧
      R.m_boardAdapter.GetNrSegmentsCircle x ≤ 3600)
    (hf : 3600 < fuel) (l : List (PCB_LAYER_ID × Option (CBVHCONTAINER2D α))) :
    ∀ st : std_map PCB_LAYER_ID (Option (CLAYERS_OGL_DISP_LISTS α)) × Nat,
      ∃ st', reload_layers_loop R S fuel l st = some st' ∧
        ∀ L : PCB_LAYER_ID,
          ((st'.1 L = st.1 L ∨ ∃ obj, st'.1 L = some (some obj)) ∧
           ((st'.1 L).isSome = true ↔
            ((st.1 L).isSome = true ∨
              ∃ c, (L, some c) ∈ l ∧ R.m_boardAdapter.Is3DLayerEnabled L = true ∧
                c.GetList ≠ []))) := by
  induction l with
  | nil =>
    intro st
    exact ⟨st, rfl, fun L => ⟨Or.inl rfl, by simp⟩⟩
  | cons ii l ih =>
    intro st
    obtain ⟨layer_id, container2d⟩ := ii
    by_cases hen : R.m_boardAdapter.Is3DLayerEnabled layer_id = true
    · obtain ⟨t, ht⟩ := generateLayerListFromContainer_returns R fuel hN hf container2d
        (S.GetPolyMap layer_id) layer_id
      have hret := generateLayerListFromContainer_ret R fuel container2d (S.GetPolyMap layer_id)
        layer_id
      rw [ht] at hret
      simp only [Option.map_some', Option.some.injEq] at hret
      cases hr : t.ret with
      | none =>
        obtain ⟨st', hst', hp⟩ := ih (st.1, st.2 + t.failedAsserts)
        dsimp only at hp
        refine ⟨st', ?_, ?_⟩
        · simp only [reload_layers_loop, hen, Bool.not_true, Bool.false_eq_true, if_false, ht, hr,
            hst']
        · intro L
          refine ⟨(hp L).1, (hp L).2.trans ?_⟩
          have hnone := hret.mp hr
          constructor
          · rintro (h | ⟨c, hc, he, hl⟩)
            · exact Or.inl h
            · exact Or.inr ⟨c, List.mem_cons_of_mem _ hc, he, hl⟩
          · rintro (h | ⟨c, hc, he, hl⟩)
            · exact Or.inl h
            · rcases List.mem_cons.mp hc with heq | hc'
              · exfalso
                have h1 : L = layer_id := congrArg Prod.fst heq
                have h2 : some c = container2d := congrArg Prod.snd heq
                rcases hnone with hn | ⟨c', hc1, hc2⟩
                · rw [hn] at h2; exact absurd h2 (by simp)
                · rw [hc1] at h2
                  have : c = c' := Option.some.inj h2
                  rw [this] at hl
                  exact hl hc2
              · exact Or.inr ⟨c, hc', he, hl⟩
      | some obj =>
        obtain ⟨st', hst', hp⟩ := ih (st.1.assign layer_id (some obj), st.2 + t.failedAsserts)
        dsimp only at hp
        refine ⟨st', ?_, ?_⟩
        · simp only [reload_layers_loop, hen, Bool.not_true, Bool.false_eq_true, if_false, ht, hr,
            hst']
        · intro L
          have hpresent : ¬ (t.ret = none) := by rw [hr]; simp
          have hcont : ∃ c, container2d = some c ∧ c.GetList ≠ [] := by
            cases hcd : container2d with
            | none => exact absurd (hret.mpr (Or.inl hcd)) hpresent
            | some c =>
              refine ⟨c, rfl, fun hl => ?_⟩
              exact absurd (hret.mpr (Or.inr ⟨c, hcd, hl⟩)) hpresent
          obtain ⟨c0, hc0, hl0⟩ := hcont
          by_cases hL : L = layer_id
          · subst hL
            have hassign : (st.1.assign L (some obj)) L = some (some obj) := by
              simp [std_map.assign]
            constructor
            · rcases (hp L).1 with h | ⟨o, ho⟩
              · exact Or.inr ⟨obj, by rw [h, hassign]⟩
              · exact Or.inr ⟨o, ho⟩
            · rw [(hp L).2]
              constructor
              · intro _
                exact Or.inr ⟨c0, by rw [hc0]; exact List.mem_cons_self _ _, hen, hl0⟩
              · intro _
                exact Or.inl (by rw [hassign]; rfl)
          · have hassign : (st.1.assign layer_id (some obj)) L = st.1 L := by
              simp [std_map.assign, hL]
            constructor
            · rcases (hp L).1 with h | ⟨o, ho⟩
              · exact Or.inl (by rw [h, hassign])
              · exact Or.inr ⟨o, ho⟩
            · rw [(hp L).2, hassign]
              constructor
              · rintro (h | ⟨c, hc, he, hl⟩)
                · exact Or.inl h
                · exact Or.inr ⟨c, List.mem_cons_of_mem _ hc, he, hl⟩
              · rintro (h | ⟨c, hc, he, hl⟩)
                · exact Or.inl h
                · rcases List.mem_cons.mp hc with heq | hc'
                  · exact absurd (congrArg Prod.fst heq) hL
                  · exact Or.inr ⟨c, hc', he, hl⟩
    · obtain ⟨st', hst', hp⟩ := ih st
      have hen' : R.m_boardAdapter.Is3DLayerEnabled layer_id = false := by
        cases h : R.m_boardAdapter.Is3DLayerEnabled layer_id with
        | true => exact absurd h hen
        | false => rfl
      refine ⟨st', ?_, ?_⟩
      · simp only [reload_layers_loop, hen', Bool.not_false, if_true, hst']
      · intro L
        refine ⟨(hp L).1, (hp L).2.trans ?_⟩
        constructor
        · rintro (h | ⟨c, hc, he, hl⟩)
          · exact Or.inl h
          · exact Or.inr ⟨c, List.mem_cons_of_mem _ hc, he, hl⟩
        · rintro (h | ⟨c, hc, he, hl⟩)
          · exact Or.inl h
          · rcases List.mem_cons.mp hc with heq | hc'
            · have h1 : L = layer_id := congrArg Prod.fst heq
              rw [h1, hen'] at he
              exact absurd he (by simp)
            · exact Or.inr ⟨c, hc', he, hl⟩

/-- C14: when every call of the layer assembler returns (segment counts between
1 and 3600, fuel above 3600), the layer loop of `reload`, started on an empty
per-layer map, returns a map that has an entry for layer L exactly when L is a
key of the adapter's layer map with a non-null container whose primitive list
is not empty and `Is3DLayerEnabled(L)` holds; a disabled layer has no entry,
and no entry is a null placeholder. -/
theorem disabled_layers_skipped (R : Renderer α) (S : SCENE_ACCESSORS α) (fuel : Nat)
    (hN : ∀ x, 1 ≤ R.m_boardAdapter.GetNrSegmentsCircle x ∧
      R.m_boardAdapter.GetNrSegmentsCircle x ≤ 3600)
    (hf : 3600 < fuel) :
    ∃ st', reload_layers_loop R S fuel S.GetMapLayers (fun _ => none, 0) = some st' ∧
      ∀ L : PCB_LAYER_ID,
        ((st'.1 L).isSome = true ↔
          ∃ c, (L, some c) ∈ S.GetMapLayers ∧ R.m_boardAdapter.Is3DLayerEnabled L = true ∧
            c.GetList ≠ []) ∧
        (R.m_boardAdapter.Is3DLayerEnabled L = false → st'.1 L = none) ∧
        st'.1 L ≠ some none := by
  obtain ⟨st', hst', hp⟩ := reload_layers_loop_entries R S fuel hN hf S.GetMapLayers
    (fun _ => none, 0)
  dsimp only at hp
  refine ⟨st', hst', fun L => ?_⟩
  have hiff : (st'.1 L).isSome = true ↔
      ∃ c, (L, some c) ∈ S.GetMapLayers ∧ R.m_boardAdapter.Is3DLayerEnabled L = true ∧
        c.GetList ≠ [] := by
    rw [(hp L).2]
    simp
  refine ⟨hiff, ?_, ?_⟩
  · intro hdis
    cases hs : st'.1 L with
    | none => rfl
    | some v =>
      have : (st'.1 L).isSome = true := by rw [hs]; rfl
      obtain ⟨c, -, he, -⟩ := hiff.mp this
      rw [hdis] at he
      exact absurd he (by simp)
  · rcases (hp L).1 with h | ⟨obj, hobj⟩
    · rw [h]; simp
    · rw [hobj]; simp

/-- Witness of C14: layer 0 (enabled) holds one filled circle, layer 1
(disabled) holds one filled circle, layer 2 (enabled) has an empty container;
real arithmetic, fuel 3601. -/
theorem disabled_layers_skipped_witness :
    ∃ st', reload_layers_loop
        (⟨⟨fun _ => 1, fun _ => 0, 1, fun L => L != 1, fun _ => 4⟩, 0, 1024,
          ⟨Real.sqrt, Real.cos, Real.sin, Real.pi⟩⟩ : Renderer ℝ)
        (⟨⟨[], []⟩, ⟨[]⟩, fun _ => true, 1, fun _ => 4, 0,
          [(0, some ⟨[COBJECT2D.FILLED_CIRCLE ⟨⟨0, 0⟩, 1⟩]⟩),
           (1, some ⟨[COBJECT2D.FILLED_CIRCLE ⟨⟨0, 0⟩, 1⟩]⟩), (2, some ⟨[]⟩)],
          fun _ => none, fun _ => none, 0, fun _ _ => []⟩ : SCENE_ACCESSORS ℝ)
        3601
        [(0, some ⟨[COBJECT2D.FILLED_CIRCLE ⟨⟨0, 0⟩, 1⟩]⟩),
         (1, some ⟨[COBJECT2D.FILLED_CIRCLE ⟨⟨0, 0⟩, 1⟩]⟩), (2, some ⟨[]⟩)]
        (fun _ => none, 0) = some st' ∧
      ∀ L : PCB_LAYER_ID,
        ((st'.1 L).isSome = true ↔
          ∃ c, (L, some c) ∈
              [((0 : PCB_LAYER_ID), some (⟨[COBJECT2D.FILLED_CIRCLE ⟨⟨0, 0⟩, 1⟩]⟩ :
                  CBVHCONTAINER2D ℝ)),
               (1, some ⟨[COBJECT2D.FILLED_CIRCLE ⟨⟨0, 0⟩, 1⟩]⟩), (2, some ⟨[]⟩)] ∧
            (L != 1) = true ∧ c.GetList ≠ []) ∧
        ((L != 1) = false → st'.1 L = none) ∧
        st'.1 L ≠ some none :=
  disabled_layers_skipped
    (⟨⟨fun _ => 1, fun _ => 0, 1, fun L => L != 1, fun _ => 4⟩, 0, 1024,
      ⟨Real.sqrt, Real.cos, Real.sin, Real.pi⟩⟩ : Renderer ℝ)
    (⟨⟨[], []⟩, ⟨[]⟩, fun _ => true, 1, fun _ => 4, 0,
      [(0, some ⟨[COBJECT2D.FILLED_CIRCLE ⟨⟨0, 0⟩, 1⟩]⟩),
       (1, some ⟨[COBJECT2D.FILLED_CIRCLE ⟨⟨0, 0⟩, 1⟩]⟩), (2, some ⟨[]⟩)],
      fun _ => none, fun _ => none, 0, fun _ _ => []⟩ : SCENE_ACCESSORS ℝ)
    3601 (fun _ => ⟨(by decide : 1 ≤ 4), (by decide : 4 ≤ 3600)⟩) (by decide)

/-! ### The via barrels -/

theorem generate_cylinder_returns (M : FloatMath α) (fuel : Nat) (aCenter : SFVEC2F α)
    (aInnerRadius aOuterRadius aZtop aZbot : α) (aNr_sides_per_circle : Nat)
    (aDstLayer : CLAYER_TRIANGLES α)
    (h1 : 1 ≤ aNr_sides_per_circle) (h2 : aNr_sides_per_circle ≤ 3600) (hf : 3600 < fuel) :
    ∃ r, generate_cylinder M fuel aCenter aInnerRadius aOuterRadius aZtop aZbot
      aNr_sides_per_circle aDstLayer = some r := by
  obtain ⟨t, -, h⟩ := generate_ring_contour_returns M fuel aCenter aInnerRadius aOuterRadius
    aNr_sides_per_circle false h1 h2 hf
  simp only [generate_cylinder, h]
  exact ⟨_, rfl⟩

theorem abs_add_abs_le_of_sq (x y m : ℝ) (hm : 0 ≤ m) (h : 2 * (x ^ 2 + y ^ 2) ≤ m ^ 2) :
    |x| + |y| ≤ m := by
  have h1 : (|x| + |y|) ^ 2 ≤ m ^ 2 := by
    have hx := sq_abs x
    have hy := sq_abs y
    nlinarith [sq_nonneg (|x| - |y|)]
  exact (abs_le_of_sq_le_sq' h1 hm).2

theorem inBoundingBox_of_sameSide {a b c p : SFVEC2F α} (hD : 0 < signedArea2 a b c)
    (h1 : 0 ≤ signedArea2 a b p) (h2 : 0 ≤ signedArea2 b c p) (h3 : 0 ≤ signedArea2 c a p) :
    inBoundingBox a b c p := by
  have lo : ∀ (m ax bx cx px : α), m ≤ ax → m ≤ bx → m ≤ cx →
      signedArea2 a b c * (px - m) =
        signedArea2 b c p * (ax - m) + signedArea2 c a p * (bx - m) +
          signedArea2 a b p * (cx - m) → m ≤ px := by
    intro m ax bx cx px ha hb hc e
    have k : 0 ≤ signedArea2 a b c * (px - m) := by
      rw [e]
      exact add_nonneg (add_nonneg (mul_nonneg h2 (sub_nonneg.2 ha))
        (mul_nonneg h3 (sub_nonneg.2 hb))) (mul_nonneg h1 (sub_nonneg.2 hc))
    exact sub_nonneg.1 (nonneg_of_mul_nonneg_right k hD)
  have hi : ∀ (m ax bx cx px : α), ax ≤ m → bx ≤ m → cx ≤ m →
      signedArea2 a b c * (m - px) =
        signedArea2 b c p * (m - ax) + signedArea2 c a p * (m - bx) +
          signedArea2 a b p * (m - cx) → px ≤ m := by
    intro m ax bx cx px ha hb hc e
    have k : 0 ≤ signedArea2 a b c * (m - px) := by
      rw [e]
      exact add_nonneg (add_nonneg (mul_nonneg h2 (sub_nonneg.2 ha))
        (mul_nonneg h3 (sub_nonneg.2 hb))) (mul_nonneg h1 (sub_nonneg.2 hc))
    exact sub_nonneg.1 (nonneg_of_mul_nonneg_right k hD)
  refine ⟨?_, ?_, ?_, ?_⟩
  · exact lo _ a.x b.x c.x p.x (min_le_left _ _) (le_trans (min_le_right _ _) (min_le_left _ _))
      (le_trans (min_le_right _ _) (min_le_right _ _)) (by simp only [signedArea2]; ring)
  · exact hi _ a.x b.x c.x p.x (le_max_left _ _) (le_trans (le_max_left _ _) (le_max_right _ _))
      (le_trans (le_max_right _ _) (le_max_right _ _)) (by simp only [signedArea2]; ring)
  · exact lo _ a.y b.y c.y p.y (min_le_left _ _) (le_trans (min_le_right _ _) (min_le_left _ _))
      (le_trans (min_le_right _ _) (min_le_right _ _)) (by simp only [signedArea2]; ring)
  · exact hi _ a.y b.y c.y p.y (le_max_left _ _) (le_trans (le_max_left _ _) (le_max_right _ _))
      (le_trans (le_max_right _ _) (le_max_right _ _)) (by simp only [signedArea2]; ring)

theorem filled_circle_top_faces_contain (c : SFVEC2F ℝ) (f aZtop : ℝ) (hf : 0 ≤ f)
    (p : SFVEC2F ℝ) (hp : |p.x - c.x| + |p.y - c.y| ≤ f) :
    (Face.triangle ⟨c.x + f, c.y, aZtop⟩ ⟨c.x - f, c.y, aZtop⟩
        ⟨c.x, c.y - f, aZtop⟩).containsXY p ∨
    (Face.triangle ⟨c.x - f, c.y, aZtop⟩ ⟨c.x + f, c.y, aZtop⟩
        ⟨c.x, c.y + f, aZtop⟩).containsXY p := by
  have hx1 := le_abs_self (p.x - c.x)
  have hx2 := neg_abs_le (p.x - c.x)
  have hy1 := le_abs_self (p.y - c.y)
  have hy2 := neg_abs_le (p.y - c.y)
  have hax := abs_nonneg (p.x - c.x)
  have hay := abs_nonneg (p.y - c.y)
  simp only [Face.containsXY, inTriangle, sameSide, inBoundingBox, signedArea2, min_le_iff,
    le_max_iff]
  by_cases hy : p.y - c.y ≤ 0
  · left
    have hya : |p.y - c.y| = -(p.y - c.y) := abs_of_nonpos hy
    refine ⟨Or.inl ⟨?_, ?_, ?_⟩, ?_, ?_, ?_, ?_⟩
    · nlinarith [mul_nonneg hf (neg_nonneg.mpr hy)]
    · nlinarith [mul_nonneg hf (show 0 ≤ f + (p.x - c.x) + (p.y - c.y) by linarith)]
    · nlinarith [mul_nonneg hf (show 0 ≤ f - (p.x - c.x) + (p.y - c.y) by linarith)]
    · right; left; linarith
    · left; linarith
    · right; right; linarith
    · left; linarith
  · right
    have hy' : 0 ≤ p.y - c.y := le_of_lt (not_le.mp hy)
    have hya : |p.y - c.y| = p.y - c.y := abs_of_nonneg hy'
    refine ⟨Or.inl ⟨?_, ?_, ?_⟩, ?_, ?_, ?_, ?_⟩
    · nlinarith [mul_nonneg hf hy']
    · nlinarith [mul_nonneg hf (show 0 ≤ f - (p.x - c.x) - (p.y - c.y) by linarith)]
    · nlinarith [mul_nonneg hf (show 0 ≤ f + (p.x - c.x) - (p.y - c.y) by linarith)]
    · left; linarith
    · right; left; linarith
    · left; linarith
    · right; right; linarith

/-- C18 fails as stated: for the filled circle of radius 1 at the origin
(texture size 1024, exact square root) the point (6/5, 6/5) is within distance
2 = 2R of the centre and lies in neither of the two top triangles. -/
theorem filled_circle_doubled_radius_counterexample :
    Real.sqrt (((6 / 5 : ℝ) - 0) ^ 2 + ((6 / 5 : ℝ) - 0) ^ 2) ≤ 2 * 1 ∧
    ∀ t ∈ (add_object_to_triangle_layer_CFILLEDCIRCLE2D
        (⟨⟨fun _ => 1, fun _ => 0, 1, fun _ => true, fun _ => 4⟩, 0, 1024,
          ⟨Real.sqrt, Real.cos, Real.sin, Real.pi⟩⟩ : Renderer ℝ)
        ⟨⟨0, 0⟩, 1⟩ (CLAYER_TRIANGLES.new 0) 1 0).m_layer_top_segment_ends,
      ¬ t.containsXY ⟨6 / 5, 6 / 5⟩ := by
  have hs0 : 0 < Real.sqrt 2 := Real.sqrt_pos.mpr (by norm_num)
  have hs1 : Real.sqrt 2 ≤ 3 / 2 := Real.sqrt_le_iff.mpr ⟨by norm_num, by norm_num⟩
  constructor
  · exact Real.sqrt_le_iff.mpr ⟨by norm_num, by norm_num⟩
  · intro t ht
    simp only [add_object_to_triangle_layer_CFILLEDCIRCLE2D, CLAYER_TRIANGLES.new,
      CLAYER_TRIANGLE_CONTAINER.AddTriangle, List.nil_append, List.cons_append,
      List.mem_cons, List.mem_singleton, List.not_mem_nil, or_false] at ht
    rcases ht with rfl | rfl
    · simp only [Face.containsXY, inTriangle, sameSide, signedArea2]
      rintro ⟨⟨h1, h2, h3⟩ | ⟨h1, h2, h3⟩, -⟩
      · nlinarith
      · nlinarith
    · simp only [Face.containsXY, inTriangle, sameSide, signedArea2]
      rintro ⟨⟨h1, h2, h3⟩ | ⟨h1, h2, h3⟩, -⟩
      · nlinarith
      · nlinarith

/-- C18 as amended: for every filled circle of radius R >= 0 and centre c
(positive texture size, exact square root of 2), the two top triangles together
cover the square around c whose inscribed circle has radius R * (1 + 8/SIZE):
every point within distance R * (1 + 8/SIZE) of c, hence every point within
distance R, lies in the union of the two triangles. The square circumscribes
the circle of radius R with the texture margin, not the doubled-radius
circle. -/
theorem filled_circle_square_covers_radius (R : Renderer ℝ) (aFilledCircle : CFILLEDCIRCLE2D ℝ)
    (aDstLayer : CLAYER_TRIANGLES ℝ) (aZtop aZbot : ℝ)
    (hs : R.math.sqrtf 2 = Real.sqrt 2) (hsize : 0 < R.SIZE_OF_CIRCLE_TEXTURE)
    (hR : 0 ≤ aFilledCircle.GetRadius) :
    ∃ t1 t2 : Face ℝ,
      (add_object_to_triangle_layer_CFILLEDCIRCLE2D R aFilledCircle aDstLayer aZtop
        aZbot).m_layer_top_segment_ends = aDstLayer.m_layer_top_segment_ends ++ [t1, t2] ∧
      (∀ p : SFVEC2F ℝ,
        Real.sqrt ((p.x - aFilledCircle.GetCenter.x) ^ 2 +
            (p.y - aFilledCircle.GetCenter.y) ^ 2) ≤
          aFilledCircle.GetRadius * (1 + 8 / R.SIZE_OF_CIRCLE_TEXTURE) →
        t1.containsXY p ∨ t2.containsXY p) ∧
      (∀ p : SFVEC2F ℝ,
        Real.sqrt ((p.x - aFilledCircle.GetCenter.x) ^ 2 +
            (p.y - aFilledCircle.GetCenter.y) ^ 2) ≤ aFilledCircle.GetRadius →
        t1.containsXY p ∨ t2.containsXY p) := by
  have hs0 : 0 ≤ Real.sqrt 2 := Real.sqrt_nonneg 2
  have hs2 : Real.sqrt 2 ^ 2 = 2 := Real.sq_sqrt (by norm_num)
  have htf : 0 ≤ 8 / R.SIZE_OF_CIRCLE_TEXTURE := le_of_lt (div_pos (by norm_num) hsize)
  have hf : 0 ≤ Real.sqrt 2 / 2 * (aFilledCircle.GetRadius * 2) *
      (8 / R.SIZE_OF_CIRCLE_TEXTURE + 1) := by positivity
  have main : ∀ p : SFVEC2F ℝ,
      Real.sqrt ((p.x - aFilledCircle.GetCenter.x) ^ 2 +
          (p.y - aFilledCircle.GetCenter.y) ^ 2) ≤
        aFilledCircle.GetRadius * (1 + 8 / R.SIZE_OF_CIRCLE_TEXTURE) →
      |p.x - aFilledCircle.GetCenter.x| + |p.y - aFilledCircle.GetCenter.y| ≤
        Real.sqrt 2 / 2 * (aFilledCircle.GetRadius * 2) *
          (8 / R.SIZE_OF_CIRCLE_TEXTURE + 1) := by
    intro p hp
    have h2 := (Real.sqrt_le_iff.mp hp).2
    apply abs_add_abs_le_of_sq _ _ _ hf
    nlinarith
  refine ⟨_, _, List.append_assoc _ _ _, ?_, ?_⟩
  · intro p hp
    rw [hs]
    exact filled_circle_top_faces_contain _ _ _ hf p (main p hp)
  · intro p hp
    rw [hs]
    refine filled_circle_top_faces_contain _ _ _ hf p (main p (le_trans hp ?_))
    nlinarith [mul_nonneg hR htf]

/-- Witness of C18 as amended: radius 1 at the origin, texture size 1024. -/
theorem filled_circle_square_covers_radius_witness :
    ∃ t1 t2 : Face ℝ,
      (add_object_to_triangle_layer_CFILLEDCIRCLE2D
        (⟨⟨fun _ => 1, fun _ => 0, 1, fun _ => true, fun _ => 4⟩, 0, 1024,
          ⟨Real.sqrt, Real.cos, Real.sin, Real.pi⟩⟩ : Renderer ℝ)
        ⟨⟨0, 0⟩, 1⟩ (CLAYER_TRIANGLES.new 0) 1 0).m_layer_top_segment_ends =
          [] ++ [t1, t2] ∧
      (∀ p : SFVEC2F ℝ,
        Real.sqrt ((p.x - 0) ^ 2 + (p.y - 0) ^ 2) ≤ 1 * (1 + 8 / 1024) →
        t1.containsXY p ∨ t2.containsXY p) ∧
      (∀ p : SFVEC2F ℝ,
        Real.sqrt ((p.x - 0) ^ 2 + (p.y - 0) ^ 2) ≤ 1 →
        t1.containsXY p ∨ t2.containsXY p) :=
  filled_circle_square_covers_radius
    (⟨⟨fun _ => 1, fun _ => 0, 1, fun _ => true, fun _ => 4⟩, 0, 1024,
      ⟨Real.sqrt, Real.cos, Real.sin, Real.pi⟩⟩ : Renderer ℝ)
    ⟨⟨0, 0⟩, 1⟩ (CLAYER_TRIANGLES.new 0) 1 0 rfl (by norm_num) (by norm_num)

/-! ### The end caps of a rounded segment -/

theorem cap_core (a b m x y : ℝ) (hm : 0 < m) (ha : m ≤ a) (hb : m ≤ b) (hx : 0 ≤ x)
    (hy : 0 ≤ y) (hxy : x + y ≤ m) : a * x + b * y ≤ a * b := by
  have ha0 : 0 ≤ a := by linarith
  have hb0 : 0 ≤ b := by linarith
  have h1 := mul_nonneg (mul_nonneg ha0 hx) (sub_nonneg.mpr hb)
  have h2 := mul_nonneg (mul_nonneg hb0 hy) (sub_nonneg.mpr ha)
  have h3 := mul_nonneg (mul_nonneg ha0 hb0) (sub_nonneg.mpr hxy)
  have h4 : (a * x + b * y) * m ≤ (a * b) * m := by nlinarith
  exact le_of_mul_le_mul_right h4 hm

theorem cap_triangle_contains (o d p : SFVEC2F ℝ) (a b m z x1 y1 x2 y2 x3 y3 : ℝ)
    (h1x : x1 = o.x + a * d.y) (h1y : y1 = o.y - a * d.x)
    (h2x : x2 = o.x - a * d.y) (h2y : y2 = o.y + a * d.x)
    (h3x : x3 = o.x - b * d.x) (h3y : y3 = o.y - b * d.y)
    (hm : 0 < m) (ha : m ≤ a) (hb : m ≤ b) (hd : d.x ^ 2 + d.y ^ 2 = 1)
    (hp : 2 * ((p.x - o.x) ^ 2 + (p.y - o.y) ^ 2) ≤ m ^ 2)
    (hu : (p.x - o.x) * d.x + (p.y - o.y) * d.y ≤ 0) :
    (Face.triangle ⟨x1, y1, z⟩ ⟨x2, y2, z⟩ ⟨x3, y3, z⟩).containsXY p := by
  subst h1x h1y h2x h2y h3x h3y
  have hab : |(p.x - o.x) * d.x + (p.y - o.y) * d.y| +
      |-(p.x - o.x) * d.y + (p.y - o.y) * d.x| ≤ m := by
    have huv : ((p.x - o.x) * d.x + (p.y - o.y) * d.y) ^ 2 +
        (-(p.x - o.x) * d.y + (p.y - o.y) * d.x) ^ 2 =
        (p.x - o.x) ^ 2 + (p.y - o.y) ^ 2 := by
      linear_combination ((p.x - o.x) ^ 2 + (p.y - o.y) ^ 2) * hd
    apply abs_add_abs_le_of_sq _ _ _ hm.le
    rw [huv]
    exact hp
  have hua : |(p.x - o.x) * d.x + (p.y - o.y) * d.y| =
      -((p.x - o.x) * d.x + (p.y - o.y) * d.y) := abs_of_nonpos hu
  have key := cap_core a b m
    (-((p.x - o.x) * d.x + (p.y - o.y) * d.y))
    |-(p.x - o.x) * d.y + (p.y - o.y) * d.x| hm ha hb (neg_nonneg.mpr hu) (abs_nonneg _)
    (by linarith)
  have ha0 : 0 ≤ a := by linarith
  have hb0 : 0 ≤ b := by linarith
  have h3 : a * b * (d.x ^ 2 + d.y ^ 2) = a * b := by rw [hd, mul_one]
  have hv1 := mul_nonneg hb0
    (sub_nonneg.mpr (le_abs_self (-(p.x - o.x) * d.y + (p.y - o.y) * d.x)))
  have hv2 := mul_nonneg hb0
    (show 0 ≤ |-(p.x - o.x) * d.y + (p.y - o.y) * d.x| +
      (-(p.x - o.x) * d.y + (p.y - o.y) * d.x) by
      have := neg_abs_le (-(p.x - o.x) * d.y + (p.y - o.y) * d.x); linarith)
  have hu1 := mul_nonneg ha0 (neg_nonneg.mpr hu)
  have hD : 0 < signedArea2 (⟨o.x + a * d.y, o.y - a * d.x⟩ : SFVEC2F ℝ)
      ⟨o.x - a * d.y, o.y + a * d.x⟩ ⟨o.x - b * d.x, o.y - b * d.y⟩ := by
    have e : signedArea2 (⟨o.x + a * d.y, o.y - a * d.x⟩ : SFVEC2F ℝ)
        ⟨o.x - a * d.y, o.y + a * d.x⟩ ⟨o.x - b * d.x, o.y - b * d.y⟩ =
        2 * (a * b * (d.x ^ 2 + d.y ^ 2)) := by
      simp only [signedArea2]
      ring
    rw [e, h3]
    exact mul_pos (by norm_num) (mul_pos (lt_of_lt_of_le hm ha) (lt_of_lt_of_le hm hb))
  have e1 : 0 ≤ signedArea2 (⟨o.x + a * d.y, o.y - a * d.x⟩ : SFVEC2F ℝ)
      ⟨o.x - a * d.y, o.y + a * d.x⟩ p := by
    simp only [signedArea2]
    linarith [hu1]
  have e2 : 0 ≤ signedArea2 (⟨o.x - a * d.y, o.y + a * d.x⟩ : SFVEC2F ℝ)
      ⟨o.x - b * d.x, o.y - b * d.y⟩ p := by
    simp only [signedArea2]
    linarith [key, h3, hv1]
  have e3 : 0 ≤ signedArea2 (⟨o.x - b * d.x, o.y - b * d.y⟩ : SFVEC2F ℝ)
      ⟨o.x + a * d.y, o.y - a * d.x⟩ p := by
    simp only [signedArea2]
    linarith [key, h3, hv2]
  exact ⟨Or.inl ⟨e1, e2, e3⟩, inBoundingBox_of_sameSide hD e1 e2 e3⟩

/-- C19: for every rounded segment with radius r > 0 (and stored squared radius
r^2), unit direction d, left normal n = (-d.y, d.x), leftDir = d,
rightDir = -d, leftStart = start + r n, rightEnd = start - r n,
leftEnd = end + r n, rightStart = end - r n (positive texture size, exact
square root), the first top segment-end triangle contains every point p with
|p - start| <= r and (p - start).d <= 0, and the second contains every point p
with |p - end| <= r and (p - end).d >= 0. -/
theorem capsule_caps_contain_semicircles (R : Renderer ℝ) (aSeg : CROUNDSEGMENT2D ℝ)
    (aDstLayer : CLAYER_TRIANGLES ℝ) (aZtop aZbot : ℝ) (d : SFVEC2F ℝ)
    (hs : R.math.sqrtf = Real.sqrt) (hsize : 0 < R.SIZE_OF_CIRCLE_TEXTURE)
    (hr : 0 < aSeg.GetRadius) (hr2 : aSeg.GetRadiusSquared = aSeg.GetRadius ^ 2)
    (hd : d.x ^ 2 + d.y ^ 2 = 1)
    (hld : aSeg.GetLeftDir = d) (hrd : aSeg.GetRightDir = ⟨-d.x, -d.y⟩)
    (hls : aSeg.GetLeftStar =
      ⟨aSeg.GetStart.x + aSeg.GetRadius * -d.y, aSeg.GetStart.y + aSeg.GetRadius * d.x⟩)
    (hre : aSeg.GetRightEnd =
      ⟨aSeg.GetStart.x - aSeg.GetRadius * -d.y, aSeg.GetStart.y - aSeg.GetRadius * d.x⟩)
    (hle : aSeg.GetLeftEnd =
      ⟨aSeg.GetEnd.x + aSeg.GetRadius * -d.y, aSeg.GetEnd.y + aSeg.GetRadius * d.x⟩)
    (hrs : aSeg.GetRightStar =
      ⟨aSeg.GetEnd.x - aSeg.GetRadius * -d.y, aSeg.GetEnd.y - aSeg.GetRadius * d.x⟩) :
    ∃ t1 t2 : Face ℝ,
      (add_object_to_triangle_layer_CROUNDSEGMENT2D R aSeg aDstLayer aZtop
        aZbot).m_layer_top_segment_ends = aDstLayer.m_layer_top_segment_ends ++ [t1, t2] ∧
      (∀ p : SFVEC2F ℝ,
        Real.sqrt ((p.x - aSeg.GetStart.x) ^ 2 + (p.y - aSeg.GetStart.y) ^ 2) ≤
          aSeg.GetRadius →
        (p.x - aSeg.GetStart.x) * d.x + (p.y - aSeg.GetStart.y) * d.y ≤ 0 →
        t1.containsXY p) ∧
      (∀ p : SFVEC2F ℝ,
        Real.sqrt ((p.x - aSeg.GetEnd.x) ^ 2 + (p.y - aSeg.GetEnd.y) ^ 2) ≤ aSeg.GetRadius →
        0 ≤ (p.x - aSeg.GetEnd.x) * d.x + (p.y - aSeg.GetEnd.y) * d.y →
        t2.containsXY p) := by
  obtain ⟨ls, le, ld, rs, re, rd, r, r2, st, en⟩ := aSeg
  dsimp only at hr hr2 hld hrd hls hre hle hrs
  subst hld hrd hls hre hle hrs hr2
  have hs0 : 0 < Real.sqrt 2 := Real.sqrt_pos.mpr (by norm_num)
  have hs1 : 1 ≤ Real.sqrt 2 := Real.le_sqrt_of_sq_le (by norm_num)
  have hs2 : Real.sqrt 2 ^ 2 = 2 := Real.sq_sqrt (by norm_num)
  have hsq : Real.sqrt (r ^ 2 * 2) = r * Real.sqrt 2 := by
    rw [Real.sqrt_mul (sq_nonneg r), Real.sqrt_sq hr.le]
  have hK : (r * Real.sqrt 2 - r) / r = Real.sqrt 2 - 1 := by
    field_simp
    ring
  have htf : 0 ≤ 12 / R.SIZE_OF_CIRCLE_TEXTURE := le_of_lt (div_pos (by norm_num) hsize)
  have htfF : 0 ≤ 6 / R.SIZE_OF_CIRCLE_TEXTURE := le_of_lt (div_pos (by norm_num) hsize)
  have hm : 0 < Real.sqrt 2 * r := by positivity
  have ha : Real.sqrt 2 * r ≤
      r + (12 / R.SIZE_OF_CIRCLE_TEXTURE + 1) * (r * (Real.sqrt 2 - 1)) := by
    nlinarith [mul_nonneg (mul_nonneg hr.le (sub_nonneg.mpr hs1)) htf]
  have hb : Real.sqrt 2 * r ≤ (6 / R.SIZE_OF_CIRCLE_TEXTURE + 1) * Real.sqrt 2 * r := by
    nlinarith [mul_nonneg (mul_nonneg hr.le hs0.le) htfF]
  have hm2 : (Real.sqrt 2 * r) ^ 2 = 2 * r ^ 2 := by rw [mul_pow, hs2]
  refine ⟨_, _, List.append_assoc _ _ _, ?_, ?_⟩
  · intro p hp hu
    have hp2 := (Real.sqrt_le_iff.mp hp).2
    dsimp only at hp2 hu ⊢
    refine cap_triangle_contains st ld p
      (r + (12 / R.SIZE_OF_CIRCLE_TEXTURE + 1) * (r * (Real.sqrt 2 - 1)))
      ((6 / R.SIZE_OF_CIRCLE_TEXTURE + 1) * Real.sqrt 2 * r) (Real.sqrt 2 * r) aZtop
      _ _ _ _ _ _ ?_ ?_ ?_ ?_ ?_ ?_ hm ha hb hd (by rw [hm2]; linarith) hu
    all_goals (simp only [hs, hsq, hK]; ring)
  · intro p hp hu
    have hp2 := (Real.sqrt_le_iff.mp hp).2
    dsimp only at hp2 hu ⊢
    refine cap_triangle_contains en ⟨-ld.x, -ld.y⟩ p
      (r + (12 / R.SIZE_OF_CIRCLE_TEXTURE + 1) * (r * (Real.sqrt 2 - 1)))
      ((6 / R.SIZE_OF_CIRCLE_TEXTURE + 1) * Real.sqrt 2 * r) (Real.sqrt 2 * r) aZtop
      _ _ _ _ _ _ ?_ ?_ ?_ ?_ ?_ ?_ hm ha hb (by dsimp only; nlinarith [hd])
      (by rw [hm2]; linarith) (by dsimp only; linarith)
    all_goals (simp only [hs, hsq, hK]; ring)

/-- Witness of C19: the segment from (0,0) to (2,0) with radius 1 and direction
(1,0), texture size 1024. -/
theorem capsule_caps_contain_semicircles_witness :
    ∃ t1 t2 : Face ℝ,
      (add_object_to_triangle_layer_CROUNDSEGMENT2D
        (⟨⟨fun _ => 1, fun _ => 0, 1, fun _ => true, fun _ => 4⟩, 0, 1024,
          ⟨Real.sqrt, Real.cos, Real.sin, Real.pi⟩⟩ : Renderer ℝ)
        ⟨⟨0, 1⟩, ⟨2, 1⟩, ⟨1, 0⟩, ⟨2, -1⟩, ⟨0, -1⟩, ⟨-1, 0⟩, 1, 1, ⟨0, 0⟩, ⟨2, 0⟩⟩
        (CLAYER_TRIANGLES.new 0) 1 0).m_layer_top_segment_ends = [] ++ [t1, t2] ∧
      (∀ p : SFVEC2F ℝ,
        Real.sqrt ((p.x - 0) ^ 2 + (p.y - 0) ^ 2) ≤ 1 →
        (p.x - 0) * 1 + (p.y - 0) * 0 ≤ 0 → t1.containsXY p) ∧
      (∀ p : SFVEC2F ℝ,
        Real.sqrt ((p.x - 2) ^ 2 + (p.y - 0) ^ 2) ≤ 1 →
        0 ≤ (p.x - 2) * 1 + (p.y - 0) * 0 → t2.containsXY p) :=
  capsule_caps_contain_semicircles
    (⟨⟨fun _ => 1, fun _ => 0, 1, fun _ => true, fun _ => 4⟩, 0, 1024,
      ⟨Real.sqrt, Real.cos, Real.sin, Real.pi⟩⟩ : Renderer ℝ)
    ⟨⟨0, 1⟩, ⟨2, 1⟩, ⟨1, 0⟩, ⟨2, -1⟩, ⟨0, -1⟩, ⟨-1, 0⟩, 1, 1, ⟨0, 0⟩, ⟨2, 0⟩⟩
    (CLAYER_TRIANGLES.new 0) 1 0 ⟨1, 0⟩ rfl (by norm_num) (by norm_num) (by norm_num)
    (by norm_num) rfl (by norm_num) (by norm_num) (by norm_num) (by norm_num) (by norm_num)

/-! ### Growth of the buffers and the Z of the appended faces -/

theorem add_triangle_top_bot_eq (aDst : CLAYER_TRIANGLES α) (v0 v1 v2 : SFVEC2F α) (top bot : α) :
    add_triangle_top_bot aDst v0 v1 v2 top bot =
      { aDst with
        m_layer_top_triangles := aDst.m_layer_top_triangles ++
          [Face.triangle ⟨v2.x, v2.y, top⟩ ⟨v1.x, v1.y, top⟩ ⟨v0.x, v0.y, top⟩]
        m_layer_bot_triangles := aDst.m_layer_bot_triangles ++
          [Face.triangle ⟨v0.x, v0.y, bot⟩ ⟨v1.x, v1.y, bot⟩ ⟨v2.x, v2.y, bot⟩] } := rfl

theorem filled_circle_appends (R : Renderer α) (c : CFILLEDCIRCLE2D α)
    (aDstLayer : CLAYER_TRIANGLES α) (aZtop aZbot : α) :
    ∃ TE BE : List (Face α),
      add_object_to_triangle_layer_CFILLEDCIRCLE2D R c aDstLayer aZtop aZbot =
        { aDstLayer with
          m_layer_top_segment_ends := aDstLayer.m_layer_top_segment_ends ++ TE
          m_layer_bot_segment_ends := aDstLayer.m_layer_bot_segment_ends ++ BE } ∧
      all_at_Z TE aZtop ∧ all_at_Z BE aZbot := by
  refine ⟨_, _, (by
    simp only [add_object_to_triangle_layer_CFILLEDCIRCLE2D,
      CLAYER_TRIANGLE_CONTAINER.AddTriangle, List.append_assoc, List.singleton_append]
    rfl), ?_, ?_⟩
  · intro f hf v hv
    simp only [List.mem_cons, List.mem_singleton, List.not_mem_nil, or_false] at hf
    rcases hf with rfl | rfl <;> simpa [Face.zs] using hv
  · intro f hf v hv
    simp only [List.mem_cons, List.mem_singleton, List.not_mem_nil, or_false] at hf
    rcases hf with rfl | rfl <;> simpa [Face.zs] using hv

theorem polygon4pt_appends (aPoly : CPOLYGON4PTS2D α)
    (aDstLayer : CLAYER_TRIANGLES α) (aZtop aZbot : α) :
    ∃ T B : List (Face α),
      add_object_to_triangle_layer_CPOLYGON4PTS2D aPoly aDstLayer aZtop aZbot =
        { aDstLayer with
          m_layer_top_triangles := aDstLayer.m_layer_top_triangles ++ T
          m_layer_bot_triangles := aDstLayer.m_layer_bot_triangles ++ B } ∧
      all_at_Z T aZtop ∧ all_at_Z B aZbot := by
  refine ⟨_, _, (by
    simp only [add_object_to_triangle_layer_CPOLYGON4PTS2D, add_triangle_top_bot_eq,
      List.append_assoc, List.singleton_append]
    rfl), ?_, ?_⟩
  · intro f hf v hv
    simp only [List.mem_cons, List.mem_singleton, List.not_mem_nil, or_false] at hf
    rcases hf with rfl | rfl <;> simpa [Face.zs] using hv
  · intro f hf v hv
    simp only [List.mem_cons, List.mem_singleton, List.not_mem_nil, or_false] at hf
    rcases hf with rfl | rfl <;> simpa [Face.zs] using hv

theorem triangle_appends (aTri : CTRIANGLE2D α)
    (aDstLayer : CLAYER_TRIANGLES α) (aZtop aZbot : α) :
    ∃ T B : List (Face α),
      add_object_to_triangle_layer_CTRIANGLE2D aTri aDstLayer aZtop aZbot =
        { aDstLayer with
          m_layer_top_triangles := aDstLayer.m_layer_top_triangles ++ T
          m_layer_bot_triangles := aDstLayer.m_layer_bot_triangles ++ B } ∧
      all_at_Z T aZtop ∧ all_at_Z B aZbot := by
  refine ⟨_, _, (by
    simp only [add_object_to_triangle_layer_CTRIANGLE2D, add_triangle_top_bot_eq]
    rfl), ?_, ?_⟩
  · intro f hf v hv
    simp only [List.mem_singleton] at hf
    subst hf
    simpa [Face.zs] using hv
  · intro f hf v hv
    simp only [List.mem_singleton] at hf
    subst hf
    simpa [Face.zs] using hv

theorem round_segment_appends (R : Renderer α) (aSeg : CROUNDSEGMENT2D α)
    (aDstLayer : CLAYER_TRIANGLES α) (aZtop aZbot : α) :
    ∃ T B TE BE : List (Face α),
      add_object_to_triangle_layer_CROUNDSEGMENT2D R aSeg aDstLayer aZtop aZbot =
        { aDstLayer with
          m_layer_top_triangles := aDstLayer.m_layer_top_triangles ++ T
          m_layer_bot_triangles := aDstLayer.m_layer_bot_triangles ++ B
          m_layer_top_segment_ends := aDstLayer.m_layer_top_segment_ends ++ TE
          m_layer_bot_segment_ends := aDstLayer.m_layer_bot_segment_ends ++ BE } ∧
      all_at_Z T aZtop ∧ all_at_Z B aZbot ∧ all_at_Z TE aZtop ∧ all_at_Z BE aZbot := by
  refine ⟨_, _, _, _, (by
    simp only [add_object_to_triangle_layer_CROUNDSEGMENT2D,
      CLAYER_TRIANGLE_CONTAINER.AddTriangle, CLAYER_TRIANGLE_CONTAINER.AddQuad,
      List.append_assoc, List.singleton_append]
    rfl), ?_, ?_, ?_, ?_⟩
  · intro f hf v hv
    simp only [List.mem_singleton] at hf
    subst hf
    simpa [Face.zs] using hv
  · intro f hf v hv
    simp only [List.mem_singleton] at hf
    subst hf
    simpa [Face.zs] using hv
  · intro f hf v hv
    simp only [List.mem_cons, List.mem_singleton, List.not_mem_nil, or_false] at hf
    rcases hf with rfl | rfl <;> simpa [Face.zs] using hv
  · intro f hf v hv
    simp only [List.mem_cons, List.mem_singleton, List.not_mem_nil, or_false] at hf
    rcases hf with rfl | rfl <;> simpa [Face.zs] using hv

theorem ring_quads_all_at_Z (innerContour outerContour : List (SFVEC2F α)) (aZtop aZbot : α)
    (l : List Nat) :
    all_at_Z (l.map (ring_top_quad innerContour outerContour aZtop)) aZtop ∧
    all_at_Z (l.map (ring_bot_quad innerContour outerContour aZbot)) aZbot := by
  constructor
  · intro f hf v hv
    obtain ⟨i, -, rfl⟩ := List.mem_map.1 hf
    simpa [ring_top_quad, Face.zs] using hv
  · intro f hf v hv
    obtain ⟨i, -, rfl⟩ := List.mem_map.1 hf
    simpa [ring_bot_quad, Face.zs] using hv

theorem ring_appends (R : Renderer α) (fuel : Nat) (aRing : CRING2D α)
    (aDstLayer r : CLAYER_TRIANGLES α) (aZtop aZbot : α)
    (h : add_object_to_triangle_layer_CRING2D R fuel aRing aDstLayer aZtop aZbot = some r) :
    ∃ T B : List (Face α),
      r = { aDstLayer with
          m_layer_top_triangles := aDstLayer.m_layer_top_triangles ++ T
          m_layer_bot_triangles := aDstLayer.m_layer_bot_triangles ++ B } ∧
      all_at_Z T aZtop ∧ all_at_Z B aZbot := by
  rw [add_object_to_triangle_layer_CRING2D_eq] at h
  cases hg : generate_ring_contour R.math fuel aRing.GetCenter aRing.GetInnerRadius
      aRing.GetOuterRadius (R.m_boardAdapter.GetNrSegmentsCircle (aRing.GetOuterRadius * 2))
      false with
  | none => simp [hg] at h
  | some c =>
    rw [hg, Option.map_some', Option.some.injEq] at h
    exact ⟨_, _, h.symm, ring_quads_all_at_Z _ _ _ _ _⟩

theorem generate_cylinder_appends (M : FloatMath α) (fuel : Nat) (aCenter : SFVEC2F α)
    (aInnerRadius aOuterRadius aZtop aZbot : α) (aNr_sides_per_circle : Nat)
    (aDstLayer r : CLAYER_TRIANGLES α)
    (h : generate_cylinder M fuel aCenter aInnerRadius aOuterRadius aZtop aZbot
      aNr_sides_per_circle aDstLayer = some r) :
    ∃ (T B : List (Face α)) (W : List (MiddleContourCall α)),
      r = { aDstLayer with
          m_layer_top_triangles := aDstLayer.m_layer_top_triangles ++ T
          m_layer_bot_triangles := aDstLayer.m_layer_bot_triangles ++ B
          m_layer_middle_contourns_quads := aDstLayer.m_layer_middle_contourns_quads ++ W } ∧
      all_at_Z T aZtop ∧ all_at_Z B aZbot := by
  unfold generate_cylinder at h
  cases hg : generate_ring_contour M fuel aCenter aInnerRadius aOuterRadius
      aNr_sides_per_circle false with
  | none => simp [hg] at h
  | some c =>
    obtain ⟨innerContour, outerContour⟩ := c
    simp only [hg, Option.some.injEq, add_ring_quads_foldl] at h
    subst h
    refine ⟨_, _, _, (by
      simp only [CLAYER_TRIANGLES.AddToMiddleContournsContour, List.append_assoc,
        List.singleton_append]
      rfl), ring_quads_all_at_Z _ _ _ _ _⟩

/-- C21: each converter leaves the destination mesh with faces appended at the
end of its buffers and nothing else changed, so the prior contents of each of
the four sub-buffers are a prefix of the contents afterwards.  The filled
circle appends to the two segment-end buffers only (both plain buffers are
unchanged); the 4-point polygon, the triangle and the ring append to the two
plain buffers only (both segment-end buffers are unchanged); the rounded
segment appends to all four.  The ring converter returns for a segment count
between 1 and 3600 (fuel above 3600), and appends in this way whenever it
returns. -/
theorem converters_only_append (R : Renderer α) (fuel : Nat) (aDstLayer : CLAYER_TRIANGLES α)
    (aZtop aZbot : α) (aRing : CRING2D α)
    (h1 : 1 ≤ R.m_boardAdapter.GetNrSegmentsCircle (aRing.GetOuterRadius * 2))
    (h2 : R.m_boardAdapter.GetNrSegmentsCircle (aRing.GetOuterRadius * 2) ≤ 3600)
    (hf : 3600 < fuel) :
    (∀ aFilledCircle : CFILLEDCIRCLE2D α, ∃ TE BE : List (Face α),
      add_object_to_triangle_layer_CFILLEDCIRCLE2D R aFilledCircle aDstLayer aZtop aZbot =
        { aDstLayer with
          m_layer_top_segment_ends := aDstLayer.m_layer_top_segment_ends ++ TE
          m_layer_bot_segment_ends := aDstLayer.m_layer_bot_segment_ends ++ BE }) ∧
    (∀ aPoly : CPOLYGON4PTS2D α, ∃ T B : List (Face α),
      add_object_to_triangle_layer_CPOLYGON4PTS2D aPoly aDstLayer aZtop aZbot =
        { aDstLayer with
          m_layer_top_triangles := aDstLayer.m_layer_top_triangles ++ T
          m_layer_bot_triangles := aDstLayer.m_layer_bot_triangles ++ B }) ∧
    (∀ aTri : CTRIANGLE2D α, ∃ T B : List (Face α),
      add_object_to_triangle_layer_CTRIANGLE2D aTri aDstLayer aZtop aZbot =
        { aDstLayer with
          m_layer_top_triangles := aDstLayer.m_layer_top_triangles ++ T
          m_layer_bot_triangles := aDstLayer.m_layer_bot_triangles ++ B }) ∧
    (∃ r, add_object_to_triangle_layer_CRING2D R fuel aRing aDstLayer aZtop aZbot = some r) ∧
    (∀ (fuel' : Nat) (aRing' : CRING2D α) (r : CLAYER_TRIANGLES α),
      add_object_to_triangle_layer_CRING2D R fuel' aRing' aDstLayer aZtop aZbot = some r →
      ∃ T B : List (Face α),
        r = { aDstLayer with
          m_layer_top_triangles := aDstLayer.m_layer_top_triangles ++ T
          m_layer_bot_triangles := aDstLayer.m_layer_bot_triangles ++ B }) ∧
    (∀ aSeg : CROUNDSEGMENT2D α, ∃ T B TE BE : List (Face α),
      add_object_to_triangle_layer_CROUNDSEGMENT2D R aSeg aDstLayer aZtop aZbot =
        { aDstLayer with
          m_layer_top_triangles := aDstLayer.m_layer_top_triangles ++ T
          m_layer_bot_triangles := aDstLayer.m_layer_bot_triangles ++ B
          m_layer_top_segment_ends := aDstLayer.m_layer_top_segment_ends ++ TE
          m_layer_bot_segment_ends := aDstLayer.m_layer_bot_segment_ends ++ BE }) := by
  refine ⟨?_, ?_, ?_, ?_, ?_, ?_⟩
  · intro c
    obtain ⟨TE, BE, h, -⟩ := filled_circle_appends R c aDstLayer aZtop aZbot
    exact ⟨TE, BE, h⟩
  · intro aPoly
    obtain ⟨T, B, h, -⟩ := polygon4pt_appends aPoly aDstLayer aZtop aZbot
    exact ⟨T, B, h⟩
  · intro aTri
    obtain ⟨T, B, h, -⟩ := triangle_appends aTri aDstLayer aZtop aZbot
    exact ⟨T, B, h⟩
  · exact add_object_to_triangle_layer_CRING2D_returns R fuel aRing aDstLayer aZtop aZbot h1 h2 hf
  · intro fuel' aRing' r h
    obtain ⟨T, B, h, -⟩ := ring_appends R fuel' aRing' aDstLayer r aZtop aZbot h
    exact ⟨T, B, h⟩
  · intro aSeg
    obtain ⟨T, B, TE, BE, h, -⟩ := round_segment_appends R aSeg aDstLayer aZtop aZbot
    exact ⟨T, B, TE, BE, h⟩

/-- Witness of C21: the ring of radii 1 and 2 at the origin with four segments
(real arithmetic, fuel 3601) is converted into an empty mesh: the converter
returns. -/
theorem converters_only_append_witness :
    ∃ r, add_object_to_triangle_layer_CRING2D
      (⟨⟨fun _ => 1, fun _ => 0, 1, fun _ => true, fun _ => 4⟩, 0, 1024,
        ⟨Real.sqrt, Real.cos, Real.sin, Real.pi⟩⟩ : Renderer ℝ)
      3601 ⟨⟨0, 0⟩, 1, 2⟩ (CLAYER_TRIANGLES.new 0) 1 0 = some r :=
  (converters_only_append
    (⟨⟨fun _ => 1, fun _ => 0, 1, fun _ => true, fun _ => 4⟩, 0, 1024,
      ⟨Real.sqrt, Real.cos, Real.sin, Real.pi⟩⟩ : Renderer ℝ)
    3601 (CLAYER_TRIANGLES.new 0) 1 0 ⟨⟨0, 0⟩, 1, 2⟩
    (by decide : (1 : Nat) ≤ 4) (by decide : (4 : Nat) ≤ 3600) (by decide)).2.2.2.1

/-- C28: the 4-point polygon converter appends two top and two bottom
triangles; the signed XY areas of the two top triangles sum to the shoelace
signed area of the polygon (V0, V1, V2, V3), and those of the two bottom
triangles to its negation. -/
theorem polygon4pt_area_preserved (aPoly : CPOLYGON4PTS2D α) (aDstLayer : CLAYER_TRIANGLES α)
    (aZtop aZbot : α) :
    ∃ t1 t2 b1 b2 : Face α,
      add_object_to_triangle_layer_CPOLYGON4PTS2D aPoly aDstLayer aZtop aZbot =
        { aDstLayer with
          m_layer_top_triangles := aDstLayer.m_layer_top_triangles ++ [t1, t2]
          m_layer_bot_triangles := aDstLayer.m_layer_bot_triangles ++ [b1, b2] } ∧
      t1.signedArea + t2.signedArea =
        shoelace_area [aPoly.GetV0, aPoly.GetV1, aPoly.GetV2, aPoly.GetV3] ∧
      b1.signedArea + b2.signedArea =
        -shoelace_area [aPoly.GetV0, aPoly.GetV1, aPoly.GetV2, aPoly.GetV3] := by
  refine ⟨_, _, _, _, (by
    simp only [add_object_to_triangle_layer_CPOLYGON4PTS2D, add_triangle_top_bot_eq,
      List.append_assoc, List.singleton_append]
    rfl), ?_, ?_⟩
  · simp [Face.signedArea, Face.normalZ, signedArea2, shoelace_area, List.rotate]
    ring
  · simp [Face.signedArea, Face.normalZ, signedArea2, shoelace_area, List.rotate]
    ring

/-- C30: every face a converter appends to a top buffer (plain or segment-end)
has all its vertices at Z = Ztop, and every face it appends to a bottom buffer
has all its vertices at Z = Zbot; the same holds for the top and bottom quads
of `generate_cylinder`.  The ring converter and `generate_cylinder` return for
a segment count between 1 and 3600 (fuel above 3600), and whenever they return
the faces they appended are at these Z. -/
theorem appended_faces_flat (R : Renderer α) (fuel : Nat) (aDstLayer : CLAYER_TRIANGLES α)
    (aZtop aZbot : α) (aRing : CRING2D α) (aCenter : SFVEC2F α) (aInnerRadius aOuterRadius : α)
    (aNr_sides_per_circle : Nat)
    (h1 : 1 ≤ R.m_boardAdapter.GetNrSegmentsCircle (aRing.GetOuterRadius * 2))
    (h2 : R.m_boardAdapter.GetNrSegmentsCircle (aRing.GetOuterRadius * 2) ≤ 3600)
    (hc1 : 1 ≤ aNr_sides_per_circle) (hc2 : aNr_sides_per_circle ≤ 3600)
    (hf : 3600 < fuel) :
    (∀ aFilledCircle : CFILLEDCIRCLE2D α, ∃ TE BE : List (Face α),
      add_object_to_triangle_layer_CFILLEDCIRCLE2D R aFilledCircle aDstLayer aZtop aZbot =
        { aDstLayer with
          m_layer_top_segment_ends := aDstLayer.m_layer_top_segment_ends ++ TE
          m_layer_bot_segment_ends := aDstLayer.m_layer_bot_segment_ends ++ BE } ∧
      all_at_Z TE aZtop ∧ all_at_Z BE aZbot) ∧
    (∀ aPoly : CPOLYGON4PTS2D α, ∃ T B : List (Face α),
      add_object_to_triangle_layer_CPOLYGON4PTS2D aPoly aDstLayer aZtop aZbot =
        { aDstLayer with
          m_layer_top_triangles := aDstLayer.m_layer_top_triangles ++ T
          m_layer_bot_triangles := aDstLayer.m_layer_bot_triangles ++ B } ∧
      all_at_Z T aZtop ∧ all_at_Z B aZbot) ∧
    (∀ aTri : CTRIANGLE2D α, ∃ T B : List (Face α),
      add_object_to_triangle_layer_CTRIANGLE2D aTri aDstLayer aZtop aZbot =
        { aDstLayer with
          m_layer_top_triangles := aDstLayer.m_layer_top_triangles ++ T
          m_layer_bot_triangles := aDstLayer.m_layer_bot_triangles ++ B } ∧
      all_at_Z T aZtop ∧ all_at_Z B aZbot) ∧
    (∃ r, add_object_to_triangle_layer_CRING2D R fuel aRing aDstLayer aZtop aZbot = some r) ∧
    (∀ (fuel' : Nat) (aRing' : CRING2D α) (r : CLAYER_TRIANGLES α),
      add_object_to_triangle_layer_CRING2D R fuel' aRing' aDstLayer aZtop aZbot = some r →
      ∃ T B : List (Face α),
        r = { aDstLayer with
          m_layer_top_triangles := aDstLayer.m_layer_top_triangles ++ T
          m_layer_bot_triangles := aDstLayer.m_layer_bot_triangles ++ B } ∧
        all_at_Z T aZtop ∧ all_at_Z B aZbot) ∧
    (∀ aSeg : CROUNDSEGMENT2D α, ∃ T B TE BE : List (Face α),
      add_object_to_triangle_layer_CROUNDSEGMENT2D R aSeg aDstLayer aZtop aZbot =
        { aDstLayer with
          m_layer_top_triangles := aDstLayer.m_layer_top_triangles ++ T
          m_layer_bot_triangles := aDstLayer.m_layer_bot_triangles ++ B
          m_layer_top_segment_ends := aDstLayer.m_layer_top_segment_ends ++ TE
          m_layer_bot_segment_ends := aDstLayer.m_layer_bot_segment_ends ++ BE } ∧
      all_at_Z T aZtop ∧ all_at_Z B aZbot ∧ all_at_Z TE aZtop ∧ all_at_Z BE aZbot) ∧
    (∃ r, generate_cylinder R.math fuel aCenter aInnerRadius aOuterRadius aZtop aZbot
      aNr_sides_per_circle aDstLayer = some r) ∧
    (∀ (fuel' N : Nat) (c : SFVEC2F α) (ri ro : α) (r : CLAYER_TRIANGLES α),
      generate_cylinder R.math fuel' c ri ro aZtop aZbot N aDstLayer = some r →
      ∃ (T B : List (Face α)) (W : List (MiddleContourCall α)),
        r = { aDstLayer with
          m_layer_top_triangles := aDstLayer.m_layer_top_triangles ++ T
          m_layer_bot_triangles := aDstLayer.m_layer_bot_triangles ++ B
          m_layer_middle_contourns_quads := aDstLayer.m_layer_middle_contourns_quads ++ W } ∧
        all_at_Z T aZtop ∧ all_at_Z B aZbot) :=
  ⟨fun c => filled_circle_appends R c aDstLayer aZtop aZbot,
   fun aPoly => polygon4pt_appends aPoly aDstLayer aZtop aZbot,
   fun aTri => triangle_appends aTri aDstLayer aZtop aZbot,
   add_object_to_triangle_layer_CRING2D_returns R fuel aRing aDstLayer aZtop aZbot h1 h2 hf,
   fun fuel' aRing' r h => ring_appends R fuel' aRing' aDstLayer r aZtop aZbot h,
   fun aSeg => round_segment_appends R aSeg aDstLayer aZtop aZbot,
   generate_cylinder_returns R.math fuel aCenter aInnerRadius aOuterRadius aZtop aZbot
     aNr_sides_per_circle aDstLayer hc1 hc2 hf,
   fun fuel' N c ri ro r h =>
     generate_cylinder_appends R.math fuel' c ri ro aZtop aZbot N aDstLayer r h⟩

/-- Witness of C30: the ring of radii 1 and 2 at the origin and the cylinder of
the same radii, four segments each (real arithmetic, fuel 3601), into an empty
mesh with Ztop = 1 and Zbot = 0: `generate_cylinder` returns. -/
theorem appended_faces_flat_witness :
    ∃ r, generate_cylinder (⟨Real.sqrt, Real.cos, Real.sin, Real.pi⟩ : FloatMath ℝ) 3601
      ⟨0, 0⟩ 1 2 1 0 4 (CLAYER_TRIANGLES.new 0) = some r :=
  (appended_faces_flat
    (⟨⟨fun _ => 1, fun _ => 0, 1, fun _ => true, fun _ => 4⟩, 0, 1024,
      ⟨Real.sqrt, Real.cos, Real.sin, Real.pi⟩⟩ : Renderer ℝ)
    3601 (CLAYER_TRIANGLES.new 0) 1 0 ⟨⟨0, 0⟩, 1, 2⟩ ⟨0, 0⟩ 1 2 4
    (by decide : (1 : Nat) ≤ 4) (by decide : (4 : Nat) ≤ 3600) (by decide) (by decide)
    (by decide)).2.2.2.2.2.2.1

/-! ### The model map only grows -/

theorem load_3D_models_visible_new (mm : MATERIAL_MODE) (G : String → Option S3DMODEL)
    (st : ModelCache) (g k : String) (v : C_OGL_3DMODEL) (h0 : st.m_3dmodel_map k = none)
    (h : (load_3D_models_visible mm G st g).m_3dmodel_map k = some v) :
    k = g ∧ ∃ m, G k = some m ∧ v = ⟨m, mm⟩ := by
  unfold load_3D_models_visible at h
  by_cases hn : (st.m_3dmodel_map g).isNone = true
  · rw [if_pos hn] at h
    cases hG : G g with
    | none =>
      rw [hG] at h
      dsimp only at h
      rw [h0] at h
      exact absurd h (by simp)
    | some m =>
      rw [hG] at h
      dsimp only at h
      by_cases hk : k = g
      · subst hk
        simp only [std_map.assign, if_true, Option.some.injEq] at h
        exact ⟨rfl, m, hG, h.symm⟩
      · simp only [std_map.assign, hk, if_false] at h
        rw [h0] at h
        exact absurd h (by simp)
  · rw [if_neg hn] at h
    rw [h0] at h
    exact absurd h (by simp)

theorem foldl_load_3D_models_visible_new (mm : MATERIAL_MODE) (G : String → Option S3DMODEL)
    (fs : List String) (k : String) (v : C_OGL_3DMODEL) :
    ∀ st : ModelCache, st.m_3dmodel_map k = none →
      (fs.foldl (load_3D_models_visible mm G) st).m_3dmodel_map k = some v →
      k ∈ fs ∧ ∃ m, G k = some m ∧ v = ⟨m, mm⟩ := by
  induction fs with
  | nil =>
    intro st h0 h
    rw [List.foldl_nil, h0] at h
    exact absurd h (by simp)
  | cons g fs ih =>
    intro st h0 h
    rw [List.foldl_cons] at h
    cases h1 : (load_3D_models_visible mm G st g).m_3dmodel_map k with
    | none =>
      obtain ⟨hm, hv⟩ := ih _ h1 h
      exact ⟨List.mem_cons_of_mem _ hm, hv⟩
    | some v1 =>
      have hk := foldl_load_3D_models_visible_keeps mm G fs k v1 _ h1
      rw [hk, Option.some.injEq] at h
      subst h
      obtain ⟨hkg, hv⟩ := load_3D_models_visible_new mm G st g k v1 h0 h1
      exact ⟨hkg ▸ List.mem_cons_self _ _, hv⟩

/-- C29: `load_3D_models` keeps every entry of the model map (a key present
before the call is present afterwards with the same value), and every key it
adds is the file name of a model reference of the board that is shown and not
empty, for which the collaborator returned a model; the value stored under it
is that model with the current material mode. -/
theorem model_map_only_grows (S : SCENE_ACCESSORS α) (st : ModelCache) :
    (∀ (k : String) (v : C_OGL_3DMODEL), st.m_3dmodel_map k = some v →
      (load_3D_models S st).m_3dmodel_map k = some v) ∧
    (∀ (k : String) (v : C_OGL_3DMODEL), st.m_3dmodel_map k = none →
      (load_3D_models S st).m_3dmodel_map k = some v →
      (∃ module ∈ S.GetBoard.Modules, ∃ model ∈ module.Models,
        model.m_Show = true ∧ model.m_Filename ≠ "" ∧ model.m_Filename = k) ∧
      ∃ m, S.GetModel k = some m ∧ v = ⟨m, S.MaterialModeGet⟩) := by
  constructor
  · intro k v h
    rw [load_3D_models_eq]
    by_cases he : models_enabled S = true
    · rw [if_pos he]
      exact foldl_load_3D_models_visible_keeps _ _ _ k v st h
    · rw [if_neg he]
      exact h
  · intro k v h0 h
    rw [load_3D_models_eq] at h
    by_cases he : models_enabled S = true
    · rw [if_pos he] at h
      obtain ⟨hm, hv⟩ := foldl_load_3D_models_visible_new _ _ _ k v st h0 h
      exact ⟨(mem_requested_filenames _ _).1 hm, hv⟩
    · rw [if_neg he, h0] at h
      exact absurd h (by simp)

/-! ### The size of the ring contour -/

theorem ring_loop_counters_range (delta : Nat) (hd : 0 < delta) :
    ∀ (fuel ii : Nat), 3600 - ii < fuel →
      ring_loop_counters delta fuel ii =
        some (List.range' ii ((3600 - ii + delta - 1) / delta) delta) := by
  intro fuel
  induction fuel with
  | zero =>
    intro ii h
    omega
  | succ fuel ih =>
    intro ii h
    unfold ring_loop_counters
    by_cases hlt : ii < 3600
    · rw [if_pos hlt, ih (ii + delta) (by omega), Option.map_some']
      have e : (3600 - ii + delta - 1) / delta =
          (3600 - (ii + delta) + delta - 1) / delta + 1 := by
        have e1 : 3600 - ii + delta - 1 = (3600 - ii - 1) + delta := by omega
        rw [e1, Nat.add_div_right _ hd]
        by_cases hle : ii + delta ≤ 3600
        · have e2 : 3600 - (ii + delta) + delta - 1 = 3600 - ii - 1 := by omega
          rw [e2]
        · rw [Nat.div_eq_of_lt (by omega : 3600 - ii - 1 < delta),
            Nat.div_eq_of_lt (by omega : 3600 - (ii + delta) + delta - 1 < delta)]
      rw [e, List.range'_succ]
    · rw [if_neg hlt]
      have e : (3600 - ii + delta - 1) / delta = 0 := Nat.div_eq_of_lt (by omega)
      rw [e]
      rfl

theorem ceil_div_bounds (d : Nat) (hd : 0 < d) :
    3600 ≤ d * ceil_div 3600 d ∧ d * (ceil_div 3600 d - 1) < 3600 ∧ 1 ≤ ceil_div 3600 d := by
  unfold ceil_div
  have h1 := Nat.mul_div_le (3600 + d - 1) d
  have h2 := Nat.lt_mul_div_succ (3600 + d - 1) hd
  rw [Nat.mul_add, Nat.mul_one] at h2
  have h3 : 1 ≤ (3600 + d - 1) / d := by
    by_contra hc
    have h0 : (3600 + d - 1) / d = 0 := Nat.lt_one_iff.mp (not_le.mp hc)
    rw [h0, Nat.mul_zero] at h2
    omega
  refine ⟨by omega, ?_, h3⟩
  obtain ⟨k, hk⟩ : ∃ k, (3600 + d - 1) / d = k + 1 := ⟨(3600 + d - 1) / d - 1, by omega⟩
  rw [hk] at h1 ⊢
  rw [Nat.mul_add, Nat.mul_one] at h1
  rw [Nat.add_sub_cancel]
  omega

theorem ceil_div_eq_iff_dvd (N : Nat) (h1 : 1 ≤ N) (h2 : N ≤ 3600) :
    ceil_div 3600 (3600 / N) = N ↔ N ∣ 3600 := by
  have hq : 0 < 3600 / N := Nat.div_pos h2 (by omega)
  have hqr := Nat.div_add_mod 3600 N
  have hr := Nat.mod_lt 3600 (by omega : 0 < N)
  obtain ⟨hb1, hb2, hb3⟩ := ceil_div_bounds (3600 / N) hq
  constructor
  · intro hc
    rw [hc, Nat.mul_comm] at hb1
    exact Nat.dvd_of_mod_eq_zero (by omega)
  · intro hdvd
    have hr0 : 3600 % N = 0 := Nat.mod_eq_zero_of_dvd hdvd
    rw [hr0, Nat.add_zero] at hqr
    unfold ceil_div
    apply Nat.div_eq_of_lt_le
    · omega
    · rw [Nat.add_mul, Nat.one_mul]
      omega

theorem generate_ring_contour_range (M : FloatMath α) (fuel : Nat) (aCenter : SFVEC2F α)
    (aInnerRadius aOuterRadius : α) (aNr_sides_per_circle : Nat) (aInvertOrder : Bool)
    (h1 : 1 ≤ aNr_sides_per_circle) (h2 : aNr_sides_per_circle ≤ 3600) (hf : 3600 < fuel) :
    generate_ring_contour M fuel aCenter aInnerRadius aOuterRadius aNr_sides_per_circle
        aInvertOrder =
      some ((List.range' 0 (ceil_div 3600 (3600 / aNr_sides_per_circle))
              (3600 / aNr_sides_per_circle) ++ [0]).map
                (ring_point M aCenter aInvertOrder aInnerRadius),
            (List.range' 0 (ceil_div 3600 (3600 / aNr_sides_per_circle))
              (3600 / aNr_sides_per_circle) ++ [0]).map
                (ring_point M aCenter aInvertOrder aOuterRadius)) := by
  have hd : 0 < 3600 / aNr_sides_per_circle := Nat.div_pos h2 (by omega)
  have hN : aNr_sides_per_circle ≠ 0 := by omega
  rw [generate_ring_contour_eq, if_neg hN, ring_loop_counters_range _ hd fuel 0 (by omega)]
  rfl

/-- C24: for a segment count N between 1 and 3600 (fuel above 3600) the loop
of `generate_ring_contour` ends after ceil(3600 / floor(3600 / N)) passes, one
point appended to each sequence per pass; the function returns and each
returned sequence has ceil(3600 / floor(3600 / N)) + 1 points; this number is
N + 1 if and only if N divides 3600. -/
theorem generate_ring_contour_exact_size (M : FloatMath α) (fuel : Nat) (aCenter : SFVEC2F α)
    (aInnerRadius aOuterRadius : α) (aNr_sides_per_circle : Nat) (aInvertOrder : Bool)
    (h1 : 1 ≤ aNr_sides_per_circle) (h2 : aNr_sides_per_circle ≤ 3600) (hf : 3600 < fuel) :
    ∃ loopInner loopOuter inner outer : List (SFVEC2F α),
      generate_ring_contour_loop M aCenter aInnerRadius aOuterRadius aInvertOrder
        (3600 / aNr_sides_per_circle) fuel 0 [] [] = some (loopInner, loopOuter) ∧
      loopInner.length = ceil_div 3600 (3600 / aNr_sides_per_circle) ∧
      loopOuter.length = ceil_div 3600 (3600 / aNr_sides_per_circle) ∧
      generate_ring_contour M fuel aCenter aInnerRadius aOuterRadius aNr_sides_per_circle
        aInvertOrder = some (inner, outer) ∧
      inner.length = ceil_div 3600 (3600 / aNr_sides_per_circle) + 1 ∧
      outer.length = ceil_div 3600 (3600 / aNr_sides_per_circle) + 1 ∧
      (ceil_div 3600 (3600 / aNr_sides_per_circle) + 1 = aNr_sides_per_circle + 1 ↔
        aNr_sides_per_circle ∣ 3600) := by
  have hd : 0 < 3600 / aNr_sides_per_circle := Nat.div_pos h2 (by omega)
  refine ⟨(List.range' 0 (ceil_div 3600 (3600 / aNr_sides_per_circle))
      (3600 / aNr_sides_per_circle)).map (ring_point M aCenter aInvertOrder aInnerRadius),
    (List.range' 0 (ceil_div 3600 (3600 / aNr_sides_per_circle))
      (3600 / aNr_sides_per_circle)).map (ring_point M aCenter aInvertOrder aOuterRadius),
    _, _, ?_, ?_, ?_,
    generate_ring_contour_range M fuel aCenter aInnerRadius aOuterRadius aNr_sides_per_circle
      aInvertOrder h1 h2 hf, ?_, ?_, ?_⟩
  · rw [generate_ring_contour_loop_eq, ring_loop_counters_range _ hd fuel 0 (by omega)]
    rfl
  · simp [List.length_range', ceil_div]
  · simp [List.length_range', ceil_div]
  · simp [List.length_range']
  · simp [List.length_range']
  · rw [Nat.add_right_cancel_iff]
    exact ceil_div_eq_iff_dvd _ h1 h2

/-- Witness of C24: seven segments (real arithmetic, fuel 3601): the loop makes
8 passes and each returned sequence has 9 points. -/
theorem generate_ring_contour_exact_size_witness :
    ∃ loopInner loopOuter inner outer : List (SFVEC2F ℝ),
      generate_ring_contour_loop ⟨Real.sqrt, Real.cos, Real.sin, Real.pi⟩ ⟨0, 0⟩ 1 2 false
        (3600 / 7) 3601 0 [] [] = some (loopInner, loopOuter) ∧
      loopInner.length = ceil_div 3600 (3600 / 7) ∧
      loopOuter.length = ceil_div 3600 (3600 / 7) ∧
      generate_ring_contour ⟨Real.sqrt, Real.cos, Real.sin, Real.pi⟩ 3601 ⟨0, 0⟩ 1 2 7 false =
        some (inner, outer) ∧
      inner.length = ceil_div 3600 (3600 / 7) + 1 ∧
      outer.length = ceil_div 3600 (3600 / 7) + 1 ∧
      (ceil_div 3600 (3600 / 7) + 1 = 7 + 1 ↔ 7 ∣ 3600) :=
  generate_ring_contour_exact_size ⟨Real.sqrt, Real.cos, Real.sin, Real.pi⟩ 3601 ⟨0, 0⟩ 1 2 7
    false (by decide) (by decide) (by decide)

/-! ### The reversed angular order -/

theorem ring_contour_getElem? {β : Type} (n d : Nat) (f : Nat → β) (i : Nat) (hi : i ≤ n) :
    ((List.range' 0 n d ++ [0]).map f)[i]? = some (f (if i < n then d * i else 0)) := by
  rw [List.getElem?_map, List.getElem?_append]
  by_cases h : i < n
  · rw [List.length_range', if_pos h, if_pos h, List.getElem?_range' _ _ h, Nat.zero_add]
    rfl
  · have e : i = n := by omega
    subst e
    rw [List.length_range', if_neg h, if_neg h, Nat.sub_self]
    rfl

theorem ring_point_full_turn (M : FloatMath ℝ) (hcos : M.cos = Real.cos) (hsin : M.sin = Real.sin)
    (hpi : M.pi = Real.pi) (aCenter : SFVEC2F ℝ) (r : ℝ) :
    ring_point M aCenter true r 0 = ring_point M aCenter false r 0 := by
  have a1 : (((3600 - 0 : Nat) : ℝ)) * 2 * Real.pi / 3600 = 2 * Real.pi := by
    push_cast
    ring
  have a0 : (((0 : Nat) : ℝ)) * 2 * Real.pi / 3600 = 0 := by
    push_cast
    ring
  simp only [ring_point, hcos, hsin, hpi, if_true, Bool.false_eq_true, if_false, a1, a0,
    Real.cos_two_pi, Real.sin_two_pi, Real.cos_zero, Real.sin_zero]

/-- C22: for a segment count N >= 1 that divides 3600 (exact real cosine, sine
and pi, fuel above 3600) `generate_ring_contour` returns N + 1 points in each
sequence with and without the reversed-order flag, and the sequence generated
with the flag is the one generated without it read backwards: for all
0 <= i <= N the point i of the reversed inner (outer) sequence is the point
N - i of the plain inner (outer) sequence. -/
theorem generate_ring_contour_reversed (M : FloatMath ℝ) (fuel : Nat) (aCenter : SFVEC2F ℝ)
    (aInnerRadius aOuterRadius : ℝ) (aNr_sides_per_circle : Nat)
    (hcos : M.cos = Real.cos) (hsin : M.sin = Real.sin) (hpi : M.pi = Real.pi)
    (h1 : 1 ≤ aNr_sides_per_circle) (hdvd : aNr_sides_per_circle ∣ 3600) (hf : 3600 < fuel) :
    ∃ plainInner plainOuter reversedInner reversedOuter : List (SFVEC2F ℝ),
      generate_ring_contour M fuel aCenter aInnerRadius aOuterRadius aNr_sides_per_circle
        false = some (plainInner, plainOuter) ∧
      generate_ring_contour M fuel aCenter aInnerRadius aOuterRadius aNr_sides_per_circle
        true = some (reversedInner, reversedOuter) ∧
      plainInner.length = aNr_sides_per_circle + 1 ∧
      plainOuter.length = aNr_sides_per_circle + 1 ∧
      reversedInner.length = aNr_sides_per_circle + 1 ∧
      reversedOuter.length = aNr_sides_per_circle + 1 ∧
      ∀ i, i ≤ aNr_sides_per_circle →
        reversedInner[i]? = plainInner[aNr_sides_per_circle - i]? ∧
        reversedOuter[i]? = plainOuter[aNr_sides_per_circle - i]? := by
  have h2 : aNr_sides_per_circle ≤ 3600 := Nat.le_of_dvd (by decide) hdvd
  have hn : ceil_div 3600 (3600 / aNr_sides_per_circle) = aNr_sides_per_circle :=
    (ceil_div_eq_iff_dvd _ h1 h2).2 hdvd
  have hmul : 3600 / aNr_sides_per_circle * aNr_sides_per_circle = 3600 :=
    Nat.div_mul_cancel hdvd
  have hp := generate_ring_contour_range M fuel aCenter aInnerRadius aOuterRadius
    aNr_sides_per_circle false h1 h2 hf
  have hr := generate_ring_contour_range M fuel aCenter aInnerRadius aOuterRadius
    aNr_sides_per_circle true h1 h2 hf
  rw [hn] at hp hr
  have key : ∀ (r : ℝ) (i : Nat), i ≤ aNr_sides_per_circle →
      ring_point M aCenter true r
          (if i < aNr_sides_per_circle then 3600 / aNr_sides_per_circle * i else 0) =
        ring_point M aCenter false r
          (if aNr_sides_per_circle - i < aNr_sides_per_circle then
            3600 / aNr_sides_per_circle * (aNr_sides_per_circle - i) else 0) := by
    intro r i hi
    by_cases h0 : i = 0
    · subst h0
      rw [if_pos (by omega : 0 < aNr_sides_per_circle), Nat.mul_zero, Nat.sub_zero,
        if_neg (Nat.lt_irrefl _)]
      exact ring_point_full_turn M hcos hsin hpi aCenter r
    · by_cases hN : i = aNr_sides_per_circle
      · subst hN
        rw [if_neg (Nat.lt_irrefl _), Nat.sub_self, if_pos (by omega : 0 < i), Nat.mul_zero]
        exact ring_point_full_turn M hcos hsin hpi aCenter r
      · rw [if_pos (by omega : i < aNr_sides_per_circle),
          if_pos (by omega : aNr_sides_per_circle - i < aNr_sides_per_circle)]
        have e : 3600 - 3600 / aNr_sides_per_circle * i =
            3600 / aNr_sides_per_circle * (aNr_sides_per_circle - i) := by
          rw [Nat.mul_sub, hmul]
        simp only [ring_point, if_true, Bool.false_eq_true, if_false, e]
  refine ⟨_, _, _, _, hp, hr, ?_, ?_, ?_, ?_, ?_⟩
  · simp [List.length_range']
  · simp [List.length_range']
  · simp [List.length_range']
  · simp [List.length_range']
  · intro i hi
    rw [ring_contour_getElem? _ _ _ i hi, ring_contour_getElem? _ _ _ i hi,
      ring_contour_getElem? _ _ _ _ (Nat.sub_le _ _),
      ring_contour_getElem? _ _ _ _ (Nat.sub_le _ _),
      key aInnerRadius i hi, key aOuterRadius i hi]
    exact ⟨rfl, rfl⟩

/-- Witness of C22: four segments around the origin with radii 1 and 2. -/
theorem generate_ring_contour_reversed_witness :
    ∃ plainInner plainOuter reversedInner reversedOuter : List (SFVEC2F ℝ),
      generate_ring_contour ⟨Real.sqrt, Real.cos, Real.sin, Real.pi⟩ 3601 ⟨0, 0⟩ 1 2 4
        false = some (plainInner, plainOuter) ∧
      generate_ring_contour ⟨Real.sqrt, Real.cos, Real.sin, Real.pi⟩ 3601 ⟨0, 0⟩ 1 2 4
        true = some (reversedInner, reversedOuter) ∧
      plainInner.length = 4 + 1 ∧
      plainOuter.length = 4 + 1 ∧
      reversedInner.length = 4 + 1 ∧
      reversedOuter.length = 4 + 1 ∧
      ∀ i, i ≤ 4 →
        reversedInner[i]? = plainInner[4 - i]? ∧
        reversedOuter[i]? = plainOuter[4 - i]? :=
  generate_ring_contour_reversed ⟨Real.sqrt, Real.cos, Real.sin, Real.pi⟩ 3601 ⟨0, 0⟩ 1 2 4
    rfl rfl rfl (by decide) (by decide) (by decide)

/-! ### The area of the ring quads -/

theorem ring_contour_getD {β : Type} (n d : Nat) (f : Nat → β) (i : Nat) (hi : i ≤ n)
    (dflt : β) :
    ((List.range' 0 n d ++ [0]).map f).getD i dflt = f (if i < n then d * i else 0) := by
  rw [List.getD_eq_getElem?_getD, ring_contour_getElem? n d f i hi]
  rfl

theorem ring_step_tenths_bounds (N i : Nat) (h3 : 3 ≤ N) (h2 : N ≤ 3600) :
    1 ≤ ring_step_tenths N i ∧ ring_step_tenths N i ≤ 1200 := by
  have hd : 0 < 3600 / N := Nat.div_pos h2 (by omega)
  have hd2 : 3600 / N ≤ 3600 / 3 := Nat.div_le_div_left h3 (by decide)
  have hd3 : (3600 / 3 : Nat) = 1200 := by decide
  obtain ⟨hb1, hb2, hb3⟩ := ceil_div_bounds (3600 / N) hd
  unfold ring_step_tenths
  by_cases h : i + 1 < ceil_div 3600 (3600 / N)
  · simp only [h, if_true]
    omega
  · simp only [h, if_false]
    obtain ⟨k, hk⟩ : ∃ k, ceil_div 3600 (3600 / N) = k + 1 :=
      ⟨ceil_div 3600 (3600 / N) - 1, by omega⟩
    rw [hk] at hb1 hb2 ⊢
    rw [Nat.add_sub_cancel] at hb2 ⊢
    rw [Nat.mul_add, Nat.mul_one] at hb1
    omega

theorem ring_quad_normalZ (M : FloatMath ℝ) (hcos : M.cos = Real.cos) (hsin : M.sin = Real.sin)
    (hpi : M.pi = Real.pi) (c : SFVEC2F ℝ) (ri ro z : ℝ) (k0 k1 : Nat) :
    (Face.quad
      ⟨(ring_point M c false ri k1).x, (ring_point M c false ri k1).y, z⟩
      ⟨(ring_point M c false ri k0).x, (ring_point M c false ri k0).y, z⟩
      ⟨(ring_point M c false ro k0).x, (ring_point M c false ro k0).y, z⟩
      ⟨(ring_point M c false ro k1).x, (ring_point M c false ro k1).y, z⟩).normalZ =
      (ro ^ 2 - ri ^ 2) *
        Real.sin ((k1 : ℝ) * 2 * Real.pi / 3600 - (k0 : ℝ) * 2 * Real.pi / 3600) := by
  simp only [ring_point, Face.normalZ, signedArea2, Bool.false_eq_true, if_false, hcos, hsin,
    hpi]
  rw [Real.sin_sub]
  ring

theorem ring_step_sin (N i : Nat) (h1 : 1 ≤ N) (h2 : N ≤ 3600)
    (hi : i < ceil_div 3600 (3600 / N)) :
    Real.sin (((if i + 1 < ceil_div 3600 (3600 / N) then 3600 / N * (i + 1) else 0 : Nat) : ℝ)
        * 2 * Real.pi / 3600 -
      ((if i < ceil_div 3600 (3600 / N) then 3600 / N * i else 0 : Nat) : ℝ)
        * 2 * Real.pi / 3600) =
    Real.sin ((ring_step_tenths N i : ℝ) * 2 * Real.pi / 3600) := by
  have hd : 0 < 3600 / N := Nat.div_pos h2 (by omega)
  obtain ⟨hb1, hb2, hb3⟩ := ceil_div_bounds (3600 / N) hd
  unfold ring_step_tenths
  rw [if_pos hi]
  by_cases h : i + 1 < ceil_div 3600 (3600 / N)
  · simp only [h, if_true]
    congr 1
    push_cast
    ring
  · simp only [h, if_false]
    have e : ceil_div 3600 (3600 / N) - 1 = i := by omega
    rw [e] at hb2 ⊢
    rw [Nat.cast_sub (le_of_lt hb2)]
    have a : ((3600 : Nat) : ℝ) = 3600 := by norm_num
    have e1 : ((0 : Nat) : ℝ) * 2 * Real.pi / 3600 -
        ((3600 / N * i : Nat) : ℝ) * 2 * Real.pi / 3600 =
        -(((3600 / N * i : Nat) : ℝ) * 2 * Real.pi / 3600) := by
      push_cast
      ring
    have e2 : (((3600 : Nat) : ℝ) - ((3600 / N * i : Nat) : ℝ)) * 2 * Real.pi / 3600 =
        2 * Real.pi - ((3600 / N * i : Nat) : ℝ) * 2 * Real.pi / 3600 := by
      rw [a]
      ring
    rw [e1, e2, Real.sin_neg, Real.sin_two_pi_sub]

theorem ring_step_sin_pos (N i : Nat) (h3 : 3 ≤ N) (h2 : N ≤ 3600) :
    0 < Real.sin ((ring_step_tenths N i : ℝ) * 2 * Real.pi / 3600) := by
  obtain ⟨hs1, hs2⟩ := ring_step_tenths_bounds N i h3 h2
  have c1 : (1 : ℝ) ≤ (ring_step_tenths N i : ℝ) := by exact_mod_cast hs1
  have c2 : (ring_step_tenths N i : ℝ) ≤ 1200 := by exact_mod_cast hs2
  have hpi := Real.pi_pos
  have m1 := mul_le_mul_of_nonneg_right c1 hpi.le
  have m2 := mul_le_mul_of_nonneg_right c2 hpi.le
  apply Real.sin_pos_of_pos_of_lt_pi
  · have e : (ring_step_tenths N i : ℝ) * 2 * Real.pi / 3600 =
        (ring_step_tenths N i : ℝ) * Real.pi / 1800 := by ring
    rw [e]
    apply div_pos _ (by norm_num)
    linarith
  · have e : (ring_step_tenths N i : ℝ) * 2 * Real.pi / 3600 =
        (ring_step_tenths N i : ℝ) * Real.pi / 1800 := by ring
    rw [e, div_lt_iff₀ (by norm_num)]
    linarith

theorem ring_bot_quad_normalZ (innerContour outerContour : List (SFVEC2F α)) (aZtop aZbot : α)
    (i : Nat) :
    (ring_bot_quad innerContour outerContour aZbot i).normalZ =
      -(ring_top_quad innerContour outerContour aZtop i).normalZ := by
  simp only [ring_bot_quad, ring_top_quad, Face.normalZ, signedArea2]
  ring

/-- C23: for a ring with 0 <= inner < outer and a segment count N between 3
and 3600 (exact real cosine, sine and pi, fuel above 3600) the ring converter
returns and appends one top and one bottom quad per pair of consecutive contour
points.  The top quad of the pair (i, i + 1) is (inner[i+1], inner[i],
outer[i], outer[i+1]); its signed XY area is (outer^2 - inner^2) * sin(step) / 2
with step the angle between the two contour points, and it is strictly
positive; the bottom quad of the pair has the negated area.  The step is
2 pi floor(3600 / N) / 3600 for every pair but the closing one, and for every
pair when N divides 3600. -/
theorem ring_quads_face_outward (R : Renderer ℝ) (fuel : Nat) (aRing : CRING2D ℝ)
    (aDstLayer : CLAYER_TRIANGLES ℝ) (aZtop aZbot : ℝ)
    (hcos : R.math.cos = Real.cos) (hsin : R.math.sin = Real.sin) (hpi : R.math.pi = Real.pi)
    (hri : 0 ≤ aRing.GetInnerRadius) (hro : aRing.GetInnerRadius < aRing.GetOuterRadius)
    (h3 : 3 ≤ R.m_boardAdapter.GetNrSegmentsCircle (aRing.GetOuterRadius * 2))
    (h2 : R.m_boardAdapter.GetNrSegmentsCircle (aRing.GetOuterRadius * 2) ≤ 3600)
    (hf : 3600 < fuel) :
    ∃ (r : CLAYER_TRIANGLES ℝ) (inner outer : List (SFVEC2F ℝ)) (T B : List (Face ℝ)),
      generate_ring_contour R.math fuel aRing.GetCenter aRing.GetInnerRadius
        aRing.GetOuterRadius (R.m_boardAdapter.GetNrSegmentsCircle (aRing.GetOuterRadius * 2))
        false = some (inner, outer) ∧
      add_object_to_triangle_layer_CRING2D R fuel aRing aDstLayer aZtop aZbot = some r ∧
      r = { aDstLayer with
        m_layer_top_triangles := aDstLayer.m_layer_top_triangles ++ T
        m_layer_bot_triangles := aDstLayer.m_layer_bot_triangles ++ B } ∧
      T.length = inner.length - 1 ∧ B.length = inner.length - 1 ∧
      ∀ i, i < inner.length - 1 →
        T[i]? = some (ring_top_quad inner outer aZtop i) ∧
        B[i]? = some (ring_bot_quad inner outer aZbot i) ∧
        (ring_top_quad inner outer aZtop i).signedArea =
          (aRing.GetOuterRadius ^ 2 - aRing.GetInnerRadius ^ 2) *
            Real.sin ((ring_step_tenths
              (R.m_boardAdapter.GetNrSegmentsCircle (aRing.GetOuterRadius * 2)) i : ℝ) *
                2 * Real.pi / 3600) / 2 ∧
        0 < (ring_top_quad inner outer aZtop i).signedArea ∧
        (ring_bot_quad inner outer aZbot i).signedArea =
          -(ring_top_quad inner outer aZtop i).signedArea ∧
        (i + 1 < inner.length - 1 ∨
            R.m_boardAdapter.GetNrSegmentsCircle (aRing.GetOuterRadius * 2) ∣ 3600 →
          ring_step_tenths (R.m_boardAdapter.GetNrSegmentsCircle (aRing.GetOuterRadius * 2)) i =
            3600 / R.m_boardAdapter.GetNrSegmentsCircle (aRing.GetOuterRadius * 2)) := by
  have h1 : 1 ≤ R.m_boardAdapter.GetNrSegmentsCircle (aRing.GetOuterRadius * 2) := by omega
  have hd : 0 < 3600 / R.m_boardAdapter.GetNrSegmentsCircle (aRing.GetOuterRadius * 2) :=
    Nat.div_pos h2 (by omega)
  have hgen := generate_ring_contour_range R.math fuel aRing.GetCenter aRing.GetInnerRadius
    aRing.GetOuterRadius _ false h1 h2 hf
  have hring := add_object_to_triangle_layer_CRING2D_eq R fuel aRing aDstLayer aZtop aZbot
  rw [hgen, Option.map_some'] at hring
  generalize hN : R.m_boardAdapter.GetNrSegmentsCircle (aRing.GetOuterRadius * 2) = N at *
  have hlen : ((List.range' 0 (ceil_div 3600 (3600 / N)) (3600 / N) ++ [0]).map
      (ring_point R.math aRing.GetCenter false aRing.GetInnerRadius)).length - 1 =
      ceil_div 3600 (3600 / N) := by
    simp [List.length_range']
  have hsq : 0 < aRing.GetOuterRadius ^ 2 - aRing.GetInnerRadius ^ 2 := by nlinarith
  refine ⟨_, _, _, _, _, hgen, hring, rfl, ?_, ?_, ?_⟩
  · simp only [List.length_map, List.length_range]
  · simp only [List.length_map, List.length_range]
  · intro i hi
    have hi' : i < ceil_div 3600 (3600 / N) := by rw [hlen] at hi; exact hi
    have harea : (ring_top_quad
        ((List.range' 0 (ceil_div 3600 (3600 / N)) (3600 / N) ++ [0]).map
          (ring_point R.math aRing.GetCenter false aRing.GetInnerRadius))
        ((List.range' 0 (ceil_div 3600 (3600 / N)) (3600 / N) ++ [0]).map
          (ring_point R.math aRing.GetCenter false aRing.GetOuterRadius)) aZtop i).normalZ =
        (aRing.GetOuterRadius ^ 2 - aRing.GetInnerRadius ^ 2) *
          Real.sin ((ring_step_tenths N i : ℝ) * 2 * Real.pi / 3600) := by
      simp only [ring_top_quad, Nat.add_zero]
      rw [ring_contour_getD _ _ _ i (le_of_lt hi'),
        ring_contour_getD _ _ _ (i + 1) hi', ring_contour_getD _ _ _ i (le_of_lt hi'),
        ring_contour_getD _ _ _ (i + 1) hi', ring_quad_normalZ R.math hcos hsin hpi,
        ring_step_sin N i h1 h2 hi']
    have hpos := ring_step_sin_pos N i h3 h2
    refine ⟨?_, ?_, ?_, ?_, ?_, ?_⟩
    · rw [List.getElem?_map, List.getElem?_range hi]
      rfl
    · rw [List.getElem?_map, List.getElem?_range hi]
      rfl
    · unfold Face.signedArea
      rw [harea]
    · unfold Face.signedArea
      rw [harea]
      exact div_pos (mul_pos hsq hpos) (by norm_num)
    · unfold Face.signedArea
      rw [ring_bot_quad_normalZ _ _ aZtop aZbot i]
      ring
    · intro hcase
      unfold ring_step_tenths
      rcases hcase with hlt | hdvd
      · rw [hlen] at hlt
        simp only [hlt, if_true]
      · have hc := (ceil_div_eq_iff_dvd N h1 h2).2 hdvd
        have hmul : 3600 / N * N = 3600 := Nat.div_mul_cancel hdvd
        by_cases hlt : i + 1 < ceil_div 3600 (3600 / N)
        · simp only [hlt, if_true]
        · simp only [hlt, if_false]
          rw [hc, Nat.mul_sub, hmul, Nat.mul_one]
          have hle := Nat.div_le_self 3600 N
          omega

/-- Witness of C23: the ring of radii 1 and 2 at the origin with four segments
into an empty mesh (fuel 3601). -/
theorem ring_quads_face_outward_witness :
    ∃ (r : CLAYER_TRIANGLES ℝ) (inner outer : List (SFVEC2F ℝ)) (T B : List (Face ℝ)),
      generate_ring_contour ⟨Real.sqrt, Real.cos, Real.sin, Real.pi⟩ 3601 ⟨0, 0⟩ 1 2 4
        false = some (inner, outer) ∧
      add_object_to_triangle_layer_CRING2D
        (⟨⟨fun _ => 1, fun _ => 0, 1, fun _ => true, fun _ => 4⟩, 0, 1024,
          ⟨Real.sqrt, Real.cos, Real.sin, Real.pi⟩⟩ : Renderer ℝ)
        3601 ⟨⟨0, 0⟩, 1, 2⟩ (CLAYER_TRIANGLES.new 0) 1 0 = some r ∧
      r = { (CLAYER_TRIANGLES.new 0 : CLAYER_TRIANGLES ℝ) with
        m_layer_top_triangles := [] ++ T
        m_layer_bot_triangles := [] ++ B } ∧
      T.length = inner.length - 1 ∧ B.length = inner.length - 1 ∧
      ∀ i, i < inner.length - 1 →
        T[i]? = some (ring_top_quad inner outer 1 i) ∧
        B[i]? = some (ring_bot_quad inner outer 0 i) ∧
        (ring_top_quad inner outer 1 i).signedArea =
          ((2 : ℝ) ^ 2 - 1 ^ 2) *
            Real.sin ((ring_step_tenths 4 i : ℝ) * 2 * Real.pi / 3600) / 2 ∧
        0 < (ring_top_quad inner outer 1 i).signedArea ∧
        (ring_bot_quad inner outer 0 i).signedArea =
          -(ring_top_quad inner outer 1 i).signedArea ∧
        (i + 1 < inner.length - 1 ∨ 4 ∣ 3600 → ring_step_tenths 4 i = 3600 / 4) :=
  ring_quads_face_outward
    (⟨⟨fun _ => 1, fun _ => 0, 1, fun _ => true, fun _ => 4⟩, 0, 1024,
      ⟨Real.sqrt, Real.cos, Real.sin, Real.pi⟩⟩ : Renderer ℝ)
    3601 ⟨⟨0, 0⟩, 1, 2⟩ (CLAYER_TRIANGLES.new 0) 1 0 rfl rfl rfl (by norm_num) (by norm_num)
    (by decide : (3 : Nat) ≤ 4) (by decide : (4 : Nat) ≤ 3600) (by decide)

/-! ### The board and the anti-board -/

theorem createBoard_loop_middle (layer_z_top layer_z_bot : α) (l : List (CTRIANGLE2D α)) :
    ∀ layerTriangles : CLAYER_TRIANGLES α,
      (createBoard_loop layer_z_top layer_z_bot l layerTriangles).m_layer_middle_contourns_quads =
        layerTriangles.m_layer_middle_contourns_quads := by
  induction l with
  | nil => intro layerTriangles; rfl
  | cons tri l ih =>
    intro layerTriangles
    simp only [createBoard_loop, ih]
    rfl

/-- C25: the anti-board object can be absent where `reload` uses it.  When the
board polygon of the adapter has no outline, or the anti-board polygon
triangulates into nothing, `createBoard` returns null for the anti-board
polygon and `reload` reaches `SetItIsTransparent` through that null pointer
(the model has no result). -/
theorem reload_uses_absent_anti_board (R : Renderer α) (S : SCENE_ACCESSORS α)
    (BooleanSubtract : SHAPE_POLY_SET → SHAPE_POLY_SET → SHAPE_POLY_SET)
    (h : S.GetBoardPoly.OutlineCount = 0 ∨
      S.Convert_shape_line_polygon_to_triangles
        (BooleanSubtract reload_anti_board_outline S.GetBoardPoly)
        R.m_boardAdapter.BiuTo3Dunits = []) :
    (createBoard R S (BooleanSubtract reload_anti_board_outline S.GetBoardPoly)).ret = none ∧
    (reload_board R S BooleanSubtract).isNone = true := by
  have hnull : (createBoard R S
      (BooleanSubtract reload_anti_board_outline S.GetBoardPoly)).ret = none := by
    unfold createBoard
    by_cases htri : (S.Convert_shape_line_polygon_to_triangles
        (BooleanSubtract reload_anti_board_outline S.GetBoardPoly)
        R.m_boardAdapter.BiuTo3Dunits).length > 0
    · have hout : ¬ S.GetBoardPoly.OutlineCount > 0 := by
        rcases h with h | h
        · omega
        · rw [h] at htri
          exact absurd htri (by simp)
      simp only [htri, hout, if_true, if_false]
    · simp only [htri, if_false]
  refine ⟨hnull, ?_⟩
  unfold reload_board
  simp only [hnull]
  rfl

/-- Witness of C25: a board without outline; the anti-board is the whole
square and triangulates into one triangle. -/
theorem reload_uses_absent_anti_board_witness :
    (createBoard
      (⟨⟨fun _ => 1, fun _ => 0, 1, fun _ => true, fun _ => 4⟩, 0, 1024,
        ⟨fun x => x, fun x => x, fun x => x, 3⟩⟩ : Renderer ℚ)
      (⟨⟨[], []⟩, ⟨[]⟩, fun _ => true, 1, fun _ => 4, 0, [],
        fun _ => none, fun _ => none, 0, fun _ _ => [⟨⟨0, 0⟩, ⟨1, 0⟩, ⟨0, 1⟩⟩]⟩ :
        SCENE_ACCESSORS ℚ)
      ((fun a _ => a) reload_anti_board_outline (⟨[]⟩ : SHAPE_POLY_SET))).ret = none ∧
    (reload_board
      (⟨⟨fun _ => 1, fun _ => 0, 1, fun _ => true, fun _ => 4⟩, 0, 1024,
        ⟨fun x => x, fun x => x, fun x => x, 3⟩⟩ : Renderer ℚ)
      (⟨⟨[], []⟩, ⟨[]⟩, fun _ => true, 1, fun _ => 4, 0, [],
        fun _ => none, fun _ => none, 0, fun _ _ => [⟨⟨0, 0⟩, ⟨1, 0⟩, ⟨0, 1⟩⟩]⟩ :
        SCENE_ACCESSORS ℚ)
      (fun a _ => a)).isNone = true :=
  reload_uses_absent_anti_board
    (⟨⟨fun _ => 1, fun _ => 0, 1, fun _ => true, fun _ => 4⟩, 0, 1024,
      ⟨fun x => x, fun x => x, fun x => x, 3⟩⟩ : Renderer ℚ)
    (⟨⟨[], []⟩, ⟨[]⟩, fun _ => true, 1, fun _ => 4, 0, [],
      fun _ => none, fun _ => none, 0, fun _ _ => [⟨⟨0, 0⟩, ⟨1, 0⟩, ⟨0, 1⟩⟩]⟩ :
      SCENE_ACCESSORS ℚ)
    (fun a _ => a) (Or.inl rfl)

/-- C26: the side walls of the object `createBoard` returns are built from the
board polygon of the adapter, not from the argument.  For a polygon set P with
a non-empty triangulation (and an adapter board polygon with an outline)
`createBoard( P )` returns an object whose only side-wall request names the
adapter's board polygon; when P differs from it, no side-wall request names P.
So the anti-board object of `reload` carries the side walls of the board. -/
theorem createBoard_side_walls_from_adapter (R : Renderer α) (S : SCENE_ACCESSORS α)
    (aBoardPoly : SHAPE_POLY_SET)
    (htri : S.Convert_shape_line_polygon_to_triangles aBoardPoly
      R.m_boardAdapter.BiuTo3Dunits ≠ [])
    (hout : S.GetBoardPoly.OutlineCount > 0)
    (hne : aBoardPoly ≠ S.GetBoardPoly) :
    (∃ obj : CLAYERS_OGL_DISP_LISTS α,
      (createBoard R S aBoardPoly).ret = some obj ∧
      obj.side_walls =
        [MiddleContourCall.ofPoly S.GetBoardPoly 0 1 R.m_boardAdapter.BiuTo3Dunits false] ∧
      ∀ w ∈ obj.side_walls, ∀ (zBot zTop aBiuTo3Du : α) (inv : Bool),
        w ≠ MiddleContourCall.ofPoly aBoardPoly zBot zTop aBiuTo3Du inv) ∧
    (∀ (BooleanSubtract : SHAPE_POLY_SET → SHAPE_POLY_SET → SHAPE_POLY_SET)
      (rb : ReloadBoard α), reload_board R S BooleanSubtract = some rb →
      rb.m_ogl_disp_list_anti_board.side_walls =
        [MiddleContourCall.ofPoly S.GetBoardPoly 0 1 R.m_boardAdapter.BiuTo3Dunits false]) := by
  have hpos : (S.Convert_shape_line_polygon_to_triangles aBoardPoly
      R.m_boardAdapter.BiuTo3Dunits).length > 0 := List.length_pos.mpr htri
  constructor
  · simp only [createBoard, hpos, hout, if_true]
    refine ⟨_, rfl, ?_, ?_⟩
    · simp only [CLAYERS_OGL_DISP_LISTS.side_walls, CLAYER_TRIANGLES.AddToMiddleContourns,
        createBoard_loop_middle]
      rfl
    · intro w hw zBot zTop aBiuTo3Du inv hc
      simp only [CLAYERS_OGL_DISP_LISTS.side_walls, CLAYER_TRIANGLES.AddToMiddleContourns,
        createBoard_loop_middle, CLAYER_TRIANGLES.new, List.nil_append, List.mem_singleton] at hw
      rw [hw] at hc
      injection hc with h1
      exact hne h1.symm
  · intro BooleanSubtract rb hrb
    unfold reload_board at hrb
    by_cases ht : (S.Convert_shape_line_polygon_to_triangles
        (BooleanSubtract reload_anti_board_outline S.GetBoardPoly)
        R.m_boardAdapter.BiuTo3Dunits).length > 0
    · simp only [createBoard, ht, hout, if_true, Option.some.injEq] at hrb
      subst hrb
      simp only [CLAYERS_OGL_DISP_LISTS.side_walls, CLAYER_TRIANGLES.AddToMiddleContourns,
        createBoard_loop_middle]
      rfl
    · simp only [createBoard, ht, if_false] at hrb
      exact absurd hrb (by simp)

/-- Witness of C26: the board is the square (0,0)-(10,10); the polygon handed
to `createBoard` is the anti-board, the large square with the board as a
hole. -/
theorem createBoard_side_walls_from_adapter_witness :
    (∃ obj : CLAYERS_OGL_DISP_LISTS ℚ,
      (createBoard
        (⟨⟨fun _ => 1, fun _ => 0, 1, fun _ => true, fun _ => 4⟩, 0, 1024,
          ⟨fun x => x, fun x => x, fun x => x, 3⟩⟩ : Renderer ℚ)
        (⟨⟨[], []⟩, ⟨[[[(0, 0), (10, 0), (10, 10), (0, 10)]]]⟩, fun _ => true, 1, fun _ => 4,
          0, [], fun _ => none, fun _ => none, 0,
          fun _ _ => [⟨⟨0, 0⟩, ⟨1, 0⟩, ⟨0, 1⟩⟩]⟩ : SCENE_ACCESSORS ℚ)
        ⟨[[[(-1073741823, -1073741823), (1073741823, -1073741823), (1073741823, 1073741823),
          (-1073741823, 1073741823)], [(0, 0), (10, 0), (10, 10), (0, 10)]]]⟩).ret = some obj ∧
      obj.side_walls =
        [MiddleContourCall.ofPoly ⟨[[[(0, 0), (10, 0), (10, 10), (0, 10)]]]⟩ 0 1 1 false] ∧
      ∀ w ∈ obj.side_walls, ∀ (zBot zTop aBiuTo3Du : ℚ) (inv : Bool),
        w ≠ MiddleContourCall.ofPoly
          ⟨[[[(-1073741823, -1073741823), (1073741823, -1073741823), (1073741823, 1073741823),
            (-1073741823, 1073741823)], [(0, 0), (10, 0), (10, 10), (0, 10)]]]⟩
          zBot zTop aBiuTo3Du inv) ∧
    (∀ (BooleanSubtract : SHAPE_POLY_SET → SHAPE_POLY_SET → SHAPE_POLY_SET)
      (rb : ReloadBoard ℚ),
      reload_board
        (⟨⟨fun _ => 1, fun _ => 0, 1, fun _ => true, fun _ => 4⟩, 0, 1024,
          ⟨fun x => x, fun x => x, fun x => x, 3⟩⟩ : Renderer ℚ)
        (⟨⟨[], []⟩, ⟨[[[(0, 0), (10, 0), (10, 10), (0, 10)]]]⟩, fun _ => true, 1, fun _ => 4,
          0, [], fun _ => none, fun _ => none, 0,
          fun _ _ => [⟨⟨0, 0⟩, ⟨1, 0⟩, ⟨0, 1⟩⟩]⟩ : SCENE_ACCESSORS ℚ)
        BooleanSubtract = some rb →
      rb.m_ogl_disp_list_anti_board.side_walls =
        [MiddleContourCall.ofPoly ⟨[[[(0, 0), (10, 0), (10, 10), (0, 10)]]]⟩ 0 1 1 false]) :=
  createBoard_side_walls_from_adapter
    (⟨⟨fun _ => 1, fun _ => 0, 1, fun _ => true, fun _ => 4⟩, 0, 1024,
      ⟨fun x => x, fun x => x, fun x => x, 3⟩⟩ : Renderer ℚ)
    (⟨⟨[], []⟩, ⟨[[[(0, 0), (10, 0), (10, 10), (0, 10)]]]⟩, fun _ => true, 1, fun _ => 4,
      0, [], fun _ => none, fun _ => none, 0,
      fun _ _ => [⟨⟨0, 0⟩, ⟨1, 0⟩, ⟨0, 1⟩⟩]⟩ : SCENE_ACCESSORS ℚ)
    ⟨[[[(-1073741823, -1073741823), (1073741823, -1073741823), (1073741823, 1073741823),
      (-1073741823, 1073741823)], [(0, 0), (10, 0), (10, 10), (0, 10)]]]⟩
    (by simp) (by decide) (by decide)

/-! ### The square of a filled circle is exactly the two triangles -/

theorem filled_circle_top_faces_within (c : SFVEC2F ℝ) (f aZtop : ℝ) (hf : 0 ≤ f)
    (p : SFVEC2F ℝ)
    (h : (Face.triangle ⟨c.x + f, c.y, aZtop⟩ ⟨c.x - f, c.y, aZtop⟩
        ⟨c.x, c.y - f, aZtop⟩).containsXY p ∨
      (Face.triangle ⟨c.x - f, c.y, aZtop⟩ ⟨c.x + f, c.y, aZtop⟩
        ⟨c.x, c.y + f, aZtop⟩).containsXY p) :
    |p.x - c.x| + |p.y - c.y| ≤ f := by
  simp only [Face.containsXY, inTriangle] at h
  rcases hf.eq_or_lt with hf0 | hfpos
  · subst hf0
    have hb : inBoundingBox c c c p := by
      rcases h with ⟨-, hb⟩ | ⟨-, hb⟩
      · simpa [inBoundingBox] using hb
      · simpa [inBoundingBox] using hb
    simp only [inBoundingBox, min_self, max_self] at hb
    obtain ⟨h1, h2, h3, h4⟩ := hb
    have ex : p.x - c.x = 0 := by linarith
    have ey : p.y - c.y = 0 := by linarith
    rw [ex, ey, abs_zero]
    norm_num
  · rcases h with ⟨hs, -⟩ | ⟨hs, -⟩
    · simp only [sameSide, signedArea2] at hs
      rcases hs with ⟨e1, e2, e3⟩ | ⟨e1, e2, e3⟩
      · have d1 : 0 ≤ -(p.y - c.y) :=
          nonneg_of_mul_nonneg_right (by linarith : 0 ≤ f * -(p.y - c.y)) hfpos
        have d2 : 0 ≤ (p.y - c.y) + (p.x - c.x) + f :=
          nonneg_of_mul_nonneg_right
            (by linarith : 0 ≤ f * ((p.y - c.y) + (p.x - c.x) + f)) hfpos
        have d3 : 0 ≤ (p.y - c.y) + f - (p.x - c.x) :=
          nonneg_of_mul_nonneg_right
            (by linarith : 0 ≤ f * ((p.y - c.y) + f - (p.x - c.x))) hfpos
        rw [abs_of_nonpos (by linarith : p.y - c.y ≤ 0)]
        have := abs_le.mpr
          (⟨by linarith, by linarith⟩ : -(f + (p.y - c.y)) ≤ p.x - c.x ∧
            p.x - c.x ≤ f + (p.y - c.y))
        linarith
      · have d1 : 0 ≤ p.y - c.y :=
          nonneg_of_mul_nonneg_right (by linarith : 0 ≤ f * (p.y - c.y)) hfpos
        have d2 : 0 ≤ -((p.y - c.y) + f) :=
          nonneg_of_mul_nonneg_right (by linarith : 0 ≤ f * -((p.y - c.y) + f)) hfpos
        linarith
    · simp only [sameSide, signedArea2] at hs
      rcases hs with ⟨e1, e2, e3⟩ | ⟨e1, e2, e3⟩
      · have d1 : 0 ≤ p.y - c.y :=
          nonneg_of_mul_nonneg_right (by linarith : 0 ≤ f * (p.y - c.y)) hfpos
        have d2 : 0 ≤ f - (p.y - c.y) - (p.x - c.x) :=
          nonneg_of_mul_nonneg_right
            (by linarith : 0 ≤ f * (f - (p.y - c.y) - (p.x - c.x))) hfpos
        have d3 : 0 ≤ f - (p.y - c.y) + (p.x - c.x) :=
          nonneg_of_mul_nonneg_right
            (by linarith : 0 ≤ f * (f - (p.y - c.y) + (p.x - c.x))) hfpos
        rw [abs_of_nonneg d1]
        have := abs_le.mpr
          (⟨by linarith, by linarith⟩ : -(f - (p.y - c.y)) ≤ p.x - c.x ∧
            p.x - c.x ≤ f - (p.y - c.y))
        linarith
      · have d1 : 0 ≤ -(p.y - c.y) :=
          nonneg_of_mul_nonneg_right (by linarith : 0 ≤ f * -(p.y - c.y)) hfpos
        have d2 : 0 ≤ (p.y - c.y) - f :=
          nonneg_of_mul_nonneg_right (by linarith : 0 ≤ f * ((p.y - c.y) - f)) hfpos
        linarith

/-- C27: for every filled circle of radius R >= 0 and centre c (positive
texture size, exact square root of 2) the two top triangles appended are
together exactly the square of the points p with
|p.x - c.x| + |p.y - c.y| <= f, f = sqrt(2) * R * (1 + 8/SIZE), and every point
within distance R of c lies in one of them. -/
theorem filled_circle_union_is_square (R : Renderer ℝ) (aFilledCircle : CFILLEDCIRCLE2D ℝ)
    (aDstLayer : CLAYER_TRIANGLES ℝ) (aZtop aZbot : ℝ)
    (hs : R.math.sqrtf 2 = Real.sqrt 2) (hsize : 0 < R.SIZE_OF_CIRCLE_TEXTURE)
    (hR : 0 ≤ aFilledCircle.GetRadius) :
    ∃ t1 t2 : Face ℝ,
      (add_object_to_triangle_layer_CFILLEDCIRCLE2D R aFilledCircle aDstLayer aZtop
        aZbot).m_layer_top_segment_ends = aDstLayer.m_layer_top_segment_ends ++ [t1, t2] ∧
      (∀ p : SFVEC2F ℝ,
        (t1.containsXY p ∨ t2.containsXY p) ↔
          |p.x - aFilledCircle.GetCenter.x| + |p.y - aFilledCircle.GetCenter.y| ≤
            Real.sqrt 2 * aFilledCircle.GetRadius * (1 + 8 / R.SIZE_OF_CIRCLE_TEXTURE)) ∧
      (∀ p : SFVEC2F ℝ,
        Real.sqrt ((p.x - aFilledCircle.GetCenter.x) ^ 2 +
            (p.y - aFilledCircle.GetCenter.y) ^ 2) ≤ aFilledCircle.GetRadius →
        t1.containsXY p ∨ t2.containsXY p) := by
  have hs0 : 0 ≤ Real.sqrt 2 := Real.sqrt_nonneg 2
  have hs2 : Real.sqrt 2 ^ 2 = 2 := Real.sq_sqrt (by norm_num)
  have htf : 0 ≤ 8 / R.SIZE_OF_CIRCLE_TEXTURE := le_of_lt (div_pos (by norm_num) hsize)
  have hf : 0 ≤ Real.sqrt 2 / 2 * (aFilledCircle.GetRadius * 2) *
      (8 / R.SIZE_OF_CIRCLE_TEXTURE + 1) := by positivity
  have hfe : Real.sqrt 2 * aFilledCircle.GetRadius * (1 + 8 / R.SIZE_OF_CIRCLE_TEXTURE) =
      Real.sqrt 2 / 2 * (aFilledCircle.GetRadius * 2) * (8 / R.SIZE_OF_CIRCLE_TEXTURE + 1) := by
    ring
  refine ⟨_, _, List.append_assoc _ _ _, ?_, ?_⟩
  · intro p
    rw [hs, hfe]
    exact ⟨filled_circle_top_faces_within _ _ _ hf p,
      filled_circle_top_faces_contain _ _ _ hf p⟩
  · intro p hp
    rw [hs]
    apply filled_circle_top_faces_contain _ _ _ hf p
    have h2 := (Real.sqrt_le_iff.mp hp).2
    apply abs_add_abs_le_of_sq _ _ _ hf
    nlinarith [mul_nonneg hR htf, mul_nonneg (mul_nonneg hR hR) htf,
      mul_nonneg (mul_nonneg hR htf) (mul_nonneg hR htf)]

/-- Witness of C27: radius 1 at the origin, texture size 1024. -/
theorem filled_circle_union_is_square_witness :
    ∃ t1 t2 : Face ℝ,
      (add_object_to_triangle_layer_CFILLEDCIRCLE2D
        (⟨⟨fun _ => 1, fun _ => 0, 1, fun _ => true, fun _ => 4⟩, 0, 1024,
          ⟨Real.sqrt, Real.cos, Real.sin, Real.pi⟩⟩ : Renderer ℝ)
        ⟨⟨0, 0⟩, 1⟩ (CLAYER_TRIANGLES.new 0) 1 0).m_layer_top_segment_ends =
          [] ++ [t1, t2] ∧
      (∀ p : SFVEC2F ℝ,
        (t1.containsXY p ∨ t2.containsXY p) ↔
          |p.x - 0| + |p.y - 0| ≤ Real.sqrt 2 * 1 * (1 + 8 / 1024)) ∧
      (∀ p : SFVEC2F ℝ,
        Real.sqrt ((p.x - 0) ^ 2 + (p.y - 0) ^ 2) ≤ 1 →
        t1.containsXY p ∨ t2.containsXY p) :=
  filled_circle_union_is_square
    (⟨⟨fun _ => 1, fun _ => 0, 1, fun _ => true, fun _ => 4⟩, 0, 1024,
      ⟨Real.sqrt, Real.cos, Real.sin, Real.pi⟩⟩ : Renderer ℝ)
    ⟨⟨0, 0⟩, 1⟩ (CLAYER_TRIANGLES.new 0) 1 0 rfl (by norm_num) (by norm_num)

/-! ### The winding of the appended faces -/

theorem triangle_winding (aTri : CTRIANGLE2D α) (aDstLayer : CLAYER_TRIANGLES α)
    (aZtop aZbot : α) :
    ∃ t b : Face α,
      add_object_to_triangle_layer_CTRIANGLE2D aTri aDstLayer aZtop aZbot =
        { aDstLayer with
          m_layer_top_triangles := aDstLayer.m_layer_top_triangles ++ [t]
          m_layer_bot_triangles := aDstLayer.m_layer_bot_triangles ++ [b] } ∧
      t.normalZ = -signedArea2 aTri.GetP1 aTri.GetP2 aTri.GetP3 ∧
      b.normalZ = signedArea2 aTri.GetP1 aTri.GetP2 aTri.GetP3 := by
  refine ⟨_, _, (by
    simp only [add_object_to_triangle_layer_CTRIANGLE2D, add_triangle_top_bot_eq]
    rfl), ?_, ?_⟩
  · simp only [Face.normalZ, signedArea2]
    ring
  · simp only [Face.normalZ, signedArea2]

theorem polygon4pt_winding (aPoly : CPOLYGON4PTS2D α) (aDstLayer : CLAYER_TRIANGLES α)
    (aZtop aZbot : α) :
    ∃ t1 t2 b1 b2 : Face α,
      add_object_to_triangle_layer_CPOLYGON4PTS2D aPoly aDstLayer aZtop aZbot =
        { aDstLayer with
          m_layer_top_triangles := aDstLayer.m_layer_top_triangles ++ [t1, t2]
          m_layer_bot_triangles := aDstLayer.m_layer_bot_triangles ++ [b1, b2] } ∧
      t1.normalZ = signedArea2 aPoly.GetV0 aPoly.GetV1 aPoly.GetV2 ∧
      t2.normalZ = signedArea2 aPoly.GetV0 aPoly.GetV2 aPoly.GetV3 ∧
      b1.normalZ = -signedArea2 aPoly.GetV0 aPoly.GetV1 aPoly.GetV2 ∧
      b2.normalZ = -signedArea2 aPoly.GetV0 aPoly.GetV2 aPoly.GetV3 := by
  refine ⟨_, _, _, _, (by
    simp only [add_object_to_triangle_layer_CPOLYGON4PTS2D, add_triangle_top_bot_eq,
      List.append_assoc, List.singleton_append]
    rfl), ?_, ?_, ?_, ?_⟩
  · simp only [Face.normalZ, signedArea2]; ring
  · simp only [Face.normalZ, signedArea2]; ring
  · simp only [Face.normalZ, signedArea2]; ring
  · simp only [Face.normalZ, signedArea2]; ring

theorem filled_circle_winding (R : Renderer α) (c : CFILLEDCIRCLE2D α)
    (aDstLayer : CLAYER_TRIANGLES α) (aZtop aZbot : α) :
    ∃ t1 t2 b1 b2 : Face α,
      add_object_to_triangle_layer_CFILLEDCIRCLE2D R c aDstLayer aZtop aZbot =
        { aDstLayer with
          m_layer_top_segment_ends := aDstLayer.m_layer_top_segment_ends ++ [t1, t2]
          m_layer_bot_segment_ends := aDstLayer.m_layer_bot_segment_ends ++ [b1, b2] } ∧
      t1.normalZ = 2 * (R.math.sqrtf 2 / 2 * (c.GetRadius * 2) *
        (8 / R.SIZE_OF_CIRCLE_TEXTURE + 1)) ^ 2 ∧
      t2.normalZ = t1.normalZ ∧ b1.normalZ = -t1.normalZ ∧ b2.normalZ = -t1.normalZ := by
  refine ⟨_, _, _, _, (by
    simp only [add_object_to_triangle_layer_CFILLEDCIRCLE2D,
      CLAYER_TRIANGLE_CONTAINER.AddTriangle, List.append_assoc, List.singleton_append]
    rfl), ?_, ?_, ?_, ?_⟩
  · simp only [Face.normalZ, signedArea2]; ring
  · simp only [Face.normalZ, signedArea2]; ring
  · simp only [Face.normalZ, signedArea2]; ring
  · simp only [Face.normalZ, signedArea2]; ring

theorem ring_top_quad_pos (M : FloatMath ℝ) (hcos : M.cos = Real.cos) (hsin : M.sin = Real.sin)
    (hpi : M.pi = Real.pi) (c : SFVEC2F ℝ) (ri ro z : ℝ) (N i : Nat)
    (hri : 0 ≤ ri) (hro : ri < ro) (h3 : 3 ≤ N) (h2 : N ≤ 3600)
    (hi : i < ceil_div 3600 (3600 / N)) :
    0 < (ring_top_quad
      ((List.range' 0 (ceil_div 3600 (3600 / N)) (3600 / N) ++ [0]).map
        (ring_point M c false ri))
      ((List.range' 0 (ceil_div 3600 (3600 / N)) (3600 / N) ++ [0]).map
        (ring_point M c false ro)) z i).normalZ := by
  have h1 : 1 ≤ N := by omega
  have hsq : 0 < ro ^ 2 - ri ^ 2 := by nlinarith
  simp only [ring_top_quad, Nat.add_zero]
  rw [ring_contour_getD _ _ _ i (le_of_lt hi), ring_contour_getD _ _ _ (i + 1) hi,
    ring_contour_getD _ _ _ i (le_of_lt hi), ring_contour_getD _ _ _ (i + 1) hi,
    ring_quad_normalZ M hcos hsin hpi, ring_step_sin N i h1 h2 hi]
  exact mul_pos hsq (ring_step_sin_pos N i h3 h2)

theorem ring_winding (R : Renderer ℝ) (fuel : Nat) (aRing : CRING2D ℝ)
    (aDstLayer : CLAYER_TRIANGLES ℝ) (aZtop aZbot : ℝ)
    (hcos : R.math.cos = Real.cos) (hsin : R.math.sin = Real.sin) (hpi : R.math.pi = Real.pi)
    (hri : 0 ≤ aRing.GetInnerRadius) (hro : aRing.GetInnerRadius < aRing.GetOuterRadius)
    (h3 : 3 ≤ R.m_boardAdapter.GetNrSegmentsCircle (aRing.GetOuterRadius * 2))
    (h2 : R.m_boardAdapter.GetNrSegmentsCircle (aRing.GetOuterRadius * 2) ≤ 3600)
    (hf : 3600 < fuel) :
    ∃ (r : CLAYER_TRIANGLES ℝ) (T B : List (Face ℝ)),
      add_object_to_triangle_layer_CRING2D R fuel aRing aDstLayer aZtop aZbot = some r ∧
      r = { aDstLayer with
        m_layer_top_triangles := aDstLayer.m_layer_top_triangles ++ T
        m_layer_bot_triangles := aDstLayer.m_layer_bot_triangles ++ B } ∧
      T ≠ [] ∧ (∀ t ∈ T, 0 < t.normalZ) ∧ (∀ b ∈ B, b.normalZ < 0) := by
  have h1 : 1 ≤ R.m_boardAdapter.GetNrSegmentsCircle (aRing.GetOuterRadius * 2) := by omega
  have hd : 0 < 3600 / R.m_boardAdapter.GetNrSegmentsCircle (aRing.GetOuterRadius * 2) :=
    Nat.div_pos h2 (by omega)
  have hgen := generate_ring_contour_range R.math fuel aRing.GetCenter aRing.GetInnerRadius
    aRing.GetOuterRadius _ false h1 h2 hf
  have hring := add_object_to_triangle_layer_CRING2D_eq R fuel aRing aDstLayer aZtop aZbot
  rw [hgen, Option.map_some'] at hring
  generalize hN : R.m_boardAdapter.GetNrSegmentsCircle (aRing.GetOuterRadius * 2) = N at *
  have hlen : ((List.range' 0 (ceil_div 3600 (3600 / N)) (3600 / N) ++ [0]).map
      (ring_point R.math aRing.GetCenter false aRing.GetInnerRadius)).length - 1 =
      ceil_div 3600 (3600 / N) := by
    simp [List.length_range']
  have hn := (ceil_div_bounds (3600 / N) hd).2.2
  refine ⟨_, _, _, hring, rfl, ?_, ?_, ?_⟩
  · intro he
    have hl := congrArg List.length he
    have h0 : ceil_div 3600 (3600 / N) = 0 := by simpa [List.length_range'] using hl
    omega
  · intro t ht
    obtain ⟨i, hi, rfl⟩ := List.mem_map.1 ht
    rw [List.mem_range] at hi
    exact ring_top_quad_pos R.math hcos hsin hpi _ _ _ _ N i hri hro h3 h2
      (lt_of_lt_of_eq hi hlen)
  · intro b hb
    obtain ⟨i, hi, rfl⟩ := List.mem_map.1 hb
    rw [List.mem_range] at hi
    rw [ring_bot_quad_normalZ _ _ aZtop aZbot i]
    exact neg_lt_zero.mpr
      (ring_top_quad_pos R.math hcos hsin hpi _ _ _ _ N i hri hro h3 h2
        (lt_of_lt_of_eq hi hlen))

theorem cap_triangle_normalZ (o d : SFVEC2F ℝ) (a b z x1 y1 x2 y2 x3 y3 : ℝ)
    (h1x : x1 = o.x + a * d.y) (h1y : y1 = o.y - a * d.x)
    (h2x : x2 = o.x - a * d.y) (h2y : y2 = o.y + a * d.x)
    (h3x : x3 = o.x - b * d.x) (h3y : y3 = o.y - b * d.y)
    (ha : 0 < a) (hb : 0 < b) (hd : d.x ^ 2 + d.y ^ 2 = 1) :
    0 < (Face.triangle ⟨x1, y1, z⟩ ⟨x2, y2, z⟩ ⟨x3, y3, z⟩).normalZ := by
  subst h1x h1y h2x h2y h3x h3y
  have e : (Face.triangle (⟨o.x + a * d.y, o.y - a * d.x, z⟩ : SFVEC3F ℝ)
      ⟨o.x - a * d.y, o.y + a * d.x, z⟩ ⟨o.x - b * d.x, o.y - b * d.y, z⟩).normalZ =
      2 * (a * b * (d.x ^ 2 + d.y ^ 2)) := by
    simp only [Face.normalZ, signedArea2]
    ring
  rw [e, hd, mul_one]
  exact mul_pos (by norm_num) (mul_pos ha hb)

theorem round_segment_winding (R : Renderer ℝ) (aSeg : CROUNDSEGMENT2D ℝ)
    (aDstLayer : CLAYER_TRIANGLES ℝ) (aZtop aZbot : ℝ) (d : SFVEC2F ℝ)
    (hs : R.math.sqrtf = Real.sqrt) (hsize : 0 < R.SIZE_OF_CIRCLE_TEXTURE)
    (hr : 0 < aSeg.GetRadius) (hr2 : aSeg.GetRadiusSquared = aSeg.GetRadius ^ 2)
    (hd : d.x ^ 2 + d.y ^ 2 = 1)
    (hld : aSeg.GetLeftDir = d) (hrd : aSeg.GetRightDir = ⟨-d.x, -d.y⟩)
    (hls : aSeg.GetLeftStar =
      ⟨aSeg.GetStart.x + aSeg.GetRadius * -d.y, aSeg.GetStart.y + aSeg.GetRadius * d.x⟩)
    (hre : aSeg.GetRightEnd =
      ⟨aSeg.GetStart.x - aSeg.GetRadius * -d.y, aSeg.GetStart.y - aSeg.GetRadius * d.x⟩)
    (hle : aSeg.GetLeftEnd =
      ⟨aSeg.GetEnd.x + aSeg.GetRadius * -d.y, aSeg.GetEnd.y + aSeg.GetRadius * d.x⟩)
    (hrs : aSeg.GetRightStar =
      ⟨aSeg.GetEnd.x - aSeg.GetRadius * -d.y, aSeg.GetEnd.y - aSeg.GetRadius * d.x⟩)
    (hdir : 0 < (aSeg.GetEnd.x - aSeg.GetStart.x) * d.x +
      (aSeg.GetEnd.y - aSeg.GetStart.y) * d.y) :
    ∃ q t1 t2 bq b1 b2 : Face ℝ,
      add_object_to_triangle_layer_CROUNDSEGMENT2D R aSeg aDstLayer aZtop aZbot =
        { aDstLayer with
          m_layer_top_triangles := aDstLayer.m_layer_top_triangles ++ [q]
          m_layer_bot_triangles := aDstLayer.m_layer_bot_triangles ++ [bq]
          m_layer_top_segment_ends := aDstLayer.m_layer_top_segment_ends ++ [t1, t2]
          m_layer_bot_segment_ends := aDstLayer.m_layer_bot_segment_ends ++ [b1, b2] } ∧
      0 < q.normalZ ∧ 0 < t1.normalZ ∧ 0 < t2.normalZ ∧
      bq.normalZ = -q.normalZ ∧ b1.normalZ = -t1.normalZ ∧ b2.normalZ = -t2.normalZ := by
  obtain ⟨ls, le, ld, rs, re, rd, r, r2, st, en⟩ := aSeg
  dsimp only at hr hr2 hld hrd hls hre hle hrs hdir
  subst hld hrd hls hre hle hrs hr2
  have hs0 : 0 < Real.sqrt 2 := Real.sqrt_pos.mpr (by norm_num)
  have hs1 : 1 ≤ Real.sqrt 2 := Real.le_sqrt_of_sq_le (by norm_num)
  have hsq : Real.sqrt (r ^ 2 * 2) = r * Real.sqrt 2 := by
    rw [Real.sqrt_mul (sq_nonneg r), Real.sqrt_sq hr.le]
  have hK : (r * Real.sqrt 2 - r) / r = Real.sqrt 2 - 1 := by
    field_simp
    ring
  have htf : 0 < 12 / R.SIZE_OF_CIRCLE_TEXTURE := div_pos (by norm_num) hsize
  have htfF : 0 < 6 / R.SIZE_OF_CIRCLE_TEXTURE := div_pos (by norm_num) hsize
  have ha : 0 < r + (12 / R.SIZE_OF_CIRCLE_TEXTURE + 1) * (r * (Real.sqrt 2 - 1)) := by
    have := mul_nonneg (add_pos htf one_pos).le (mul_nonneg hr.le (sub_nonneg.mpr hs1))
    linarith
  have hb : 0 < (6 / R.SIZE_OF_CIRCLE_TEXTURE + 1) * Real.sqrt 2 * r :=
    mul_pos (mul_pos (add_pos htfF one_pos) hs0) hr
  refine ⟨_, _, _, _, _, _, (by
    simp only [add_object_to_triangle_layer_CROUNDSEGMENT2D,
      CLAYER_TRIANGLE_CONTAINER.AddTriangle, CLAYER_TRIANGLE_CONTAINER.AddQuad,
      List.append_assoc, List.singleton_append]
    rfl), ?_, ?_, ?_, ?_, ?_, ?_⟩
  · have e : (Face.quad (⟨st.x - r * -ld.y, st.y - r * ld.x, aZtop⟩ : SFVEC3F ℝ)
        ⟨en.x - r * -ld.y, en.y - r * ld.x, aZtop⟩ ⟨en.x + r * -ld.y, en.y + r * ld.x, aZtop⟩
        ⟨st.x + r * -ld.y, st.y + r * ld.x, aZtop⟩).normalZ =
        4 * (r * ((en.x - st.x) * ld.x + (en.y - st.y) * ld.y)) := by
      simp only [Face.normalZ, signedArea2]
      ring
    rw [e]
    exact mul_pos (by norm_num) (mul_pos hr hdir)
  · dsimp only
    refine cap_triangle_normalZ st ld
      (r + (12 / R.SIZE_OF_CIRCLE_TEXTURE + 1) * (r * (Real.sqrt 2 - 1)))
      ((6 / R.SIZE_OF_CIRCLE_TEXTURE + 1) * Real.sqrt 2 * r) aZtop
      _ _ _ _ _ _ ?_ ?_ ?_ ?_ ?_ ?_ ha hb hd
    all_goals (simp only [hs, hsq, hK]; ring)
  · dsimp only
    refine cap_triangle_normalZ en ⟨-ld.x, -ld.y⟩
      (r + (12 / R.SIZE_OF_CIRCLE_TEXTURE + 1) * (r * (Real.sqrt 2 - 1)))
      ((6 / R.SIZE_OF_CIRCLE_TEXTURE + 1) * Real.sqrt 2 * r) aZtop
      _ _ _ _ _ _ ?_ ?_ ?_ ?_ ?_ ?_ ha hb (by dsimp only; nlinarith [hd])
    all_goals (simp only [hs, hsq, hK]; ring)
  · simp only [Face.normalZ, signedArea2]; ring
  · simp only [Face.normalZ, signedArea2]; ring
  · simp only [Face.normalZ, signedArea2]; ring

/-- C3 as amended: whenever the converter chosen for a primitive returns, the
k-th face appended to a bottom buffer has the signed XY area opposite to that
of the k-th face appended to the matching top buffer.  For a ring with
0 <= inner < outer and a segment count between 3 and 3600, for a rounded
segment with radius r > 0 whose unit direction d points from start to end
(leftDir = d, rightDir = -d, corners start +- r n and end +- r n with
n = (-d.y, d.x)) and for a filled circle with radius R > 0 (positive texture
size, exact cosine, sine, pi and square root), every face appended to a top
buffer is wound to +Z and every face appended to a bottom buffer to -Z.  For a
triangle primitive the top face has the signed area of (P3, P2, P1), so it
winds to +Z exactly when P1, P2, P3 are clockwise; the two top faces of a
4-point polygon have the signed areas of (V0, V1, V2) and (V0, V2, V3), so
they wind to +Z exactly when these are counter-clockwise. -/
theorem winding_follows_input_orientation (R : Renderer ℝ) (fuel : Nat)
    (object2d_A : COBJECT2D ℝ) (st st' : CLAYER_TRIANGLES ℝ × Nat) (aZtop aZbot : ℝ)
    (h : add_object_to_triangle_layer R fuel object2d_A st aZtop aZbot = some st') :
    ∃ T B TE BE : List (Face ℝ),
      st'.1.m_layer_top_triangles = st.1.m_layer_top_triangles ++ T ∧
      st'.1.m_layer_bot_triangles = st.1.m_layer_bot_triangles ++ B ∧
      st'.1.m_layer_top_segment_ends = st.1.m_layer_top_segment_ends ++ TE ∧
      st'.1.m_layer_bot_segment_ends = st.1.m_layer_bot_segment_ends ++ BE ∧
      List.Forall₂ (fun b t => b.normalZ = -t.normalZ) B T ∧
      List.Forall₂ (fun b t => b.normalZ = -t.normalZ) BE TE ∧
      (∀ o : CTRIANGLE2D ℝ, object2d_A = COBJECT2D.TRIANGLE o →
        ∃ t b : Face ℝ, T = [t] ∧ B = [b] ∧ TE = [] ∧ BE = [] ∧
          t.normalZ = -signedArea2 o.GetP1 o.GetP2 o.GetP3 ∧
          b.normalZ = signedArea2 o.GetP1 o.GetP2 o.GetP3 ∧
          (0 < t.normalZ ↔ signedArea2 o.GetP1 o.GetP2 o.GetP3 < 0)) ∧
      (∀ o : CPOLYGON4PTS2D ℝ, object2d_A = COBJECT2D.POLYGON4PT o →
        ∃ t1 t2 b1 b2 : Face ℝ, T = [t1, t2] ∧ B = [b1, b2] ∧ TE = [] ∧ BE = [] ∧
          t1.normalZ = signedArea2 o.GetV0 o.GetV1 o.GetV2 ∧
          t2.normalZ = signedArea2 o.GetV0 o.GetV2 o.GetV3 ∧
          b1.normalZ = -signedArea2 o.GetV0 o.GetV1 o.GetV2 ∧
          b2.normalZ = -signedArea2 o.GetV0 o.GetV2 o.GetV3) ∧
      (∀ o : CFILLEDCIRCLE2D ℝ, object2d_A = COBJECT2D.FILLED_CIRCLE o →
        ∃ t1 t2 b1 b2 : Face ℝ, T = [] ∧ B = [] ∧ TE = [t1, t2] ∧ BE = [b1, b2] ∧
          0 ≤ t1.normalZ ∧ 0 ≤ t2.normalZ ∧ b1.normalZ ≤ 0 ∧ b2.normalZ ≤ 0 ∧
          t1.normalZ = 2 * (R.math.sqrtf 2 / 2 * (o.GetRadius * 2) *
            (8 / R.SIZE_OF_CIRCLE_TEXTURE + 1)) ^ 2 ∧
          t2.normalZ = t1.normalZ ∧ b1.normalZ = -t1.normalZ ∧ b2.normalZ = -t1.normalZ ∧
          (0 < R.math.sqrtf 2 → 0 < o.GetRadius → 0 < R.SIZE_OF_CIRCLE_TEXTURE →
            0 < t1.normalZ ∧ 0 < t2.normalZ ∧ b1.normalZ < 0 ∧ b2.normalZ < 0)) ∧
      (∀ o : CRING2D ℝ, object2d_A = COBJECT2D.RING o →
        R.math.cos = Real.cos → R.math.sin = Real.sin → R.math.pi = Real.pi →
        0 ≤ o.GetInnerRadius → o.GetInnerRadius < o.GetOuterRadius →
        3 ≤ R.m_boardAdapter.GetNrSegmentsCircle (o.GetOuterRadius * 2) →
        R.m_boardAdapter.GetNrSegmentsCircle (o.GetOuterRadius * 2) ≤ 3600 →
        3600 < fuel →
        T ≠ [] ∧ TE = [] ∧ BE = [] ∧
          (∀ t ∈ T, 0 < t.normalZ) ∧ (∀ b ∈ B, b.normalZ < 0)) ∧
      (∀ (o : CROUNDSEGMENT2D ℝ) (d : SFVEC2F ℝ), object2d_A = COBJECT2D.ROUNDSEG o →
        R.math.sqrtf = Real.sqrt → 0 < R.SIZE_OF_CIRCLE_TEXTURE →
        0 < o.GetRadius → o.GetRadiusSquared = o.GetRadius ^ 2 →
        d.x ^ 2 + d.y ^ 2 = 1 →
        o.GetLeftDir = d → o.GetRightDir = ⟨-d.x, -d.y⟩ →
        o.GetLeftStar =
          ⟨o.GetStart.x + o.GetRadius * -d.y, o.GetStart.y + o.GetRadius * d.x⟩ →
        o.GetRightEnd =
          ⟨o.GetStart.x - o.GetRadius * -d.y, o.GetStart.y - o.GetRadius * d.x⟩ →
        o.GetLeftEnd =
          ⟨o.GetEnd.x + o.GetRadius * -d.y, o.GetEnd.y + o.GetRadius * d.x⟩ →
        o.GetRightStar =
          ⟨o.GetEnd.x - o.GetRadius * -d.y, o.GetEnd.y - o.GetRadius * d.x⟩ →
        0 < (o.GetEnd.x - o.GetStart.x) * d.x + (o.GetEnd.y - o.GetStart.y) * d.y →
        ∃ q t1 t2 bq b1 b2 : Face ℝ,
          T = [q] ∧ B = [bq] ∧ TE = [t1, t2] ∧ BE = [b1, b2] ∧
          0 < q.normalZ ∧ 0 < t1.normalZ ∧ 0 < t2.normalZ ∧
          bq.normalZ < 0 ∧ b1.normalZ < 0 ∧ b2.normalZ < 0) := by
  obtain ⟨T, B, TE, BE, h1, h2, h3, h4, h5, h6⟩ :=
    add_object_to_triangle_layer_appends R fuel object2d_A st st' aZtop aZbot h
  have nil_of : ∀ (l X : List (Face ℝ)), l = l ++ X → X = [] := by
    intro l X e
    exact (List.append_cancel_left (e.symm.trans (List.append_nil l).symm))
  refine ⟨T, B, TE, BE, h1, h2, h3, h4, h5.imp (fun b t hbt => isReverseOf_normalZ b t hbt),
    h6.imp (fun b t hbt => isReverseOf_normalZ b t hbt), ?_, ?_, ?_, ?_, ?_⟩
  · intro o ho
    subst ho
    simp only [add_object_to_triangle_layer, Option.some.injEq] at h
    subst h
    obtain ⟨t, b, e, ht, hb⟩ := triangle_winding o st.1 aZtop aZbot
    have eT : T = [t] := List.append_cancel_left
      (h1.symm.trans (congrArg CLAYER_TRIANGLES.m_layer_top_triangles e))
    have eB : B = [b] := List.append_cancel_left
      (h2.symm.trans (congrArg CLAYER_TRIANGLES.m_layer_bot_triangles e))
    have eTE : TE = [] := nil_of _ _
      ((congrArg CLAYER_TRIANGLES.m_layer_top_segment_ends e).symm.trans h3)
    have eBE : BE = [] := nil_of _ _
      ((congrArg CLAYER_TRIANGLES.m_layer_bot_segment_ends e).symm.trans h4)
    refine ⟨t, b, eT, eB, eTE, eBE, ht, hb, ?_⟩
    rw [ht]
    exact neg_pos
  · intro o ho
    subst ho
    simp only [add_object_to_triangle_layer, Option.some.injEq] at h
    subst h
    obtain ⟨t1, t2, b1, b2, e, ht1, ht2, hb1, hb2⟩ := polygon4pt_winding o st.1 aZtop aZbot
    have eT : T = [t1, t2] := List.append_cancel_left
      (h1.symm.trans (congrArg CLAYER_TRIANGLES.m_layer_top_triangles e))
    have eB : B = [b1, b2] := List.append_cancel_left
      (h2.symm.trans (congrArg CLAYER_TRIANGLES.m_layer_bot_triangles e))
    have eTE : TE = [] := nil_of _ _
      ((congrArg CLAYER_TRIANGLES.m_layer_top_segment_ends e).symm.trans h3)
    have eBE : BE = [] := nil_of _ _
      ((congrArg CLAYER_TRIANGLES.m_layer_bot_segment_ends e).symm.trans h4)
    exact ⟨t1, t2, b1, b2, eT, eB, eTE, eBE, ht1, ht2, hb1, hb2⟩
  · intro o ho
    subst ho
    simp only [add_object_to_triangle_layer, Option.some.injEq] at h
    subst h
    obtain ⟨t1, t2, b1, b2, e, ht1, ht2, hb1, hb2⟩ := filled_circle_winding R o st.1 aZtop aZbot
    have eT : T = [] := nil_of _ _
      ((congrArg CLAYER_TRIANGLES.m_layer_top_triangles e).symm.trans h1)
    have eB : B = [] := nil_of _ _
      ((congrArg CLAYER_TRIANGLES.m_layer_bot_triangles e).symm.trans h2)
    have eTE : TE = [t1, t2] := List.append_cancel_left
      (h3.symm.trans (congrArg CLAYER_TRIANGLES.m_layer_top_segment_ends e))
    have eBE : BE = [b1, b2] := List.append_cancel_left
      (h4.symm.trans (congrArg CLAYER_TRIANGLES.m_layer_bot_segment_ends e))
    have key : 0 ≤ t1.normalZ := by
      rw [ht1]
      positivity
    refine ⟨t1, t2, b1, b2, eT, eB, eTE, eBE, key, by rw [ht2]; exact key,
      by rw [hb1]; linarith, by rw [hb2]; linarith, ht1, ht2, hb1, hb2, ?_⟩
    intro hs0 hR hsize
    have hpos : 0 < t1.normalZ := by
      rw [ht1]
      have htf : 0 < 8 / R.SIZE_OF_CIRCLE_TEXTURE := div_pos (by norm_num) hsize
      positivity
    exact ⟨hpos, by rw [ht2]; exact hpos, by rw [hb1]; linarith, by rw [hb2]; linarith⟩
  · intro o ho hcos hsin hpi hri hro hN3 hN2 hf
    subst ho
    obtain ⟨r, T', B', hr, er, hne, hT, hB⟩ := ring_winding R fuel o st.1 aZtop aZbot hcos hsin
      hpi hri hro hN3 hN2 hf
    simp only [add_object_to_triangle_layer, hr, Option.map_some', Option.some.injEq] at h
    subst h
    have eT : T = T' := List.append_cancel_left
      (h1.symm.trans (congrArg CLAYER_TRIANGLES.m_layer_top_triangles er))
    have eB : B = B' := List.append_cancel_left
      (h2.symm.trans (congrArg CLAYER_TRIANGLES.m_layer_bot_triangles er))
    have eTE : TE = [] := nil_of _ _
      ((congrArg CLAYER_TRIANGLES.m_layer_top_segment_ends er).symm.trans h3)
    have eBE : BE = [] := nil_of _ _
      ((congrArg CLAYER_TRIANGLES.m_layer_bot_segment_ends er).symm.trans h4)
    rw [eT, eB]
    exact ⟨hne, eTE, eBE, hT, hB⟩
  · intro o d ho hs hsize hr hr2 hd hld hrd hls hre hle hrs hdir
    subst ho
    simp only [add_object_to_triangle_layer, Option.some.injEq] at h
    subst h
    obtain ⟨q, t1, t2, bq, b1, b2, e, hq, ht1, ht2, hbq, hb1, hb2⟩ :=
      round_segment_winding R o st.1 aZtop aZbot d hs hsize hr hr2 hd hld hrd hls hre hle hrs
        hdir
    have eT : T = [q] := List.append_cancel_left
      (h1.symm.trans (congrArg CLAYER_TRIANGLES.m_layer_top_triangles e))
    have eB : B = [bq] := List.append_cancel_left
      (h2.symm.trans (congrArg CLAYER_TRIANGLES.m_layer_bot_triangles e))
    have eTE : TE = [t1, t2] := List.append_cancel_left
      (h3.symm.trans (congrArg CLAYER_TRIANGLES.m_layer_top_segment_ends e))
    have eBE : BE = [b1, b2] := List.append_cancel_left
      (h4.symm.trans (congrArg CLAYER_TRIANGLES.m_layer_bot_segment_ends e))
    exact ⟨q, t1, t2, bq, b1, b2, eT, eB, eTE, eBE, hq, ht1, ht2,
      by rw [hbq]; linarith, by rw [hb1]; linarith, by rw [hb2]; linarith⟩

/-- Witness of C3 as amended: the ring of radii 1 and 2 at the origin with four
segments (fuel 3601) and the rounded segment from (0,0) to (2,0) with radius 1
and direction (1,0), each converted into an empty mesh with Ztop = 1 and
Zbot = 0 (texture size 1024): every top face is wound to +Z and every bottom
face to -Z. -/
theorem winding_follows_input_orientation_witness :
    (∃ (st' : CLAYER_TRIANGLES ℝ × Nat) (T B : List (Face ℝ)),
      add_object_to_triangle_layer
        (⟨⟨fun _ => 1, fun _ => 0, 1, fun _ => true, fun _ => 4⟩, 0, 1024,
          ⟨Real.sqrt, Real.cos, Real.sin, Real.pi⟩⟩ : Renderer ℝ)
        3601 (COBJECT2D.RING ⟨⟨0, 0⟩, 1, 2⟩) (CLAYER_TRIANGLES.new 0, 0) 1 0 = some st' ∧
      st'.1.m_layer_top_triangles = [] ++ T ∧ st'.1.m_layer_bot_triangles = [] ++ B ∧
      T ≠ [] ∧ (∀ t ∈ T, 0 < t.normalZ) ∧ (∀ b ∈ B, b.normalZ < 0)) ∧
    (∃ (st' : CLAYER_TRIANGLES ℝ × Nat) (q t1 t2 bq b1 b2 : Face ℝ),
      add_object_to_triangle_layer
        (⟨⟨fun _ => 1, fun _ => 0, 1, fun _ => true, fun _ => 4⟩, 0, 1024,
          ⟨Real.sqrt, Real.cos, Real.sin, Real.pi⟩⟩ : Renderer ℝ)
        0 (COBJECT2D.ROUNDSEG
          ⟨⟨0, 1⟩, ⟨2, 1⟩, ⟨1, 0⟩, ⟨2, -1⟩, ⟨0, -1⟩, ⟨-1, 0⟩, 1, 1, ⟨0, 0⟩, ⟨2, 0⟩⟩)
        (CLAYER_TRIANGLES.new 0, 0) 1 0 = some st' ∧
      st'.1.m_layer_top_triangles = [] ++ [q] ∧
      st'.1.m_layer_bot_triangles = [] ++ [bq] ∧
      st'.1.m_layer_top_segment_ends = [] ++ [t1, t2] ∧
      st'.1.m_layer_bot_segment_ends = [] ++ [b1, b2] ∧
      0 < q.normalZ ∧ 0 < t1.normalZ ∧ 0 < t2.normalZ ∧
      bq.normalZ < 0 ∧ b1.normalZ < 0 ∧ b2.normalZ < 0) := by
  constructor
  · obtain ⟨r, hr⟩ := add_object_to_triangle_layer_CRING2D_returns
      (⟨⟨fun _ => 1, fun _ => 0, 1, fun _ => true, fun _ => 4⟩, 0, 1024,
        ⟨Real.sqrt, Real.cos, Real.sin, Real.pi⟩⟩ : Renderer ℝ)
      3601 ⟨⟨0, 0⟩, 1, 2⟩ (CLAYER_TRIANGLES.new 0) 1 0 (by decide) (by decide) (by decide)
    have h : add_object_to_triangle_layer
        (⟨⟨fun _ => 1, fun _ => 0, 1, fun _ => true, fun _ => 4⟩, 0, 1024,
          ⟨Real.sqrt, Real.cos, Real.sin, Real.pi⟩⟩ : Renderer ℝ)
        3601 (COBJECT2D.RING ⟨⟨0, 0⟩, 1, 2⟩) (CLAYER_TRIANGLES.new 0, 0) 1 0 =
          some (r, 0) := by
      simp only [add_object_to_triangle_layer, hr, Option.map_some']
    obtain ⟨T, B, TE, BE, h1, h2, -, -, -, -, -, -, -, hring, -⟩ :=
      winding_follows_input_orientation _ _ _ _ _ _ _ h
    obtain ⟨hne, -, -, hT, hB⟩ := hring ⟨⟨0, 0⟩, 1, 2⟩ rfl rfl rfl rfl (by norm_num)
      (by norm_num) (by decide : (3 : Nat) ≤ 4) (by decide : (4 : Nat) ≤ 3600) (by decide)
    exact ⟨(r, 0), T, B, h, h1, h2, hne, hT, hB⟩
  · obtain ⟨T, B, TE, BE, h1, h2, h3, h4, -, -, -, -, -, -, hseg⟩ :=
      winding_follows_input_orientation
        (⟨⟨fun _ => 1, fun _ => 0, 1, fun _ => true, fun _ => 4⟩, 0, 1024,
          ⟨Real.sqrt, Real.cos, Real.sin, Real.pi⟩⟩ : Renderer ℝ)
        0 (COBJECT2D.ROUNDSEG
          ⟨⟨0, 1⟩, ⟨2, 1⟩, ⟨1, 0⟩, ⟨2, -1⟩, ⟨0, -1⟩, ⟨-1, 0⟩, 1, 1, ⟨0, 0⟩, ⟨2, 0⟩⟩)
        (CLAYER_TRIANGLES.new 0, 0) _ 1 0 rfl
    obtain ⟨q, t1, t2, bq, b1, b2, eT, eB, eTE, eBE, hpos⟩ := hseg _ ⟨1, 0⟩ rfl rfl
      (by norm_num) (by norm_num) (by norm_num) (by norm_num) rfl (by norm_num)
      (by norm_num) (by norm_num) (by norm_num) (by norm_num) (by norm_num)
    rw [eT] at h1
    rw [eB] at h2
    rw [eTE] at h3
    rw [eBE] at h4
    exact ⟨_, q, t1, t2, bq, b1, b2, rfl, h1, h2, h3, h4, hpos⟩

end C3D_RENDER_OGL_LEGACY
